import Mathlib

/-!
Security core of the SEcube firmware (`se3_security_core.c`)

Shallow embedding of the command handlers `crypto_init`, `crypto_update`,
`crypto_set_time`, `crypto_list`, of the payload channel
`se3_payload_cryptoinit`, `se3_payload_encrypt`, `se3_payload_decrypt` and of
the record store `record_find`, `record_set`, `record_get`, followed by
theorems about them.

Conventions of the embedding.

* A C buffer reached through a pointer is a `Mem`: a map from byte index to
  byte value. `memset`, `memcpy`, `SE3_GET16`, ... act on such maps.
* Machine integers are natural numbers; a store into a `uint16_t` or
  `uint32_t` variable reduces modulo `2 ^ 16` or `2 ^ 32` where the C value
  may exceed the range.
* The module-level state (`se3_security_info`, the device time, the flash key
  store) and the buffers behind the pointer arguments of the command handlers
  are gathered in one record, `World`, passed through every handler.
* In the command handlers, every call of a function that lives outside
  `se3_security_core.c` (arena, key store, time authority, algorithm
  handlers) appends an `Event` to `World.log`, in program order.
* Numeric constants of headers are fields of `Config`, except the wire
  offsets, which the specification fixes. The algorithm handlers are fields of
  `Handlers`, the B5 primitives fields of `B5`. The arena, the key store and
  the time authority, whose code is in other files, are modelled from the
  specification.
* The record store works on a flash device of its own record, `se3_flash`,
  modelled from the specification; the calls of the flash iterator are
  appended to `se3_flash.log` as `FlashEvent`s.
-/

namespace SE3

/-! ## Buffers -/

/-- Memory behind a byte pointer: index to byte value. -/
abbrev Mem := Nat → Nat

/-- C `memset(m + off, v, n)`. -/
def memset (m : Mem) (off v n : Nat) : Mem :=
  fun i => if off ≤ i ∧ i < off + n then v else m i

/-- C `memcpy(m + off, src, n)`. -/
def memcpy (m : Mem) (off : Nat) (src : Mem) (n : Nat) : Mem :=
  fun i => if off ≤ i ∧ i < off + n then src (i - off) else m i

/-- The view `m + off` of a buffer. -/
def Mem.shift (m : Mem) (off : Nat) : Mem :=
  fun i => m (off + i)

/-- The bytes `m[off .. off + n)` as a list. -/
def Mem.read (m : Mem) (off n : Nat) : List Nat :=
  (List.range n).map (fun i => m (off + i))

/-- A byte list seen as memory (zero past its end). -/
def Mem.ofList (l : List Nat) : Mem :=
  fun i => l.getD i 0

/-- Modelled from the spec: the macro `SE3_GET16` is not in the source file;
the spec fixes "little-endian multi-byte integers on the wire". -/
def SE3_GET16 (buf : Mem) (offset : Nat) : Nat :=
  buf offset % 256 + (buf (offset + 1) % 256) * 256

/-- Modelled from the spec: the macro `SE3_GET32` is not in the source file;
little-endian, four bytes. -/
def SE3_GET32 (buf : Mem) (offset : Nat) : Nat :=
  buf offset % 256 + (buf (offset + 1) % 256) * 256
    + (buf (offset + 2) % 256) * 65536 + (buf (offset + 3) % 256) * 16777216

/-- Modelled from the spec: the macro `SE3_SET16` is not in the source file;
little-endian store of the low sixteen bits of `val`. -/
def SE3_SET16 (buf : Mem) (offset val : Nat) : Mem :=
  fun i =>
    if i = offset then val % 256
    else if i = offset + 1 then val / 256 % 256
    else buf i

/-- Modelled from the spec: the macro `SE3_SET32` is not in the source file;
little-endian store of the low thirty-two bits of `val`. -/
def SE3_SET32 (buf : Mem) (offset val : Nat) : Mem :=
  fun i =>
    if i = offset then val % 256
    else if i = offset + 1 then val / 256 % 256
    else if i = offset + 2 then val / 65536 % 256
    else if i = offset + 3 then val / 16777216 % 256
    else buf i

/-! ## Status codes and constants -/

/-- Modelled from the spec: the status codes of the external interface
(`OK`, `ERR_PARAMS`, `ERR_ACCESS`, `ERR_RESOURCE`, `ERR_MEMORY`,
`ERR_EXPIRED`, `ERR_HW`); the header that numbers them is not in the source
file. -/
inductive Status
  | SE3_OK
  | SE3_ERR_PARAMS
  | SE3_ERR_ACCESS
  | SE3_ERR_RESOURCE
  | SE3_ERR_MEMORY
  | SE3_ERR_EXPIRED
  | SE3_ERR_HW
  deriving DecidableEq, Repr

/-- Constants of headers that are not in the source file. -/
structure Config where
  /-- Largest request payload of the transport. -/
  SE3_REQ1_MAX_DATA : Nat
  /-- Number of entries of `sessions_algo`. -/
  SE3_SESSIONS_MAX : Nat
  /-- Size of the scratch that holds key bytes. -/
  SE3_KEY_DATA_MAX : Nat
  /-- Key id meaning "no key". -/
  SE3_KEY_INVALID : Nat
  /-- Session id meaning "no session". -/
  SE3_SESSION_INVALID : Nat
  /-- Bit mask of the flag that closes a session. -/
  SE3_CRYPTO_FLAG_FINIT : Nat
  SE3_CRYPTO_TYPE_BLOCKCIPHER : Nat
  SE3_CRYPTO_TYPE_DIGEST : Nat
  SE3_CRYPTO_TYPE_BLOCKCIPHER_AUTH : Nat
  /-- Value of `sizeof(B5_tAesCtx)`. -/
  sizeof_B5_tAesCtx : Nat
  /-- Value of `sizeof(B5_tSha256Ctx)`. -/
  sizeof_B5_tSha256Ctx : Nat
  /-- Value of `sizeof(B5_tHmacSha256Ctx)`. -/
  sizeof_B5_tHmacSha256Ctx : Nat
  /-- Payload algorithm codes. -/
  SE3_AES256 : Nat
  SE3_CRC16 : Nat
  SE3_PBKDF2 : Nat
  SE3_SHA256 : Nat
  /-- Payload flag masks. -/
  SE3_CMDFLAG_ENCRYPT : Nat
  SE3_CMDFLAG_SIGN : Nat
  /-- AES mode codes of the B5 library. -/
  B5_AES256_CBC_ENC : Nat
  B5_AES256_CBC_DEC : Nat

/-- Number of slots of `algo_table` (the table has eight initialisers). -/
def SE3_ALGO_MAX : Nat := 8

/-- Modelled from the spec: `AES_BLK=16`. -/
def B5_AES_BLK_SIZE : Nat := 16

/-- Modelled from the spec: the payload functions take `iv[16]`. -/
def B5_AES_IV_SIZE : Nat := 16

/-- Modelled from the spec: `AES_256 key=32`. -/
def B5_AES_256 : Nat := 32

/-- Modelled from the spec: `SHA256_DIGEST=32`. -/
def B5_SHA256_DIGEST_SIZE : Nat := 32

/-- Modelled from the spec: wire format of `crypto_init`,
request `algo:u16, mode:u16, key_id:u32`, response `sid:u32`. -/
def SE3_CMD1_CRYPTO_INIT_REQ_SIZE : Nat := 8

/-- Modelled from the spec: offset of `algo` in the `crypto_init` request. -/
def SE3_CMD1_CRYPTO_INIT_REQ_OFF_ALGO : Nat := 0

/-- Modelled from the spec: offset of `mode` in the `crypto_init` request. -/
def SE3_CMD1_CRYPTO_INIT_REQ_OFF_MODE : Nat := 2

/-- Modelled from the spec: offset of `key_id` in the `crypto_init` request. -/
def SE3_CMD1_CRYPTO_INIT_REQ_OFF_KEY_ID : Nat := 4

/-- Modelled from the spec: size of the `crypto_init` response (`sid:u32`). -/
def SE3_CMD1_CRYPTO_INIT_RESP_SIZE : Nat := 4

/-- Modelled from the spec: offset of `sid` in the `crypto_init` response. -/
def SE3_CMD1_CRYPTO_INIT_RESP_OFF_SID : Nat := 0

/-- Modelled from the spec: wire format of `crypto_update`, request
`sid:u32, flags:u16, d1_len:u16, d2_len:u16, pad→16, d1, pad→16, d2`. -/
def SE3_CMD1_CRYPTO_UPDATE_REQ_OFF_SID : Nat := 0

/-- Modelled from the spec: offset of `flags` in the `crypto_update` request. -/
def SE3_CMD1_CRYPTO_UPDATE_REQ_OFF_FLAGS : Nat := 4

/-- Modelled from the spec: offset of `d1_len` in the `crypto_update` request. -/
def SE3_CMD1_CRYPTO_UPDATE_REQ_OFF_DATAIN1_LEN : Nat := 6

/-- Modelled from the spec: offset of `d2_len` in the `crypto_update` request. -/
def SE3_CMD1_CRYPTO_UPDATE_REQ_OFF_DATAIN2_LEN : Nat := 8

/-- Modelled from the spec: the `crypto_update` header is padded to sixteen
bytes, the data follow. -/
def SE3_CMD1_CRYPTO_UPDATE_REQ_OFF_DATA : Nat := 16

/-- Modelled from the spec: response `dataout_len:u16, pad→16, dataout[]`. -/
def SE3_CMD1_CRYPTO_UPDATE_RESP_OFF_DATAOUT_LEN : Nat := 0

/-- Modelled from the spec: `dataout` follows the padded response header. -/
def SE3_CMD1_CRYPTO_UPDATE_RESP_OFF_DATA : Nat := 16

/-- Modelled from the spec: request of `crypto_set_time` is `devtime:u32`. -/
def SE3_CMD1_CRYPTO_SET_TIME_REQ_SIZE : Nat := 4

/-- Modelled from the spec: offset of `devtime`. -/
def SE3_CMD1_CRYPTO_SET_TIME_REQ_OFF_DEVTIME : Nat := 0

/-- Modelled from the spec: the request of `crypto_list` is empty. -/
def SE3_CMD1_CRYPTO_LIST_REQ_SIZE : Nat := 0

/-- Modelled from the spec: response `count:u16, algoinfo[count]`. -/
def SE3_CMD1_CRYPTO_LIST_RESP_OFF_COUNT : Nat := 0

/-- Modelled from the spec: the entries follow the two-byte count. -/
def SE3_CMD1_CRYPTO_LIST_RESP_OFF_ALGOINFO : Nat := 2

/-- Modelled from the spec: `algoinfo = name[16] ‖ type:u16 ‖ block_size:u16 ‖
key_size:u16`. -/
def SE3_CMD1_CRYPTO_ALGOINFO_SIZE : Nat := 22

/-- Modelled from the spec: offset of `name` in an entry. -/
def SE3_CMD1_CRYPTO_ALGOINFO_OFF_NAME : Nat := 0

/-- Modelled from the spec: offset of `type` in an entry. -/
def SE3_CMD1_CRYPTO_ALGOINFO_OFF_TYPE : Nat := 16

/-- Modelled from the spec: offset of `block_size` in an entry. -/
def SE3_CMD1_CRYPTO_ALGOINFO_OFF_BLOCK_SIZE : Nat := 18

/-- Modelled from the spec: offset of `key_size` in an entry. -/
def SE3_CMD1_CRYPTO_ALGOINFO_OFF_KEY_SIZE : Nat := 20

/-- Modelled from the spec: size of `name` in an entry. -/
def SE3_CMD1_CRYPTO_ALGOINFO_NAME_SIZE : Nat := 16

/-! ## Keys, handlers, the algorithm table -/

/-- The C struct `se3_flash_key` (`name` is always `NULL` in this file and is
left out). `data` is the buffer behind the `data` pointer. -/
structure se3_flash_key where
  id : Nat
  validity : Nat
  data_size : Nat
  name_size : Nat
  data : Mem

/-- Result of an init handler: status and the context bytes it left. -/
structure InitResult where
  status : Status
  ctx : List Nat

/-- An init handler `handler(&key, mode, ctx)`: reads the key and the mode,
works on the context block. -/
abbrev se3_crypto_init_handler := se3_flash_key → Nat → List Nat → InitResult

/-- Result of an update handler: status, the context bytes it left, the value
it stored in `*dataout_len` and the content of the `dataout` buffer. -/
structure UpdateResult where
  status : Status
  ctx : List Nat
  dataout_len : Nat
  dataout : Mem

/-- An update handler
`handler(ctx, flags, datain1_len, datain1, datain2_len, datain2, &dataout_len, dataout)`;
the last argument is the `dataout` buffer as the handler finds it. -/
abbrev se3_crypto_update_handler :=
  List Nat → Nat → Nat → Mem → Nat → Mem → Mem → UpdateResult

/-- The algorithm handlers named by `algo_table`; their code is in other
files. -/
structure Handlers where
  se3_algo_Aes_init : se3_crypto_init_handler
  se3_algo_Aes_update : se3_crypto_update_handler
  se3_algo_Sha256_init : se3_crypto_init_handler
  se3_algo_Sha256_update : se3_crypto_update_handler
  se3_algo_HmacSha256_init : se3_crypto_init_handler
  se3_algo_HmacSha256_update : se3_crypto_update_handler
  se3_algo_AesHmacSha256s_init : se3_crypto_init_handler
  se3_algo_AesHmacSha256s_update : se3_crypto_update_handler
  se3_algo_aes256hmacsha256_init : se3_crypto_init_handler
  se3_algo_aes256hmacsha256_update : se3_crypto_update_handler

/-- The C struct `se3_algo_descriptor`, fields in initialiser order; a `NULL`
handler is `none`. -/
structure se3_algo_descriptor where
  init : Option se3_crypto_init_handler
  update : Option se3_crypto_update_handler
  size : Nat
  display_name : List Nat
  display_type : Nat
  display_block_size : Nat
  display_key_size : Nat

/-- A string literal stored in a `char[16]`: its bytes, zero filled. -/
def display_name16 (s : String) : List Nat :=
  let b := s.toList.map Char.toNat
  b ++ List.replicate (SE3_CMD1_CRYPTO_ALGOINFO_NAME_SIZE - b.length) 0

/-- The empty descriptor `{ NULL, NULL, 0, "", 0, 0, 0 }`. -/
def algo_empty : se3_algo_descriptor :=
  { init := none, update := none, size := 0, display_name := display_name16 "",
    display_type := 0, display_block_size := 0, display_key_size := 0 }

/-- The table `algo_table[SE3_ALGO_MAX]`. -/
def algo_table (cfg : Config) (h : Handlers) : List se3_algo_descriptor :=
  [ { init := some h.se3_algo_Aes_init
      update := some h.se3_algo_Aes_update
      size := cfg.sizeof_B5_tAesCtx
      display_name := display_name16 "Aes"
      display_type := cfg.SE3_CRYPTO_TYPE_BLOCKCIPHER
      display_block_size := B5_AES_BLK_SIZE
      display_key_size := B5_AES_256 },
    { init := some h.se3_algo_Sha256_init
      update := some h.se3_algo_Sha256_update
      size := cfg.sizeof_B5_tSha256Ctx
      display_name := display_name16 "Sha256"
      display_type := cfg.SE3_CRYPTO_TYPE_DIGEST
      display_block_size := B5_SHA256_DIGEST_SIZE
      display_key_size := 0 },
    { init := some h.se3_algo_HmacSha256_init
      update := some h.se3_algo_HmacSha256_update
      size := cfg.sizeof_B5_tHmacSha256Ctx
      display_name := display_name16 "HmacSha256"
      display_type := cfg.SE3_CRYPTO_TYPE_DIGEST
      display_block_size := B5_SHA256_DIGEST_SIZE
      display_key_size := B5_AES_256 },
    { init := some h.se3_algo_AesHmacSha256s_init
      update := some h.se3_algo_AesHmacSha256s_update
      size := cfg.sizeof_B5_tAesCtx + cfg.sizeof_B5_tHmacSha256Ctx + 2 * B5_AES_256 + 2 + 3 * 1
      display_name := display_name16 "AesHmacSha256s"
      display_type := cfg.SE3_CRYPTO_TYPE_BLOCKCIPHER_AUTH
      display_block_size := B5_AES_BLK_SIZE
      display_key_size := B5_AES_256 },
    { init := some h.se3_algo_aes256hmacsha256_init
      update := some h.se3_algo_aes256hmacsha256_update
      size := cfg.sizeof_B5_tAesCtx + cfg.sizeof_B5_tHmacSha256Ctx
      display_name := display_name16 "AES256HMACSHA256"
      display_type := cfg.SE3_CRYPTO_TYPE_BLOCKCIPHER_AUTH
      display_block_size := B5_AES_BLK_SIZE
      display_key_size := B5_AES_256 },
    algo_empty,
    algo_empty,
    algo_empty ]

/-- The entry `algo_table[i]`; the C code indexes only after a bounds check,
outside the table the empty descriptor stands in. -/
def algo_table_at (cfg : Config) (h : Handlers) (i : Nat) : se3_algo_descriptor :=
  (algo_table cfg h).getD i algo_empty

/-! ## Session arena, key store, device time -/

/-- One allocated block of the arena: the size it was allocated with and the
context bytes. -/
structure se3_mem_block where
  size : Nat
  ctx : List Nat

/-- Modelled from the spec: the session arena (`se3_mem`), whose code is not
in the source file: "fixed capacity of `SESSIONS_MAX` sessions and a fixed
total byte pool". `slots sid` is the block of an allocated `sid`. -/
structure se3_mem where
  max_count : Nat
  dat_size : Nat
  slots : Nat → Option se3_mem_block

/-- Bytes of the pool in use. -/
def se3_mem.used (mem : se3_mem) : Nat :=
  ((List.range mem.max_count).map
    (fun i => match mem.slots i with
      | some b => b.size
      | none => 0)).sum

/-- Modelled from the spec: `allocate(size)` "returns the smallest free id
whose slot can hold `size` bytes of context; fails if exhausted". The content
of a fresh block is not specified; the model hands out zero bytes. -/
def se3_mem_alloc (mem : se3_mem) (size : Nat) : Option (Nat × se3_mem) :=
  if mem.used + size ≤ mem.dat_size then
    match (List.range mem.max_count).find? (fun i => (mem.slots i).isNone) with
    | some sid =>
      some (sid, { mem with
        slots := Function.update mem.slots sid
          (some { size := size, ctx := List.replicate size 0 }) })
    | none => none
  else none

/-- Modelled from the spec: `pointer(sid)` "returns the backing context slice
for an allocated sid". -/
def se3_mem_ptr (mem : se3_mem) (sid : Nat) : Option (List Nat) :=
  if sid < mem.max_count then (mem.slots sid).map (fun b => b.ctx) else none

/-- Modelled from the spec: `free(sid)` "returns the slot to the pool". -/
def se3_mem_free (mem : se3_mem) (sid : Nat) : se3_mem :=
  { mem with slots := Function.update mem.slots sid none }

/-- The handler worked in place on the context block of `sid`. -/
def se3_mem.store (mem : se3_mem) (sid : Nat) (ctx : List Nat) : se3_mem :=
  { mem with
    slots := Function.update mem.slots sid
      ((mem.slots sid).map (fun b => { b with ctx := ctx })) }

/-- Modelled from the spec: `key_find(id)` "returns position of the key block
or not-found"; the flash key store is the list of its key entries. -/
def se3_key_find (flash : List se3_flash_key) (id : Nat) : Option se3_flash_key :=
  flash.find? (fun k => k.id == id)

/-- Modelled from the spec: `key_read(iter, out)` "fills the key entry,
including raw material, validity, and name". The caller set `out.data` to
`req + 16` and `out.name` to `NULL`: the key bytes land in the request buffer
at offset 16. Returns the key entry and the request buffer. -/
def se3_key_read (fk : se3_flash_key) (req : Mem) : se3_flash_key × Mem :=
  let req1 := memcpy req 16 fk.data fk.data_size
  ({ id := fk.id
     validity := fk.validity
     data_size := fk.data_size
     name_size := fk.name_size
     data := Mem.shift req1 16 }, req1)

/-- The part of the C struct `SE3_SECURITY_INFO` this file uses. -/
structure SE3_SECURITY_INFO where
  sessions : se3_mem
  sessions_algo : Nat → Nat

/-- Calls that leave `se3_security_core.c`, in program order. -/
inductive Event
  | se3_key_find (id : Nat)
  | se3_key_read (id : Nat)
  | se3_time_get
  | get_now_initialized
  | se3_time_set (t : Nat)
  | se3_mem_alloc (size : Nat)
  | se3_mem_ptr (sid : Nat)
  | se3_mem_free (sid : Nat)
  | init_handler (algo mode : Nat)
  | update_handler (algo flags datain1_len datain2_len : Nat)
  deriving DecidableEq, Repr

/-- Everything a command handler reads or writes. -/
structure World where
  /-- The global `se3_security_info`. -/
  se3_security_info : SE3_SECURITY_INFO
  /-- Device time (`se3_time_get`). -/
  now : Nat
  /-- Whether the device time was set (`get_now_initialized`). -/
  now_initialized : Bool
  /-- Key entries of the flash. -/
  flash : List se3_flash_key
  /-- Buffer behind `req`. -/
  req : Mem
  /-- Buffer behind `resp`. -/
  resp : Mem
  /-- Value behind `resp_size`. -/
  resp_size : Nat
  /-- Indeterminate content of the local `key` of `crypto_init` before it is
  assigned. -/
  stack_key : se3_flash_key
  /-- External calls so far. -/
  log : List Event

/-- Record an external call. -/
def World.emit (w : World) (e : Event) : World :=
  { w with log := w.log ++ [e] }

/-- Modelled from the spec: the device time authority, whose code is not in
the source file, is "a process-wide monotonic counter with an initialized
flag"; `se3_time_get()` returns the counter. -/
def se3_time_get (w : World) : Nat :=
  w.now

/-- Modelled from the spec: `get_now_initialized()` returns the "initialized"
flag of the device time authority. -/
def get_now_initialized (w : World) : Bool :=
  w.now_initialized

/-- Modelled from the spec: `se3_time_set(t)` "sets the device time authority
to `devtime`; marks the authority initialized". -/
def se3_time_set (w : World) (t : Nat) : World :=
  { w with now := t, now_initialized := true }

/-! ## Command handlers -/

/-- Lines 209-244 of `crypto_init`: allocate the session, run the init
handler, link the session to the algorithm and emit the sid. -/
def crypto_init_session (cfg : Config) (h : Handlers) (handler : se3_crypto_init_handler)
    (algo mode : Nat) (key : se3_flash_key) (w : World) : Status × World :=
  let size := (algo_table_at cfg h algo).size
  let w1 := w.emit (Event.se3_mem_alloc size)
  match se3_mem_alloc w.se3_security_info.sessions size with
  | none =>
    -- `sid < 0`: `resp_params.sid` stays `SE3_SESSION_INVALID`
    (Status.SE3_ERR_MEMORY, w1)
  | some (sid, sessions1) =>
    let w2 := { w1 with se3_security_info := { w1.se3_security_info with sessions := sessions1 } }
    let resp_sid := sid % 2 ^ 32
    if resp_sid = cfg.SE3_SESSION_INVALID then
      (Status.SE3_ERR_MEMORY, w2)
    else
      let w3 := w2.emit (Event.se3_mem_ptr sid)
      match se3_mem_ptr sessions1 sid with
      | none => (Status.SE3_ERR_HW, w3)
      | some ctx =>
        let r := handler key mode ctx
        let sessions2 := sessions1.store sid r.ctx
        let w4 := { w3.emit (Event.init_handler algo mode) with
          se3_security_info := { w3.se3_security_info with sessions := sessions2 } }
        if r.status ≠ Status.SE3_OK then
          (r.status,
            { w4.emit (Event.se3_mem_free resp_sid) with
              se3_security_info :=
                { w4.se3_security_info with sessions := se3_mem_free sessions2 resp_sid } })
        else
          (Status.SE3_OK,
            { w4 with
              se3_security_info :=
                { w4.se3_security_info with
                  sessions_algo := Function.update w4.se3_security_info.sessions_algo resp_sid algo }
              resp := SE3_SET32 w4.resp SE3_CMD1_CRYPTO_INIT_RESP_OFF_SID resp_sid
              resp_size := SE3_CMD1_CRYPTO_INIT_RESP_SIZE })

/-- The lookup of lines 175-177 of `crypto_init`: the init handler of `algo`,
`none` for `NULL`. -/
def crypto_init_handler_of (cfg : Config) (h : Handlers) (algo : Nat) :
    Option se3_crypto_init_handler :=
  if algo < SE3_ALGO_MAX then (algo_table_at cfg h algo).init else none

/-- The command `crypto_init : (algo:ui16, mode:ui16, key_id:ui32) => (sid:ui32)`. -/
def crypto_init (cfg : Config) (h : Handlers) (req_size : Nat) (w : World) : Status × World :=
  if req_size ≠ SE3_CMD1_CRYPTO_INIT_REQ_SIZE then
    (Status.SE3_ERR_PARAMS, w)
  else
    let algo := SE3_GET16 w.req SE3_CMD1_CRYPTO_INIT_REQ_OFF_ALGO
    let mode := SE3_GET16 w.req SE3_CMD1_CRYPTO_INIT_REQ_OFF_MODE
    let key_id := SE3_GET32 w.req SE3_CMD1_CRYPTO_INIT_REQ_OFF_KEY_ID
    match crypto_init_handler_of cfg h algo with
    | none => (Status.SE3_ERR_PARAMS, w)
    | some handler =>
      -- `key.data = req + 16`
      if key_id = cfg.SE3_KEY_INVALID then
        let w1 := { w with req := memset w.req 16 0 cfg.SE3_KEY_DATA_MAX }
        let key : se3_flash_key :=
          { id := key_id
            validity := w.stack_key.validity
            data_size := w.stack_key.data_size
            name_size := w.stack_key.name_size
            data := Mem.shift w1.req 16 }
        crypto_init_session cfg h handler algo mode key w1
      else
        let w1 := w.emit (Event.se3_key_find key_id)
        match se3_key_find w.flash key_id with
        | none => (Status.SE3_ERR_RESOURCE, w1)
        | some fk =>
          let kr := se3_key_read fk w1.req
          let key := kr.1
          let w2 := { w1.emit (Event.se3_key_read key_id) with req := kr.2 }
          let w3 := w2.emit Event.se3_time_get
          if key.validity < se3_time_get w2 then
            (Status.SE3_ERR_EXPIRED, w3)
          else
            let w4 := w3.emit Event.get_now_initialized
            if get_now_initialized w3 = false then
              (Status.SE3_ERR_EXPIRED, w4)
            else
              crypto_init_session cfg h handler algo mode key w4

/-- The padded length of `datain1` as `crypto_update` computes it (lines
289-294): the sum is an `int`, the variable that receives it a `uint16_t`. -/
def datain1_len_padded (datain1_len : Nat) : Nat :=
  if datain1_len % 16 ≠ 0 then
    (datain1_len + (16 - datain1_len % 16)) % 2 ^ 16
  else
    datain1_len

/-- The command `crypto_update`. -/
def crypto_update (cfg : Config) (h : Handlers) (req_size : Nat) (w : World) : Status × World :=
  if req_size < SE3_CMD1_CRYPTO_UPDATE_REQ_OFF_DATA then
    (Status.SE3_ERR_PARAMS, w)
  else
    let sid := SE3_GET32 w.req SE3_CMD1_CRYPTO_UPDATE_REQ_OFF_SID
    let flags := SE3_GET16 w.req SE3_CMD1_CRYPTO_UPDATE_REQ_OFF_FLAGS
    let datain1_len := SE3_GET16 w.req SE3_CMD1_CRYPTO_UPDATE_REQ_OFF_DATAIN1_LEN
    let datain2_len := SE3_GET16 w.req SE3_CMD1_CRYPTO_UPDATE_REQ_OFF_DATAIN2_LEN
    let datain1 := Mem.shift w.req SE3_CMD1_CRYPTO_UPDATE_REQ_OFF_DATA
    let padded := datain1_len_padded datain1_len
    let datain2 := Mem.shift w.req (SE3_CMD1_CRYPTO_UPDATE_REQ_OFF_DATA + padded)
    if SE3_CMD1_CRYPTO_UPDATE_REQ_OFF_DATA + padded + datain2_len > cfg.SE3_REQ1_MAX_DATA then
      (Status.SE3_ERR_PARAMS, w)
    else if sid ≥ cfg.SE3_SESSIONS_MAX then
      (Status.SE3_ERR_RESOURCE, w)
    else
      let algo := w.se3_security_info.sessions_algo sid
      if algo ≥ SE3_ALGO_MAX then
        (Status.SE3_ERR_RESOURCE, w)
      else
        match (algo_table_at cfg h algo).update with
        | none => (Status.SE3_ERR_RESOURCE, w)
        | some handler =>
          let w1 := w.emit (Event.se3_mem_ptr sid)
          match se3_mem_ptr w.se3_security_info.sessions sid with
          | none => (Status.SE3_ERR_RESOURCE, w1)
          | some ctx =>
            let r := handler ctx flags datain1_len datain1 datain2_len datain2
              (Mem.shift w.resp SE3_CMD1_CRYPTO_UPDATE_RESP_OFF_DATA)
            let dataout_len := r.dataout_len % 2 ^ 16
            let w2 := { w1.emit (Event.update_handler algo flags datain1_len datain2_len) with
              se3_security_info :=
                { w1.se3_security_info with
                  sessions := w1.se3_security_info.sessions.store sid r.ctx }
              resp := fun i =>
                if i < SE3_CMD1_CRYPTO_UPDATE_RESP_OFF_DATA then w1.resp i
                else r.dataout (i - SE3_CMD1_CRYPTO_UPDATE_RESP_OFF_DATA) }
            if r.status ≠ Status.SE3_OK then
              (r.status, w2)
            else
              let w3 :=
                if flags &&& cfg.SE3_CRYPTO_FLAG_FINIT ≠ 0 then
                  { w2.emit (Event.se3_mem_free sid) with
                    se3_security_info :=
                      { w2.se3_security_info with
                        sessions := se3_mem_free w2.se3_security_info.sessions sid } }
                else w2
              (Status.SE3_OK,
                { w3 with
                  resp := SE3_SET16 w3.resp SE3_CMD1_CRYPTO_UPDATE_RESP_OFF_DATAOUT_LEN dataout_len
                  resp_size := (SE3_CMD1_CRYPTO_UPDATE_RESP_OFF_DATA + dataout_len) % 2 ^ 16 })

/-- The command `crypto_set_time : (devtime:ui32) => ()`. -/
def crypto_set_time (req_size : Nat) (w : World) : Status × World :=
  if req_size ≠ SE3_CMD1_CRYPTO_SET_TIME_REQ_SIZE then
    (Status.SE3_ERR_PARAMS, w)
  else
    let devtime := SE3_GET32 w.req SE3_CMD1_CRYPTO_SET_TIME_REQ_OFF_DEVTIME
    (Status.SE3_OK, se3_time_set (w.emit (Event.se3_time_set devtime)) devtime)

/-- Loop variables of `crypto_list`: `resp_params.count`, `size`, the offset
of `p` in `resp`, and the response buffer. -/
structure crypto_list_vars where
  count : Nat
  size : Nat
  p : Nat
  resp : Mem

/-- One iteration of the loop of `crypto_list`, for table index `i`. -/
def crypto_list_body (cfg : Config) (h : Handlers) (v : crypto_list_vars) (i : Nat) :
    crypto_list_vars :=
  let d := algo_table_at cfg h i
  if d.init.isSome ∧ d.update.isSome then
    let r1 := memcpy v.resp (v.p + SE3_CMD1_CRYPTO_ALGOINFO_OFF_NAME)
      (Mem.ofList d.display_name) SE3_CMD1_CRYPTO_ALGOINFO_NAME_SIZE
    let r2 := SE3_SET16 r1 (v.p + SE3_CMD1_CRYPTO_ALGOINFO_OFF_TYPE) d.display_type
    let r3 := SE3_SET16 r2 (v.p + SE3_CMD1_CRYPTO_ALGOINFO_OFF_BLOCK_SIZE) d.display_block_size
    let r4 := SE3_SET16 r3 (v.p + SE3_CMD1_CRYPTO_ALGOINFO_OFF_KEY_SIZE) d.display_key_size
    { count := (v.count + 1) % 2 ^ 16
      size := (v.size + SE3_CMD1_CRYPTO_ALGOINFO_SIZE) % 2 ^ 16
      p := v.p + SE3_CMD1_CRYPTO_ALGOINFO_SIZE
      resp := r4 }
  else v

/-- The command `crypto_list : () => (count:ui16, algoinfo0, algoinfo1, ...)`. -/
def crypto_list (cfg : Config) (h : Handlers) (req_size : Nat) (w : World) : Status × World :=
  if req_size ≠ SE3_CMD1_CRYPTO_LIST_REQ_SIZE then
    (Status.SE3_ERR_PARAMS, w)
  else
    let v0 : crypto_list_vars :=
      { count := 0
        size := SE3_CMD1_CRYPTO_LIST_RESP_OFF_ALGOINFO
        p := SE3_CMD1_CRYPTO_LIST_RESP_OFF_ALGOINFO
        resp := w.resp }
    let v := (List.range SE3_ALGO_MAX).foldl (crypto_list_body cfg h) v0
    (Status.SE3_OK,
      { w with
        resp := SE3_SET16 v.resp SE3_CMD1_CRYPTO_LIST_RESP_OFF_COUNT v.count
        resp_size := v.size })

/-! ## Payload channel -/

/-- The primitives of the B5 library the payload channel calls; their code is
in other files. A context is the list of its bytes. An `Init` builds the
context from its arguments; `Update` and `Finit` return the context they
leave. -/
structure B5 where
  /-- The call `PBKDF2HmacSha256(pw, pwLen, salt, saltLen, iterations, out, outLen)`. -/
  PBKDF2HmacSha256 : List Nat → Nat → List Nat → Nat → Nat → Nat → List Nat
  /-- The call `B5_Aes256_Init(ctx, key, keySize, mode)`. -/
  B5_Aes256_Init : List Nat → Nat → Nat → List Nat
  /-- The call `B5_Aes256_SetIV(ctx, iv)`. -/
  B5_Aes256_SetIV : List Nat → List Nat → List Nat
  /-- The call `B5_Aes256_Update(ctx, out, in, nBlk)`: context left and output. -/
  B5_Aes256_Update : List Nat → List Nat → Nat → List Nat × List Nat
  /-- The call `B5_HmacSha256_Init(ctx, key, keySize)`. -/
  B5_HmacSha256_Init : List Nat → Nat → List Nat
  /-- The call `B5_HmacSha256_Update(ctx, data, dataLen)`. -/
  B5_HmacSha256_Update : List Nat → List Nat → Nat → List Nat
  /-- The call `B5_HmacSha256_Finit(ctx, digest)`: context left and digest. -/
  B5_HmacSha256_Finit : List Nat → List Nat × List Nat

/-- The C struct `se3_payload_cryptoctx`. -/
structure se3_payload_cryptoctx where
  aesenc : List Nat
  aesdec : List Nat
  hmac : List Nat
  hmac_key : List Nat
  auth : List Nat

/-- The function `se3_payload_cryptoinit(ctx, key)`; `ctx0` is the context as
found (the fields `hmac` and `auth` are not written). -/
def se3_payload_cryptoinit (cfg : Config) (b5 : B5) (ctx0 : se3_payload_cryptoctx)
    (key : List Nat) : se3_payload_cryptoctx :=
  let keys := b5.PBKDF2HmacSha256 key B5_AES_256 [] 0 1 (2 * B5_AES_256)
  { ctx0 with
    aesenc := b5.B5_Aes256_Init keys B5_AES_256 cfg.B5_AES256_CBC_ENC
    aesdec := b5.B5_Aes256_Init keys B5_AES_256 cfg.B5_AES256_CBC_DEC
    hmac_key := Mem.read (Mem.ofList keys) B5_AES_256 B5_AES_256 }

/-- What `se3_payload_encrypt` and `se3_payload_decrypt` return and leave
behind their pointer arguments. -/
structure PayloadResult where
  ok : Bool
  ctx : se3_payload_cryptoctx
  auth : List Nat
  data : List Nat

/-- The HMAC computation shared by both payload functions: `Init` with
`hmac_key`, `Update` with `iv`, `Update` with `nblocks*B5_AES_BLK_SIZE` bytes
of `data`, `Finit` into `ctx->auth`. -/
def payload_hmac (b5 : B5) (ctx : se3_payload_cryptoctx) (iv data : List Nat)
    (nblocks : Nat) : se3_payload_cryptoctx :=
  let h1 := b5.B5_HmacSha256_Init ctx.hmac_key B5_AES_256
  let h2 := b5.B5_HmacSha256_Update h1 iv B5_AES_IV_SIZE
  let h3 := b5.B5_HmacSha256_Update h2 data (nblocks * B5_AES_BLK_SIZE)
  let r := b5.B5_HmacSha256_Finit h3
  { ctx with hmac := r.1, auth := r.2 }

/-- The function `se3_payload_encrypt(ctx, auth, iv, data, nblocks, flags, crypto_algo)`. -/
def se3_payload_encrypt (cfg : Config) (b5 : B5) (ctx : se3_payload_cryptoctx)
    (auth iv data : List Nat) (nblocks flags crypto_algo : Nat) : PayloadResult :=
  if crypto_algo = cfg.SE3_AES256 then
    let enc :=
      if flags &&& cfg.SE3_CMDFLAG_ENCRYPT ≠ 0 then
        let r := b5.B5_Aes256_Update (b5.B5_Aes256_SetIV ctx.aesenc iv) data nblocks
        ({ ctx with aesenc := r.1 }, r.2)
      else (ctx, data)
    let ctx1 := enc.1
    let data1 := enc.2
    if flags &&& cfg.SE3_CMDFLAG_SIGN ≠ 0 then
      let ctx2 := payload_hmac b5 ctx1 iv data1 nblocks
      { ok := true, ctx := ctx2, auth := Mem.read (Mem.ofList ctx2.auth) 0 16, data := data1 }
    else
      { ok := true, ctx := ctx1, auth := Mem.read (memset (Mem.ofList auth) 0 0 16) 0 16,
        data := data1 }
  else
    -- `SE3_CRC16`, `SE3_PBKDF2`, `SE3_SHA256` fall through to `default`
    { ok := false, ctx := ctx, auth := auth, data := data }

/-- The function `se3_payload_decrypt(ctx, auth, iv, data, nblocks, flags, crypto_algo)`. -/
def se3_payload_decrypt (cfg : Config) (b5 : B5) (ctx : se3_payload_cryptoctx)
    (auth iv data : List Nat) (nblocks flags crypto_algo : Nat) : PayloadResult :=
  let ctx1 :=
    if flags &&& cfg.SE3_CMDFLAG_SIGN ≠ 0 then payload_hmac b5 ctx iv data nblocks else ctx
  if flags &&& cfg.SE3_CMDFLAG_SIGN ≠ 0 ∧
      Mem.read (Mem.ofList auth) 0 16 ≠ Mem.read (Mem.ofList ctx1.auth) 0 16 then
    -- `memcmp(auth, ctx->auth, 16)` is not zero
    { ok := false, ctx := ctx1, auth := auth, data := data }
  else if crypto_algo = cfg.SE3_AES256 then
    if flags &&& cfg.SE3_CMDFLAG_ENCRYPT ≠ 0 then
      let r := b5.B5_Aes256_Update (b5.B5_Aes256_SetIV ctx1.aesdec iv) data nblocks
      { ok := true, ctx := { ctx1 with aesdec := r.1 }, auth := auth, data := r.2 }
    else
      { ok := true, ctx := ctx1, auth := auth, data := data }
  else
    { ok := false, ctx := ctx1, auth := auth, data := data }

/-! ## Record store -/

/-- Constants of the record store, from headers that are not in the source
file. -/
structure RecordConfig where
  /-- Number of record types. -/
  SE3_RECORD_MAX : Nat
  /-- Size in bytes of the payload of a record. -/
  SE3_RECORD_SIZE : Nat
  /-- Category tag of the flash blocks that hold records. -/
  SE3_FLASH_TYPE_RECORD : Nat

/-- Modelled from the spec: "Flash record layout (per block): `OFFSET_TYPE`
(2 bytes) ‖ `OFFSET_DATA` (`RECORD_SIZE` bytes)"; the type field has two
bytes. -/
def SE3_RECORD_SIZE_TYPE : Nat := 2

/-- Modelled from the spec: the type field is first in the block. -/
def SE3_RECORD_OFFSET_TYPE : Nat := 0

/-- Modelled from the spec: the payload follows the two bytes of the type. -/
def SE3_RECORD_OFFSET_DATA : Nat := 2

/-- Modelled from the spec: a block of the flash, with its category
(`type`: "records, keys, …"), whether it is live (`valid`, cleared by
`delete`: "in-place invalidation"), its size and its bytes. -/
structure se3_flash_node where
  type : Nat
  valid : Bool
  size : Nat
  data : Mem

/-- The calls of the flash iterator, which lives outside
`se3_security_core.c`; `ok` is what the call returned, `addr` the block the
iterator was on. -/
inductive FlashEvent
  | se3_flash_it_init
  | se3_flash_it_next
  | se3_flash_it_new (type size : Nat) (ok : Bool)
  | se3_flash_it_write (addr offset size : Nat) (ok : Bool)
  | se3_flash_it_delete (addr : Nat) (ok : Bool)
  deriving DecidableEq, Repr

/-- Modelled from the spec: the flash device, "append-only ... with in-place
invalidation". The blocks are `nodes 0`, ..., `nodes (count - 1)`, the
address of a block is its index, and a new block is appended at index
`count` with the bytes `erased count`. The spec does not say when the flash
fails nor what a failed write leaves behind: `fails n` tells whether the
`n`-th call of `new`, `write` or `delete` fails (`ops` counts them), and a
failed write leaves the bytes `torn n` in the range it was to write. Every
call of the iterator is appended to `log`, in program order. -/
structure se3_flash where
  count : Nat
  nodes : Nat → se3_flash_node
  erased : Nat → Mem
  fails : Nat → Bool
  torn : Nat → Mem
  ops : Nat
  log : List FlashEvent

/-- Modelled from the spec: the flash iterator: the block it is on (`addr`),
the category and size of that block, and the index where `next` resumes
(`pos`). -/
structure se3_flash_it where
  addr : Nat
  type : Nat
  size : Nat
  pos : Nat

/-- Modelled from the spec: `se3_flash_it_init` puts the iterator before the
first block. -/
def se3_flash_it_init (f : se3_flash) : se3_flash × se3_flash_it :=
  ({ f with log := f.log ++ [FlashEvent.se3_flash_it_init] },
    { addr := 0, type := 0, size := 0, pos := 0 })

/-- Modelled from the spec: `next` moves the iterator to the next live
block, and returns false when there is none. -/
def se3_flash_it_next (f : se3_flash) (it : se3_flash_it) : Bool × se3_flash × se3_flash_it :=
  let f1 := { f with log := f.log ++ [FlashEvent.se3_flash_it_next] }
  match (List.range f.count).find? (fun i => decide (it.pos ≤ i) && (f.nodes i).valid) with
  | some i =>
    (true, f1, { addr := i, type := (f.nodes i).type, size := (f.nodes i).size, pos := i + 1 })
  | none => (false, f1, it)

/-- Modelled from the spec: `new(type, size)` appends a live block of that
category and size and puts the iterator on it; on failure nothing is
allocated. -/
def se3_flash_it_new (f : se3_flash) (it : se3_flash_it) (type size : Nat) :
    Bool × se3_flash × se3_flash_it :=
  if f.fails f.ops then
    (false,
      { f with ops := f.ops + 1
               log := f.log ++ [FlashEvent.se3_flash_it_new type size false] },
      it)
  else
    (true,
      { f with count := f.count + 1
               nodes := Function.update f.nodes f.count
                 { type := type, valid := true, size := size, data := f.erased f.count }
               ops := f.ops + 1
               log := f.log ++ [FlashEvent.se3_flash_it_new type size true] },
      { addr := f.count, type := type, size := size, pos := f.count + 1 })

/-- Modelled from the spec: `write(offset, bytes, len)` copies `len` bytes
into the block of the iterator at `offset`; a failed write leaves the bytes
`torn` in that range. -/
def se3_flash_it_write (f : se3_flash) (it : se3_flash_it) (offset : Nat) (data : Mem)
    (size : Nat) : Bool × se3_flash :=
  if f.fails f.ops then
    (false,
      { f with nodes := Function.update f.nodes it.addr
                 { f.nodes it.addr with
                   data := memcpy (f.nodes it.addr).data offset (f.torn f.ops) size }
               ops := f.ops + 1
               log := f.log ++ [FlashEvent.se3_flash_it_write it.addr offset size false] })
  else
    (true,
      { f with nodes := Function.update f.nodes it.addr
                 { f.nodes it.addr with
                   data := memcpy (f.nodes it.addr).data offset data size }
               ops := f.ops + 1
               log := f.log ++ [FlashEvent.se3_flash_it_write it.addr offset size true] })

/-- Modelled from the spec: `delete` invalidates the block of the iterator in
place; on failure the block stays live. -/
def se3_flash_it_delete (f : se3_flash) (it : se3_flash_it) : Bool × se3_flash :=
  if f.fails f.ops then
    (false,
      { f with ops := f.ops + 1
               log := f.log ++ [FlashEvent.se3_flash_it_delete it.addr false] })
  else
    (true,
      { f with nodes := Function.update f.nodes it.addr
                 { f.nodes it.addr with valid := false }
               ops := f.ops + 1
               log := f.log ++ [FlashEvent.se3_flash_it_delete it.addr true] })

/-- The `while` loop of `record_find`, with a bound on the number of
iterations; `record_find_loop_enough` shows that the bound `record_find`
passes is never reached. -/
def record_find_loop (rc : RecordConfig) (record_type : Nat) :
    Nat → se3_flash → se3_flash_it → Bool × se3_flash × se3_flash_it
  | 0, f, it => (false, f, it)
  | fuel + 1, f, it =>
    match se3_flash_it_next f it with
    | (false, f1, it1) => (false, f1, it1)
    | (true, f1, it1) =>
      if it1.type = rc.SE3_FLASH_TYPE_RECORD then
        let it_record_type := SE3_GET16 (f1.nodes it1.addr).data SE3_RECORD_OFFSET_TYPE
        if it_record_type = record_type then (true, f1, it1)
        else record_find_loop rc record_type fuel f1 it1
      else record_find_loop rc record_type fuel f1 it1

/-- The function `record_find`: scan from the iterator for a record block
whose type field is `record_type`. -/
def record_find (rc : RecordConfig) (record_type : Nat) (f : se3_flash) (it : se3_flash_it) :
    Bool × se3_flash × se3_flash_it :=
  record_find_loop rc record_type (f.count + 1 - it.pos) f it

/-- Lines 100-121 of `record_set`: allocate the new block on a copy of the
iterator, write the payload and then the type, and delete the block found
before, if any. -/
def record_set_write (rc : RecordConfig) (type : Nat) (data : Mem) (found : Bool)
    (f1 : se3_flash) (it : se3_flash_it) : Bool × se3_flash :=
  -- allocate new flash block
  let it2 := it
  match se3_flash_it_new f1 it2 rc.SE3_FLASH_TYPE_RECORD
      (SE3_RECORD_SIZE_TYPE + rc.SE3_RECORD_SIZE) with
  | (false, f2, _) => (false, f2)
  | (true, f2, it2) =>
    -- write record type and data
    match se3_flash_it_write f2 it2 SE3_RECORD_OFFSET_DATA data rc.SE3_RECORD_SIZE with
    | (false, f3) => (false, f3)
    | (true, f3) =>
      let tmp := SE3_SET16 (fun _ => 0) 0 type
      match se3_flash_it_write f3 it2 SE3_RECORD_OFFSET_TYPE tmp SE3_RECORD_SIZE_TYPE with
      | (false, f4) => (false, f4)
      | (true, f4) =>
        if found then
          -- delete previously found flash block
          match se3_flash_it_delete f4 it with
          | (false, f5) => (false, f5)
          | (true, f5) => (true, f5)
        else (true, f4)

/-- The function `record_set`; `type` is a `uint16_t`. -/
def record_set (rc : RecordConfig) (type : Nat) (data : Mem) (f : se3_flash) :
    Bool × se3_flash :=
  if type ≥ rc.SE3_RECORD_MAX then (false, f)
  else
    let (f0, it0) := se3_flash_it_init f
    let (found, f1, it) := record_find rc type f0 it0
    record_set_write rc type data found f1 it

/-- The function `record_get`; `data` is the buffer of the caller, returned
with the payload copied in. -/
def record_get (rc : RecordConfig) (type : Nat) (data : Mem) (f : se3_flash) :
    Bool × Mem × se3_flash :=
  if type ≥ rc.SE3_RECORD_MAX then (false, data, f)
  else
    let (f0, it0) := se3_flash_it_init f
    match record_find rc type f0 it0 with
    | (false, f1, _) => (false, data, f1)
    | (true, f1, it) =>
      (true,
        memcpy data 0 (Mem.shift (f1.nodes it.addr).data SE3_RECORD_OFFSET_DATA)
          rc.SE3_RECORD_SIZE,
        f1)

/-! ## The specification's words, and sample data -/

/-- The specification's `round_up(n, m)`: the least multiple of `m` that is
at least `n`, as a natural number. -/
def spec_round_up (n m : Nat) : Nat :=
  (n + (m - 1)) / m * m

/-- The slots of an arena that are allocated. -/
def se3_mem.allocated (mem : se3_mem) (sid : Nat) : Bool :=
  (mem.slots sid).isSome

/-- A `crypto_init` request on the wire. -/
def req_crypto_init (algo mode key_id : Nat) : Mem :=
  SE3_SET32
    (SE3_SET16
      (SE3_SET16 (fun _ => 0) SE3_CMD1_CRYPTO_INIT_REQ_OFF_ALGO algo)
      SE3_CMD1_CRYPTO_INIT_REQ_OFF_MODE mode)
    SE3_CMD1_CRYPTO_INIT_REQ_OFF_KEY_ID key_id

/-- The header of a `crypto_update` request on the wire (no data bytes). -/
def req_crypto_update (sid flags datain1_len datain2_len : Nat) : Mem :=
  SE3_SET16
    (SE3_SET16
      (SE3_SET16
        (SE3_SET32 (fun _ => 0) SE3_CMD1_CRYPTO_UPDATE_REQ_OFF_SID sid)
        SE3_CMD1_CRYPTO_UPDATE_REQ_OFF_FLAGS flags)
      SE3_CMD1_CRYPTO_UPDATE_REQ_OFF_DATAIN1_LEN datain1_len)
    SE3_CMD1_CRYPTO_UPDATE_REQ_OFF_DATAIN2_LEN datain2_len

/-- A sample configuration, used to instantiate the theorems. -/
def sample_cfg : Config :=
  { SE3_REQ1_MAX_DATA := 7536
    SE3_SESSIONS_MAX := 4
    SE3_KEY_DATA_MAX := 2048
    SE3_KEY_INVALID := 0xFFFFFFFF
    SE3_SESSION_INVALID := 0xFFFFFFFF
    SE3_CRYPTO_FLAG_FINIT := 0x8000
    SE3_CRYPTO_TYPE_BLOCKCIPHER := 0
    SE3_CRYPTO_TYPE_DIGEST := 2
    SE3_CRYPTO_TYPE_BLOCKCIPHER_AUTH := 3
    sizeof_B5_tAesCtx := 8
    sizeof_B5_tSha256Ctx := 4
    sizeof_B5_tHmacSha256Ctx := 6
    SE3_AES256 := 0
    SE3_CRC16 := 1
    SE3_PBKDF2 := 2
    SE3_SHA256 := 3
    SE3_CMDFLAG_ENCRYPT := 0x8000
    SE3_CMDFLAG_SIGN := 0x4000
    B5_AES256_CBC_ENC := 3
    B5_AES256_CBC_DEC := 4 }

/-- A sample init handler: succeeds and leaves the context as found. -/
def sample_init : se3_crypto_init_handler :=
  fun _ _ ctx => { status := Status.SE3_OK, ctx := ctx }

/-- A sample update handler: fails with `SE3_ERR_HW` when bit 0 of `flags` is
set and succeeds otherwise; no output. -/
def sample_update : se3_crypto_update_handler :=
  fun ctx flags _ _ _ _ dataout =>
    { status := if flags % 2 = 1 then Status.SE3_ERR_HW else Status.SE3_OK
      ctx := ctx, dataout_len := 0, dataout := dataout }

/-- Sample handlers for the five registered algorithms. -/
def sample_handlers : Handlers :=
  { se3_algo_Aes_init := sample_init
    se3_algo_Aes_update := sample_update
    se3_algo_Sha256_init := sample_init
    se3_algo_Sha256_update := sample_update
    se3_algo_HmacSha256_init := sample_init
    se3_algo_HmacSha256_update := sample_update
    se3_algo_AesHmacSha256s_init := sample_init
    se3_algo_AesHmacSha256s_update := sample_update
    se3_algo_aes256hmacsha256_init := sample_init
    se3_algo_aes256hmacsha256_update := sample_update }

/-- A sample key of the flash: id 1, validity 500, four key bytes. -/
def sample_key : se3_flash_key :=
  { id := 1, validity := 500, data_size := 4, name_size := 0,
    data := Mem.ofList [0xAA, 0xBB, 0xCC, 0xDD] }

/-- A sample state: an empty arena of four sessions, the device time not yet
set, one key in the flash, zeroed buffers. -/
def sample_world : World :=
  { se3_security_info :=
      { sessions := { max_count := 4, dat_size := 1024, slots := fun _ => none }
        sessions_algo := fun _ => 0 }
    now := 0
    now_initialized := false
    flash := [sample_key]
    req := fun _ => 0
    resp := fun _ => 0
    resp_size := 0
    stack_key := { id := 0, validity := 0, data_size := 0, name_size := 0, data := fun _ => 0 }
    log := [] }

/-- The sample state with session 0 open on algorithm 0 (AES). -/
def sample_world_open : World :=
  { sample_world with
    se3_security_info :=
      { sessions :=
          { max_count := 4, dat_size := 1024
            slots := fun i =>
              if i = 0 then some { size := 8, ctx := [0, 0, 0, 0, 0, 0, 0, 0] } else none }
        sessions_algo := fun _ => 0 } }

/-- The sample state after `crypto_set_time(1000)`: the sample key, whose
validity is 500, is expired. -/
def sample_world_1000 : World :=
  { sample_world with now := 1000, now_initialized := true }

/-- The sample state after `crypto_set_time(100)`: the sample key is valid. -/
def sample_world_100 : World :=
  { sample_world with now := 100, now_initialized := true }

/-! ## Vocabulary of the statements -/

/-- Calls that consult the key store or the device time. -/
def Event.is_key_or_time : Event → Bool
  | Event.se3_key_find _ => true
  | Event.se3_key_read _ => true
  | Event.se3_time_get => true
  | Event.get_now_initialized => true
  | Event.se3_time_set _ => true
  | _ => false

/-- Calls of an init handler. -/
def Event.is_init_handler : Event → Bool
  | Event.init_handler _ _ => true
  | _ => false

/-- The sentinel `SE3_SESSION_INVALID` is a 32-bit value that is not an index
of `sessions_algo`. -/
def Config.wf (cfg : Config) : Prop :=
  cfg.SE3_SESSIONS_MAX ≤ cfg.SE3_SESSION_INVALID ∧ cfg.SE3_SESSION_INVALID < 2 ^ 32

instance (cfg : Config) : Decidable cfg.wf := by
  unfold Config.wf; infer_instance

/-- The arena hands out at most `SE3_SESSIONS_MAX` session ids, so that every
id it returns is an index of `sessions_algo`. -/
def World.wf (cfg : Config) (w : World) : Prop :=
  w.se3_security_info.sessions.max_count ≤ cfg.SE3_SESSIONS_MAX

instance (cfg : Config) (w : World) : Decidable (w.wf cfg) := by
  unfold World.wf; infer_instance

/-- The state in which `crypto_init` leaves the key stage when the key `fk`
was found and read: the key bytes are in the scratch, and the log holds the
lookup, the read and the calls `evs` of the validity check. -/
def World.after_key_read (w : World) (key_id : Nat) (fk : se3_flash_key)
    (evs : List Event) : World :=
  { w with
    req := (se3_key_read fk w.req).2
    log := w.log ++ Event.se3_key_find key_id :: Event.se3_key_read key_id :: evs }

/-- The `SE3_KEY_DATA_MAX` bytes of the scratch (request buffer at offset 16)
are all zero. -/
def scratch_zero (cfg : Config) (w : World) : Prop :=
  ∀ i, i < cfg.SE3_KEY_DATA_MAX → w.req (16 + i) = 0

/-- The table indices whose init and update handlers are both present. -/
def registered_algos (cfg : Config) (h : Handlers) : List Nat :=
  (List.range SE3_ALGO_MAX).filter
    (fun i => (algo_table_at cfg h i).init.isSome && (algo_table_at cfg h i).update.isSome)

/-- Entry `k` of a `crypto_list` response, decoded:
`(name[16], type:u16, block_size:u16, key_size:u16)`. -/
def algoinfo_at (resp : Mem) (k : Nat) : List Nat × Nat × Nat × Nat :=
  let p := SE3_CMD1_CRYPTO_LIST_RESP_OFF_ALGOINFO + k * SE3_CMD1_CRYPTO_ALGOINFO_SIZE
  (Mem.read resp (p + SE3_CMD1_CRYPTO_ALGOINFO_OFF_NAME) SE3_CMD1_CRYPTO_ALGOINFO_NAME_SIZE,
    SE3_GET16 resp (p + SE3_CMD1_CRYPTO_ALGOINFO_OFF_TYPE),
    SE3_GET16 resp (p + SE3_CMD1_CRYPTO_ALGOINFO_OFF_BLOCK_SIZE),
    SE3_GET16 resp (p + SE3_CMD1_CRYPTO_ALGOINFO_OFF_KEY_SIZE))

/-- The display fields of a descriptor as a response entry carries them. -/
def algoinfo_of (d : se3_algo_descriptor) : List Nat × Nat × Nat × Nat :=
  (d.display_name, d.display_type % 2 ^ 16, d.display_block_size % 2 ^ 16,
    d.display_key_size % 2 ^ 16)

/-- The request passes the two size checks of `crypto_update` (lines 274 and
297): the header fits and the lengths, as the code adds them, stay within
`SE3_REQ1_MAX_DATA`. -/
def crypto_update_passes (cfg : Config) (req_size : Nat) (req : Mem) : Prop :=
  SE3_CMD1_CRYPTO_UPDATE_REQ_OFF_DATA ≤ req_size ∧
  SE3_CMD1_CRYPTO_UPDATE_REQ_OFF_DATA
      + datain1_len_padded (SE3_GET16 req SE3_CMD1_CRYPTO_UPDATE_REQ_OFF_DATAIN1_LEN)
      + SE3_GET16 req SE3_CMD1_CRYPTO_UPDATE_REQ_OFF_DATAIN2_LEN ≤ cfg.SE3_REQ1_MAX_DATA

instance (cfg : Config) (req_size : Nat) (req : Mem) :
    Decidable (crypto_update_passes cfg req_size req) := by
  unfold crypto_update_passes; infer_instance

/-- The call the update handler receives from `crypto_update` in state `w`,
for the context block `ctx`. -/
def crypto_update_call (handler : se3_crypto_update_handler) (w : World) (ctx : List Nat) :
    UpdateResult :=
  handler ctx
    (SE3_GET16 w.req SE3_CMD1_CRYPTO_UPDATE_REQ_OFF_FLAGS)
    (SE3_GET16 w.req SE3_CMD1_CRYPTO_UPDATE_REQ_OFF_DATAIN1_LEN)
    (Mem.shift w.req SE3_CMD1_CRYPTO_UPDATE_REQ_OFF_DATA)
    (SE3_GET16 w.req SE3_CMD1_CRYPTO_UPDATE_REQ_OFF_DATAIN2_LEN)
    (Mem.shift w.req (SE3_CMD1_CRYPTO_UPDATE_REQ_OFF_DATA
      + datain1_len_padded (SE3_GET16 w.req SE3_CMD1_CRYPTO_UPDATE_REQ_OFF_DATAIN1_LEN)))
    (Mem.shift w.resp SE3_CMD1_CRYPTO_UPDATE_RESP_OFF_DATA)

/-- In state `w`, every `crypto_update` on `sid` whose request passes the size
checks is rejected with `SE3_ERR_RESOURCE`, and the state it leaves is `w`
with that request, up to the logged `se3_mem_ptr` lookup: no handler is
called. -/
def update_rejected (cfg : Config) (h : Handlers) (w : World) (sid : Nat) : Prop :=
  ∀ req_size req, crypto_update_passes cfg req_size req →
    SE3_GET32 req SE3_CMD1_CRYPTO_UPDATE_REQ_OFF_SID = sid →
    (crypto_update cfg h req_size { w with req := req }).1 = Status.SE3_ERR_RESOURCE ∧
    ((crypto_update cfg h req_size { w with req := req }).2 = { w with req := req } ∨
      (crypto_update cfg h req_size { w with req := req }).2 =
        World.emit { w with req := req } (Event.se3_mem_ptr sid))

/-- The function `se3_payload_encrypt` followed by `se3_payload_decrypt` on the
context, the tag and the buffer the encryption left, with the same `iv`,
`nblocks`, `flags` and algorithm. -/
def payload_encrypt_decrypt (cfg : Config) (b5 : B5) (ctx : se3_payload_cryptoctx)
    (auth iv data : List Nat) (nblocks flags crypto_algo : Nat) : PayloadResult :=
  let e := se3_payload_encrypt cfg b5 ctx auth iv data nblocks flags crypto_algo
  se3_payload_decrypt cfg b5 e.ctx e.auth iv e.data nblocks flags crypto_algo

/-- The assumption on AES-256-CBC: for contexts initialised with the same key,
one to decrypt and one to encrypt, and set to the same IV, decryption of
`n` blocks inverts encryption of `n` blocks. -/
def aes_cbc_inverts (cfg : Config) (b5 : B5) : Prop :=
  ∀ (keys iv data : List Nat) (n : Nat), data.length = n * B5_AES_BLK_SIZE →
    (b5.B5_Aes256_Update
      (b5.B5_Aes256_SetIV (b5.B5_Aes256_Init keys B5_AES_256 cfg.B5_AES256_CBC_DEC) iv)
      (b5.B5_Aes256_Update
        (b5.B5_Aes256_SetIV (b5.B5_Aes256_Init keys B5_AES_256 cfg.B5_AES256_CBC_ENC) iv)
        data n).2 n).2 = data

/-- Sample primitives, used to instantiate the theorems: a "cipher" that
reverses the buffer in both directions and a "MAC" that collects key and
message. -/
def sample_b5 : B5 :=
  { PBKDF2HmacSha256 := fun pw _ _ _ _ outLen => List.replicate outLen (pw.getD 0 0)
    B5_Aes256_Init := fun key _ mode => mode :: key
    B5_Aes256_SetIV := fun ctx _ => ctx
    B5_Aes256_Update := fun ctx data _ => (ctx, data.reverse)
    B5_HmacSha256_Init := fun key keySize => key.take keySize
    B5_HmacSha256_Update := fun ctx data dataLen => ctx ++ data.take dataLen
    B5_HmacSha256_Finit := fun ctx => ([], ctx.take 32) }

/-- A sample payload context before `se3_payload_cryptoinit`. -/
def sample_payload_ctx : se3_payload_cryptoctx :=
  { aesenc := [], aesdec := [], hmac := [], hmac_key := [], auth := [] }

/-- The first sixteen bytes of a buffer, as `memcpy(auth, tag, 16)` and
`memcmp(auth, tag, 16)` see them. -/
def first16 (l : List Nat) : List Nat :=
  Mem.read (Mem.ofList l) 0 16

/-- The specification's `HMAC(hmac_key, iv ‖ data)` for the payload channel:
the digest of the B5 HMAC initialised with the 32-byte `hmac_key` and fed the
16-byte `iv`, then `nblocks*16` bytes of `data`. -/
def spec_hmac (b5 : B5) (hmac_key iv data : List Nat) (nblocks : Nat) : List Nat :=
  (b5.B5_HmacSha256_Finit
    (b5.B5_HmacSha256_Update
      (b5.B5_HmacSha256_Update (b5.B5_HmacSha256_Init hmac_key B5_AES_256) iv B5_AES_IV_SIZE)
      data (nblocks * B5_AES_BLK_SIZE))).2

/-- The function `se3_security_core_init()`: the global `se3_security_info`
is zero-filled (the file-level union `ctx`, zero-filled too, is read by no
function of the file and has no counterpart in `World`). A zero-filled arena
has capacity 0 and no block; the zero-filled `sessions_algo` links every sid
to algorithm 0. -/
def se3_security_core_init (w : World) : World :=
  { w with
    se3_security_info :=
      { sessions := { max_count := 0, dat_size := 0, slots := fun _ => none }
        sessions_algo := fun _ => 0 } }

/-- Modelled from the spec: an arena of "fixed capacity" (`max_count` sessions,
a pool of `dat_size` bytes) in which no session is allocated, as the arena's
own initialisation, whose code is not in the source file, leaves it. -/
def se3_mem_empty (max_count dat_size : Nat) : se3_mem :=
  { max_count := max_count, dat_size := dat_size, slots := fun _ => none }

/-- The state `w` with the arena replaced. -/
def World.with_sessions (w : World) (mem : se3_mem) : World :=
  { w with se3_security_info := { w.se3_security_info with sessions := mem } }

/-- The context-size invariant: every allocated session is linked to one of
the algorithms 0..4 and its block was allocated with the context size of that
algorithm. -/
def session_inv (cfg : Config) (h : Handlers) (w : World) : Prop :=
  ∀ sid b, w.se3_security_info.sessions.slots sid = some b →
    w.se3_security_info.sessions_algo sid ≤ 4 ∧
    b.size = (algo_table_at cfg h (w.se3_security_info.sessions_algo sid)).size

/-- The number of allocated slots of an arena. -/
def se3_mem.count (mem : se3_mem) : Nat :=
  ((List.range mem.max_count).map (fun i => if (mem.slots i).isSome then 1 else 0)).sum

/-- The request in `w.req` passes the size, algorithm and key checks of
`crypto_init` (lines 161-207): the size is the fixed one, the algorithm has an
init handler, and the key id is `SE3_KEY_INVALID` or names a key of the flash
that is valid at the device time, the device time being set. -/
def crypto_init_passes (cfg : Config) (h : Handlers) (req_size : Nat) (w : World) : Prop :=
  req_size = SE3_CMD1_CRYPTO_INIT_REQ_SIZE ∧
  (crypto_init_handler_of cfg h
    (SE3_GET16 w.req SE3_CMD1_CRYPTO_INIT_REQ_OFF_ALGO)).isSome = true ∧
  (SE3_GET32 w.req SE3_CMD1_CRYPTO_INIT_REQ_OFF_KEY_ID = cfg.SE3_KEY_INVALID ∨
    match se3_key_find w.flash (SE3_GET32 w.req SE3_CMD1_CRYPTO_INIT_REQ_OFF_KEY_ID) with
    | some fk => ¬ fk.validity < w.now ∧ w.now_initialized = true
    | none => False)

/-- A command as the dispatcher delivers it: the request size and the content
of the request buffer. -/
inductive Command
  | crypto_init (req_size : Nat) (req : Mem)
  | crypto_update (req_size : Nat) (req : Mem)
  | crypto_set_time (req_size : Nat) (req : Mem)
  | crypto_list (req_size : Nat) (req : Mem)

/-- Deliver one command: the request is placed in the request buffer and the
handler runs. -/
def Command.run (cfg : Config) (h : Handlers) (c : Command) (w : World) : Status × World :=
  match c with
  | Command.crypto_init n req => SE3.crypto_init cfg h n { w with req := req }
  | Command.crypto_update n req => SE3.crypto_update cfg h n { w with req := req }
  | Command.crypto_set_time n req => SE3.crypto_set_time n { w with req := req }
  | Command.crypto_list n req => SE3.crypto_list cfg h n { w with req := req }

/-- The state after a sequence of commands. -/
def run_commands (cfg : Config) (h : Handlers) : List Command → World → World
  | [], w => w
  | c :: cs, w => run_commands cfg h cs (c.run cfg h w).2

/-- No `crypto_init` of the sequence, run from `w`, returns `SE3_OK` with
`sid` in its response. -/
def never_returns_sid (cfg : Config) (h : Handlers) (sid : Nat) : List Command → World → Prop
  | [], _ => True
  | c :: cs, w =>
    (match c with
      | Command.crypto_init _ _ =>
        ¬ ((c.run cfg h w).1 = Status.SE3_OK ∧
          SE3_GET32 (c.run cfg h w).2.resp SE3_CMD1_CRYPTO_INIT_RESP_OFF_SID = sid)
      | _ => True) ∧
    never_returns_sid cfg h sid cs (c.run cfg h w).2

/-- Every command of the sequence, run from `w`, is a `crypto_init` for
algorithm 0 (AES) that returns `SE3_OK`. -/
def aes_inits_ok (cfg : Config) (h : Handlers) : List Command → World → Prop
  | [], _ => True
  | c :: cs, w =>
    (match c with
      | Command.crypto_init _ req => SE3_GET16 req SE3_CMD1_CRYPTO_INIT_REQ_OFF_ALGO = 0
      | _ => False) ∧
    (c.run cfg h w).1 = Status.SE3_OK ∧
    aes_inits_ok cfg h cs (c.run cfg h w).2

/-- Block `i` of the flash is a live record of type `t`. -/
def live_record (rc : RecordConfig) (t : Nat) (f : se3_flash) (i : Nat) : Bool :=
  (f.nodes i).valid && decide ((f.nodes i).type = rc.SE3_FLASH_TYPE_RECORD) &&
    decide (SE3_GET16 (f.nodes i).data SE3_RECORD_OFFSET_TYPE = t)

/-- The first live record of type `t`, if any. -/
def record_first (rc : RecordConfig) (t : Nat) (f : se3_flash) : Option Nat :=
  (List.range f.count).find? (live_record rc t f)

/-- The flash after a scan: one `se3_flash_it_init` and `k` calls of
`se3_flash_it_next` more in the log. -/
def se3_flash.scanned (f : se3_flash) (k : Nat) : se3_flash :=
  { f with log := f.log ++
      FlashEvent.se3_flash_it_init :: List.replicate k FlashEvent.se3_flash_it_next }

/-- The flash holds at most one live record of type `t`. -/
def at_most_one_record (rc : RecordConfig) (t : Nat) (f : se3_flash) : Prop :=
  ∀ i, i < f.count → ∀ j, j < f.count →
    live_record rc t f i = true → live_record rc t f j = true → i = j

instance (rc : RecordConfig) (t : Nat) (f : se3_flash) :
    Decidable (at_most_one_record rc t f) := by
  unfold at_most_one_record; infer_instance

/-- An iterator call that allocates or writes, and failed. -/
def FlashEvent.is_failed_write : FlashEvent → Bool
  | FlashEvent.se3_flash_it_new _ _ ok => !ok
  | FlashEvent.se3_flash_it_write _ _ _ ok => !ok
  | _ => false

/-- A call of `se3_flash_it_delete`. -/
def FlashEvent.is_delete : FlashEvent → Bool
  | FlashEvent.se3_flash_it_delete _ _ => true
  | _ => false

/-- A call of `se3_flash_it_init` or `se3_flash_it_next`. -/
def FlashEvent.is_scan : FlashEvent → Bool
  | FlashEvent.se3_flash_it_init => true
  | FlashEvent.se3_flash_it_next => true
  | _ => false

/-- The calls of the flash iterator that `record_set` makes, in program
order: what it appends to the log. -/
def record_set_events (rc : RecordConfig) (t : Nat) (d : Mem) (f : se3_flash) :
    List FlashEvent :=
  (record_set rc t d f).2.log.drop f.log.length

/-- Sample constants of the record store. -/
def sample_rc : RecordConfig :=
  { SE3_RECORD_MAX := 8, SE3_RECORD_SIZE := 4, SE3_FLASH_TYPE_RECORD := 0xF0 }

/-- A sample flash: a key block, then a live record of type 7 with the
payload `00 11 22 33`; erased flash reads `FF`, and the call number `k` of
`new`, `write` or `delete` fails. -/
def sample_flash (k : Nat) : se3_flash :=
  { count := 2
    nodes := fun i =>
      if i = 0 then { type := 1, valid := true, size := 8, data := fun _ => 0 }
      else { type := 0xF0, valid := true, size := 6
             data := Mem.ofList [7, 0, 0x00, 0x11, 0x22, 0x33] }
    erased := fun _ _ => 0xFF
    fails := fun n => n == k
    torn := fun _ _ => 0xFF
    ops := 0
    log := [] }

/-! ## Theorems -/

/-! ### The arena -/

/-- What a successful `se3_mem_alloc` returns: an id below the capacity whose
slot was free, and the arena with a fresh block of `size` bytes in that slot. -/
theorem se3_mem_alloc_some {mem mem1 : se3_mem} {size sid : Nat}
    (ha : se3_mem_alloc mem size = some (sid, mem1)) :
    sid < mem.max_count ∧ mem.slots sid = none ∧
    mem1 = { mem with
      slots := Function.update mem.slots sid
        (some { size := size, ctx := List.replicate size 0 }) } := by
  unfold se3_mem_alloc at ha
  split at ha
  · split at ha
    · rename_i sid1 hfind
      simp only [Option.some.injEq, Prod.mk.injEq] at ha
      obtain ⟨hs, hm⟩ := ha
      subst hs
      refine ⟨?_, ?_, hm.symm⟩
      · exact List.mem_range.mp (List.mem_of_find?_eq_some hfind)
      · have := List.find?_some hfind
        simpa using this
    · exact absurd ha (by simp)
  · exact absurd ha (by simp)

/-- The block just allocated is reachable through `se3_mem_ptr`. -/
theorem se3_mem_ptr_alloc {mem mem1 : se3_mem} {size sid : Nat}
    (ha : se3_mem_alloc mem size = some (sid, mem1)) :
    se3_mem_ptr mem1 sid = some (List.replicate size 0) := by
  obtain ⟨hlt, _, hm⟩ := se3_mem_alloc_some ha
  subst hm
  simp [se3_mem_ptr, hlt]

/-! ### The session stage of `crypto_init` -/

/-- The session stage leaves the request buffer, the key store and the device
time as they are. -/
theorem crypto_init_session_frame (cfg : Config) (h : Handlers)
    (handler : se3_crypto_init_handler) (algo mode : Nat) (key : se3_flash_key) (w : World) :
    (crypto_init_session cfg h handler algo mode key w).2.req = w.req ∧
    (crypto_init_session cfg h handler algo mode key w).2.flash = w.flash ∧
    (crypto_init_session cfg h handler algo mode key w).2.now = w.now ∧
    (crypto_init_session cfg h handler algo mode key w).2.now_initialized = w.now_initialized := by
  simp only [crypto_init_session]
  split
  · exact ⟨rfl, rfl, rfl, rfl⟩
  · split
    · exact ⟨rfl, rfl, rfl, rfl⟩
    · split
      · exact ⟨rfl, rfl, rfl, rfl⟩
      · split <;> exact ⟨rfl, rfl, rfl, rfl⟩

/-- The external calls of the session stage: the allocation first, then only
arena calls and the init handler; the key store and the device time are not
consulted. A status `SE3_ERR_EXPIRED` can only be the init handler's. -/
theorem crypto_init_session_log (cfg : Config) (h : Handlers)
    (handler : se3_crypto_init_handler) (algo mode : Nat) (key : se3_flash_key) (w : World) :
    ∃ evs, (crypto_init_session cfg h handler algo mode key w).2.log =
        w.log ++ Event.se3_mem_alloc (algo_table_at cfg h algo).size :: evs ∧
      (∀ e ∈ evs, e.is_key_or_time = false) ∧
      ((crypto_init_session cfg h handler algo mode key w).1 = Status.SE3_ERR_EXPIRED →
        Event.init_handler algo mode ∈ evs) := by
  simp only [crypto_init_session]
  split
  · exact ⟨[], by simp [World.emit], by simp, by simp⟩
  · split
    · exact ⟨[], by simp [World.emit], by simp, by simp⟩
    · rename_i sid mem1 _ _
      split
      · exact ⟨[Event.se3_mem_ptr sid], by simp [World.emit], by simp [Event.is_key_or_time],
          by simp⟩
      · split
        · exact ⟨[Event.se3_mem_ptr sid, Event.init_handler algo mode,
            Event.se3_mem_free (sid % 2 ^ 32)], by simp [World.emit],
            by simp [Event.is_key_or_time], by simp⟩
        · exact ⟨[Event.se3_mem_ptr sid, Event.init_handler algo mode], by simp [World.emit],
            by simp [Event.is_key_or_time], by simp⟩

/-- The status of the session stage is `SE3_ERR_MEMORY`, `SE3_ERR_HW` or the
status of the init handler. -/
theorem crypto_init_session_status (cfg : Config) (h : Handlers)
    (handler : se3_crypto_init_handler) (algo mode : Nat) (key : se3_flash_key) (w : World) :
    (crypto_init_session cfg h handler algo mode key w).1 = Status.SE3_ERR_MEMORY ∨
    (crypto_init_session cfg h handler algo mode key w).1 = Status.SE3_ERR_HW ∨
    ∃ ctx, (crypto_init_session cfg h handler algo mode key w).1 =
      (handler key mode ctx).status := by
  simp only [crypto_init_session]
  split
  · exact Or.inl rfl
  · split
    · exact Or.inl rfl
    · split
      · exact Or.inr (Or.inl rfl)
      · rename_i ctx _
        split
        · exact Or.inr (Or.inr ⟨ctx, rfl⟩)
        · rename_i hst
          exact Or.inr (Or.inr ⟨ctx, (not_not.mp hst).symm⟩)

/-- Writing a slot and freeing it again restores an arena whose slot was free. -/
theorem se3_mem_free_store_alloc {mem mem1 : se3_mem} {size sid : Nat} (ctx : List Nat)
    (ha : se3_mem_alloc mem size = some (sid, mem1)) :
    se3_mem_free (mem1.store sid ctx) sid = mem := by
  obtain ⟨_, hfree, hm⟩ := se3_mem_alloc_some ha
  subst hm
  cases mem with
  | mk mc ds slots =>
    simp only [se3_mem_free, se3_mem.store, se3_mem.mk.injEq, true_and]
    funext i
    by_cases hi : i = sid
    · subst hi; simpa using hfree.symm
    · simp [Function.update_noteq hi]

/-- The session stage, when it fails, leaves `se3_security_info` (arena and
`sessions_algo`) and the response as they were; when it succeeds, it has
allocated one slot that was free, of the size of the algorithm's context,
linked it to `algo` and written the sid to the response. -/
theorem crypto_init_session_result (cfg : Config) (h : Handlers)
    (handler : se3_crypto_init_handler) (algo mode : Nat) (key : se3_flash_key) (w : World)
    (hcfg : cfg.wf) (hw : w.wf cfg) :
    ((crypto_init_session cfg h handler algo mode key w).1 ≠ Status.SE3_OK ∧
      (crypto_init_session cfg h handler algo mode key w).2.se3_security_info =
        w.se3_security_info ∧
      (crypto_init_session cfg h handler algo mode key w).2.resp = w.resp ∧
      (crypto_init_session cfg h handler algo mode key w).2.resp_size = w.resp_size) ∨
    ((crypto_init_session cfg h handler algo mode key w).1 = Status.SE3_OK ∧
      ∃ sid, sid < w.se3_security_info.sessions.max_count ∧
        w.se3_security_info.sessions.slots sid = none ∧
        (crypto_init_session cfg h handler algo mode key w).2.se3_security_info =
          { sessions :=
              { w.se3_security_info.sessions with
                slots := Function.update w.se3_security_info.sessions.slots sid
                  (some
                    { size := (algo_table_at cfg h algo).size
                      ctx := (handler key mode
                        (List.replicate (algo_table_at cfg h algo).size 0)).ctx }) }
            sessions_algo := Function.update w.se3_security_info.sessions_algo sid algo } ∧
        (crypto_init_session cfg h handler algo mode key w).2.resp =
          SE3_SET32 w.resp SE3_CMD1_CRYPTO_INIT_RESP_OFF_SID sid ∧
        (crypto_init_session cfg h handler algo mode key w).2.resp_size =
          SE3_CMD1_CRYPTO_INIT_RESP_SIZE) := by
  simp only [crypto_init_session]
  split
  · exact Or.inl ⟨by simp, rfl, rfl, rfl⟩
  · rename_i sid mem1 ha
    obtain ⟨hlt, hfree, hm⟩ := se3_mem_alloc_some ha
    have hptr := se3_mem_ptr_alloc ha
    have hsid : sid % 2 ^ 32 = sid := by
      unfold Config.wf at hcfg
      unfold World.wf at hw
      exact Nat.mod_eq_of_lt (by omega)
    have hne : ¬ (sid % 2 ^ 32 = cfg.SE3_SESSION_INVALID) := by
      unfold Config.wf at hcfg
      unfold World.wf at hw
      omega
    rw [if_neg hne]
    simp only [hptr, hsid]
    split
    · rename_i hst
      refine Or.inl ⟨hst, ?_, rfl, rfl⟩
      simp only [World.emit]
      rw [se3_mem_free_store_alloc _ ha]
    · rename_i hst
      refine Or.inr ⟨rfl, sid, hlt, hfree, ?_, rfl, rfl⟩
      subst hm
      simp [World.emit, se3_mem.store]

/-! ### The branches of `crypto_init` -/

/-- A request of the wrong size is rejected and nothing changes. -/
theorem crypto_init_size_mismatch (cfg : Config) (h : Handlers) (w : World) (req_size : Nat)
    (hsize : req_size ≠ SE3_CMD1_CRYPTO_INIT_REQ_SIZE) :
    crypto_init cfg h req_size w = (Status.SE3_ERR_PARAMS, w) := by
  simp [crypto_init, hsize]

/-- An algorithm without init handler is rejected and nothing changes. -/
theorem crypto_init_unregistered (cfg : Config) (h : Handlers) (w : World)
    (hreg : crypto_init_handler_of cfg h
      (SE3_GET16 w.req SE3_CMD1_CRYPTO_INIT_REQ_OFF_ALGO) = none) :
    crypto_init cfg h SE3_CMD1_CRYPTO_INIT_REQ_SIZE w = (Status.SE3_ERR_PARAMS, w) := by
  simp [crypto_init, hreg]

/-- With `key_id == SE3_KEY_INVALID` the scratch is zero-filled and the
session stage runs. -/
theorem crypto_init_no_key (cfg : Config) (h : Handlers) (w : World)
    (handler : se3_crypto_init_handler)
    (hreg : crypto_init_handler_of cfg h
      (SE3_GET16 w.req SE3_CMD1_CRYPTO_INIT_REQ_OFF_ALGO) = some handler)
    (hkey : SE3_GET32 w.req SE3_CMD1_CRYPTO_INIT_REQ_OFF_KEY_ID = cfg.SE3_KEY_INVALID) :
    crypto_init cfg h SE3_CMD1_CRYPTO_INIT_REQ_SIZE w =
      crypto_init_session cfg h handler
        (SE3_GET16 w.req SE3_CMD1_CRYPTO_INIT_REQ_OFF_ALGO)
        (SE3_GET16 w.req SE3_CMD1_CRYPTO_INIT_REQ_OFF_MODE)
        { id := cfg.SE3_KEY_INVALID
          validity := w.stack_key.validity
          data_size := w.stack_key.data_size
          name_size := w.stack_key.name_size
          data := Mem.shift (memset w.req 16 0 cfg.SE3_KEY_DATA_MAX) 16 }
        { w with req := memset w.req 16 0 cfg.SE3_KEY_DATA_MAX } := by
  simp [crypto_init, hreg, hkey]

/-- A key that is not in the flash: `SE3_ERR_RESOURCE` after the lookup. -/
theorem crypto_init_key_not_found (cfg : Config) (h : Handlers) (w : World)
    (handler : se3_crypto_init_handler)
    (hreg : crypto_init_handler_of cfg h
      (SE3_GET16 w.req SE3_CMD1_CRYPTO_INIT_REQ_OFF_ALGO) = some handler)
    (hkey : SE3_GET32 w.req SE3_CMD1_CRYPTO_INIT_REQ_OFF_KEY_ID ≠ cfg.SE3_KEY_INVALID)
    (hfind : se3_key_find w.flash
      (SE3_GET32 w.req SE3_CMD1_CRYPTO_INIT_REQ_OFF_KEY_ID) = none) :
    crypto_init cfg h SE3_CMD1_CRYPTO_INIT_REQ_SIZE w =
      (Status.SE3_ERR_RESOURCE,
        w.emit (Event.se3_key_find (SE3_GET32 w.req SE3_CMD1_CRYPTO_INIT_REQ_OFF_KEY_ID))) := by
  simp [crypto_init, hreg, hkey, hfind]

/-- A key whose validity is below the device time: `SE3_ERR_EXPIRED` after
`se3_time_get`. -/
theorem crypto_init_key_expired (cfg : Config) (h : Handlers) (w : World)
    (handler : se3_crypto_init_handler) (fk : se3_flash_key)
    (hreg : crypto_init_handler_of cfg h
      (SE3_GET16 w.req SE3_CMD1_CRYPTO_INIT_REQ_OFF_ALGO) = some handler)
    (hkey : SE3_GET32 w.req SE3_CMD1_CRYPTO_INIT_REQ_OFF_KEY_ID ≠ cfg.SE3_KEY_INVALID)
    (hfind : se3_key_find w.flash
      (SE3_GET32 w.req SE3_CMD1_CRYPTO_INIT_REQ_OFF_KEY_ID) = some fk)
    (hlt : fk.validity < w.now) :
    crypto_init cfg h SE3_CMD1_CRYPTO_INIT_REQ_SIZE w =
      (Status.SE3_ERR_EXPIRED,
        w.after_key_read (SE3_GET32 w.req SE3_CMD1_CRYPTO_INIT_REQ_OFF_KEY_ID) fk
          [Event.se3_time_get]) := by
  simp [crypto_init, hreg, hkey, hfind, se3_key_read, se3_time_get, hlt, World.after_key_read,
    World.emit]

/-- A key read while the device time is not set: `SE3_ERR_EXPIRED` after
`get_now_initialized`. -/
theorem crypto_init_time_unset (cfg : Config) (h : Handlers) (w : World)
    (handler : se3_crypto_init_handler) (fk : se3_flash_key)
    (hreg : crypto_init_handler_of cfg h
      (SE3_GET16 w.req SE3_CMD1_CRYPTO_INIT_REQ_OFF_ALGO) = some handler)
    (hkey : SE3_GET32 w.req SE3_CMD1_CRYPTO_INIT_REQ_OFF_KEY_ID ≠ cfg.SE3_KEY_INVALID)
    (hfind : se3_key_find w.flash
      (SE3_GET32 w.req SE3_CMD1_CRYPTO_INIT_REQ_OFF_KEY_ID) = some fk)
    (hlt : ¬ fk.validity < w.now) (hinit : w.now_initialized = false) :
    crypto_init cfg h SE3_CMD1_CRYPTO_INIT_REQ_SIZE w =
      (Status.SE3_ERR_EXPIRED,
        w.after_key_read (SE3_GET32 w.req SE3_CMD1_CRYPTO_INIT_REQ_OFF_KEY_ID) fk
          [Event.se3_time_get, Event.get_now_initialized]) := by
  simp [crypto_init, hreg, hkey, hfind, se3_key_read, se3_time_get, get_now_initialized, hlt,
    hinit, World.after_key_read, World.emit]

/-- A key that is valid at the device time: the session stage runs. -/
theorem crypto_init_key_valid (cfg : Config) (h : Handlers) (w : World)
    (handler : se3_crypto_init_handler) (fk : se3_flash_key)
    (hreg : crypto_init_handler_of cfg h
      (SE3_GET16 w.req SE3_CMD1_CRYPTO_INIT_REQ_OFF_ALGO) = some handler)
    (hkey : SE3_GET32 w.req SE3_CMD1_CRYPTO_INIT_REQ_OFF_KEY_ID ≠ cfg.SE3_KEY_INVALID)
    (hfind : se3_key_find w.flash
      (SE3_GET32 w.req SE3_CMD1_CRYPTO_INIT_REQ_OFF_KEY_ID) = some fk)
    (hlt : ¬ fk.validity < w.now) (hinit : w.now_initialized = true) :
    crypto_init cfg h SE3_CMD1_CRYPTO_INIT_REQ_SIZE w =
      crypto_init_session cfg h handler
        (SE3_GET16 w.req SE3_CMD1_CRYPTO_INIT_REQ_OFF_ALGO)
        (SE3_GET16 w.req SE3_CMD1_CRYPTO_INIT_REQ_OFF_MODE)
        (se3_key_read fk w.req).1
        (w.after_key_read (SE3_GET32 w.req SE3_CMD1_CRYPTO_INIT_REQ_OFF_KEY_ID) fk
          [Event.se3_time_get, Event.get_now_initialized]) := by
  simp [crypto_init, hreg, hkey, hfind, se3_key_read, se3_time_get, get_now_initialized, hlt,
    hinit, World.after_key_read, World.emit]

/-- A 32-bit field read back after `SE3_SET32`. -/
theorem SE3_GET32_SET32 (buf : Mem) (off v : Nat) :
    SE3_GET32 (SE3_SET32 buf off v) off = v % 2 ^ 32 := by
  simp [SE3_GET32, SE3_SET32]
  omega

/-- A 16-bit field read back after `SE3_SET16`. -/
theorem SE3_GET16_SET16 (buf : Mem) (off v : Nat) :
    SE3_GET16 (SE3_SET16 buf off v) off = v % 2 ^ 16 := by
  simp [SE3_GET16, SE3_SET16]
  omega

/-- The two ways through `crypto_init`: it returns before the session stage
with a status other than `SE3_OK`, or it runs the session stage; up to there
`se3_security_info` and the response are untouched. -/
theorem crypto_init_stage (cfg : Config) (h : Handlers) (w : World) (req_size : Nat) :
    (∃ st w1, st ≠ Status.SE3_OK ∧ crypto_init cfg h req_size w = (st, w1) ∧
      w1.se3_security_info = w.se3_security_info ∧ w1.resp = w.resp ∧
      w1.resp_size = w.resp_size) ∨
    (∃ handler key w1,
      req_size = SE3_CMD1_CRYPTO_INIT_REQ_SIZE ∧
      crypto_init_handler_of cfg h
        (SE3_GET16 w.req SE3_CMD1_CRYPTO_INIT_REQ_OFF_ALGO) = some handler ∧
      crypto_init cfg h req_size w =
        crypto_init_session cfg h handler
          (SE3_GET16 w.req SE3_CMD1_CRYPTO_INIT_REQ_OFF_ALGO)
          (SE3_GET16 w.req SE3_CMD1_CRYPTO_INIT_REQ_OFF_MODE) key w1 ∧
      w1.se3_security_info = w.se3_security_info ∧ w1.resp = w.resp ∧
      w1.resp_size = w.resp_size) := by
  by_cases hsize : req_size = SE3_CMD1_CRYPTO_INIT_REQ_SIZE
  swap
  · exact Or.inl ⟨_, _, by simp, crypto_init_size_mismatch cfg h w req_size hsize, rfl, rfl, rfl⟩
  subst hsize
  cases hreg : crypto_init_handler_of cfg h
      (SE3_GET16 w.req SE3_CMD1_CRYPTO_INIT_REQ_OFF_ALGO) with
  | none =>
    exact Or.inl ⟨_, _, by simp, crypto_init_unregistered cfg h w hreg, rfl, rfl, rfl⟩
  | some handler =>
    by_cases hkey : SE3_GET32 w.req SE3_CMD1_CRYPTO_INIT_REQ_OFF_KEY_ID = cfg.SE3_KEY_INVALID
    · exact Or.inr ⟨handler, _, _, rfl, rfl, crypto_init_no_key cfg h w handler hreg hkey,
        rfl, rfl, rfl⟩
    · cases hfind : se3_key_find w.flash
          (SE3_GET32 w.req SE3_CMD1_CRYPTO_INIT_REQ_OFF_KEY_ID) with
      | none =>
        exact Or.inl ⟨_, _, by simp,
          crypto_init_key_not_found cfg h w handler hreg hkey hfind, rfl, rfl, rfl⟩
      | some fk =>
        by_cases hlt : fk.validity < w.now
        · exact Or.inl ⟨_, _, by simp,
            crypto_init_key_expired cfg h w handler fk hreg hkey hfind hlt, rfl, rfl, rfl⟩
        · cases hinit : w.now_initialized with
          | false =>
            exact Or.inl ⟨_, _, by simp,
              crypto_init_time_unset cfg h w handler fk hreg hkey hfind hlt hinit, rfl, rfl, rfl⟩
          | true =>
            exact Or.inr ⟨handler, _, _, rfl, rfl,
              crypto_init_key_valid cfg h w handler fk hreg hkey hfind hlt hinit, rfl, rfl, rfl⟩

/-- What `crypto_init` leaves behind: when it fails, `se3_security_info` and
the response are as before; when it succeeds, one slot that was free holds a
block of the size of the algorithm's context, `sessions_algo` links it to the
requested algorithm and the response carries the sid. -/
theorem crypto_init_result (cfg : Config) (h : Handlers) (w : World) (req_size : Nat)
    (hcfg : cfg.wf) (hw : w.wf cfg) :
    ((crypto_init cfg h req_size w).1 ≠ Status.SE3_OK ∧
      (crypto_init cfg h req_size w).2.se3_security_info = w.se3_security_info ∧
      (crypto_init cfg h req_size w).2.resp = w.resp ∧
      (crypto_init cfg h req_size w).2.resp_size = w.resp_size) ∨
    ((crypto_init cfg h req_size w).1 = Status.SE3_OK ∧
      ∃ sid handler key,
        req_size = SE3_CMD1_CRYPTO_INIT_REQ_SIZE ∧
        crypto_init_handler_of cfg h
          (SE3_GET16 w.req SE3_CMD1_CRYPTO_INIT_REQ_OFF_ALGO) = some handler ∧
        sid < w.se3_security_info.sessions.max_count ∧
        w.se3_security_info.sessions.slots sid = none ∧
        (crypto_init cfg h req_size w).2.se3_security_info =
          { sessions :=
              { w.se3_security_info.sessions with
                slots := Function.update w.se3_security_info.sessions.slots sid
                  (some
                    { size := (algo_table_at cfg h
                        (SE3_GET16 w.req SE3_CMD1_CRYPTO_INIT_REQ_OFF_ALGO)).size
                      ctx := (handler key (SE3_GET16 w.req SE3_CMD1_CRYPTO_INIT_REQ_OFF_MODE)
                        (List.replicate (algo_table_at cfg h
                          (SE3_GET16 w.req SE3_CMD1_CRYPTO_INIT_REQ_OFF_ALGO)).size 0)).ctx }) }
            sessions_algo := Function.update w.se3_security_info.sessions_algo sid
              (SE3_GET16 w.req SE3_CMD1_CRYPTO_INIT_REQ_OFF_ALGO) } ∧
        (crypto_init cfg h req_size w).2.resp =
          SE3_SET32 w.resp SE3_CMD1_CRYPTO_INIT_RESP_OFF_SID sid ∧
        (crypto_init cfg h req_size w).2.resp_size = SE3_CMD1_CRYPTO_INIT_RESP_SIZE) := by
  rcases crypto_init_stage cfg h w req_size with
    ⟨st, w1, hst, heq, hinfo, hresp, hrs⟩ | ⟨handler, key, w1, hsize, hreg, heq, hinfo, hresp, hrs⟩
  · rw [heq]
    exact Or.inl ⟨hst, hinfo, hresp, hrs⟩
  · have hw1 : w1.wf cfg := by unfold World.wf at hw ⊢; rw [hinfo]; exact hw
    rw [heq]
    rcases crypto_init_session_result cfg h handler
      (SE3_GET16 w.req SE3_CMD1_CRYPTO_INIT_REQ_OFF_ALGO)
      (SE3_GET16 w.req SE3_CMD1_CRYPTO_INIT_REQ_OFF_MODE) key w1 hcfg hw1 with
      ⟨h1, h2, h3, h4⟩ | ⟨h1, sid, h2, h3, h4, h5, h6⟩
    · exact Or.inl ⟨h1, h2.trans hinfo, h3.trans hresp, h4.trans hrs⟩
    · refine Or.inr ⟨h1, sid, handler, key, hsize, hreg, ?_, ?_, ?_, ?_, h6⟩
      · rw [← hinfo]; exact h2
      · rw [← hinfo]; exact h3
      · rw [h4, hinfo]
      · rw [h5, hresp]

/-! ### The branches of `crypto_update` -/

/-- The result of `crypto_update` when the request reaches the update handler
and the handler fails: the handler's status; the context block and the
`dataout` region hold what the handler left; nothing else is written. -/
theorem crypto_update_handler_fails (cfg : Config) (h : Handlers) (w : World) (req_size : Nat)
    (handler : se3_crypto_update_handler) (ctx : List Nat)
    (hpass : crypto_update_passes cfg req_size w.req)
    (hsid : SE3_GET32 w.req SE3_CMD1_CRYPTO_UPDATE_REQ_OFF_SID < cfg.SE3_SESSIONS_MAX)
    (halgo : w.se3_security_info.sessions_algo
      (SE3_GET32 w.req SE3_CMD1_CRYPTO_UPDATE_REQ_OFF_SID) < SE3_ALGO_MAX)
    (hupd : (algo_table_at cfg h (w.se3_security_info.sessions_algo
      (SE3_GET32 w.req SE3_CMD1_CRYPTO_UPDATE_REQ_OFF_SID))).update = some handler)
    (hctx : se3_mem_ptr w.se3_security_info.sessions
      (SE3_GET32 w.req SE3_CMD1_CRYPTO_UPDATE_REQ_OFF_SID) = some ctx)
    (hfail : (crypto_update_call handler w ctx).status ≠ Status.SE3_OK) :
    crypto_update cfg h req_size w =
      ((crypto_update_call handler w ctx).status,
        { w with
          se3_security_info :=
            { w.se3_security_info with
              sessions := w.se3_security_info.sessions.store
                (SE3_GET32 w.req SE3_CMD1_CRYPTO_UPDATE_REQ_OFF_SID)
                (crypto_update_call handler w ctx).ctx }
          resp := fun i =>
            if i < SE3_CMD1_CRYPTO_UPDATE_RESP_OFF_DATA then w.resp i
            else (crypto_update_call handler w ctx).dataout
              (i - SE3_CMD1_CRYPTO_UPDATE_RESP_OFF_DATA)
          log := w.log ++
            [Event.se3_mem_ptr (SE3_GET32 w.req SE3_CMD1_CRYPTO_UPDATE_REQ_OFF_SID),
              Event.update_handler
                (w.se3_security_info.sessions_algo
                  (SE3_GET32 w.req SE3_CMD1_CRYPTO_UPDATE_REQ_OFF_SID))
                (SE3_GET16 w.req SE3_CMD1_CRYPTO_UPDATE_REQ_OFF_FLAGS)
                (SE3_GET16 w.req SE3_CMD1_CRYPTO_UPDATE_REQ_OFF_DATAIN1_LEN)
                (SE3_GET16 w.req SE3_CMD1_CRYPTO_UPDATE_REQ_OFF_DATAIN2_LEN)] }) := by
  obtain ⟨hp1, hp2⟩ := hpass
  have hsz : ¬ req_size < SE3_CMD1_CRYPTO_UPDATE_REQ_OFF_DATA := by omega
  have hgo : ¬ (SE3_CMD1_CRYPTO_UPDATE_REQ_OFF_DATA
      + datain1_len_padded (SE3_GET16 w.req SE3_CMD1_CRYPTO_UPDATE_REQ_OFF_DATAIN1_LEN)
      + SE3_GET16 w.req SE3_CMD1_CRYPTO_UPDATE_REQ_OFF_DATAIN2_LEN > cfg.SE3_REQ1_MAX_DATA) := by
    omega
  have hs : ¬ (SE3_GET32 w.req SE3_CMD1_CRYPTO_UPDATE_REQ_OFF_SID ≥ cfg.SE3_SESSIONS_MAX) := by
    omega
  have ha : ¬ (w.se3_security_info.sessions_algo
      (SE3_GET32 w.req SE3_CMD1_CRYPTO_UPDATE_REQ_OFF_SID) ≥ SE3_ALGO_MAX) := by omega
  unfold crypto_update_call at hfail
  simp only [crypto_update, hsz, if_false, hgo, hs, ha, hupd, hctx, hfail, ne_eq,
    not_false_eq_true, if_true, crypto_update_call]
  simp [World.emit]

/-- The result of `crypto_update` when the request reaches the update handler
and the handler succeeds: `SE3_OK`, `sessions_algo` as before, and the arena
with the session freed exactly when the flag `FINIT` is set. -/
theorem crypto_update_handler_ok (cfg : Config) (h : Handlers) (w : World) (req_size : Nat)
    (handler : se3_crypto_update_handler) (ctx : List Nat)
    (hpass : crypto_update_passes cfg req_size w.req)
    (hsid : SE3_GET32 w.req SE3_CMD1_CRYPTO_UPDATE_REQ_OFF_SID < cfg.SE3_SESSIONS_MAX)
    (halgo : w.se3_security_info.sessions_algo
      (SE3_GET32 w.req SE3_CMD1_CRYPTO_UPDATE_REQ_OFF_SID) < SE3_ALGO_MAX)
    (hupd : (algo_table_at cfg h (w.se3_security_info.sessions_algo
      (SE3_GET32 w.req SE3_CMD1_CRYPTO_UPDATE_REQ_OFF_SID))).update = some handler)
    (hctx : se3_mem_ptr w.se3_security_info.sessions
      (SE3_GET32 w.req SE3_CMD1_CRYPTO_UPDATE_REQ_OFF_SID) = some ctx)
    (hok : (crypto_update_call handler w ctx).status = Status.SE3_OK) :
    (crypto_update cfg h req_size w).1 = Status.SE3_OK ∧
    (crypto_update cfg h req_size w).2.se3_security_info.sessions_algo =
      w.se3_security_info.sessions_algo ∧
    (crypto_update cfg h req_size w).2.se3_security_info.sessions =
      (if SE3_GET16 w.req SE3_CMD1_CRYPTO_UPDATE_REQ_OFF_FLAGS &&& cfg.SE3_CRYPTO_FLAG_FINIT ≠ 0
        then se3_mem_free (w.se3_security_info.sessions.store
          (SE3_GET32 w.req SE3_CMD1_CRYPTO_UPDATE_REQ_OFF_SID)
          (crypto_update_call handler w ctx).ctx)
          (SE3_GET32 w.req SE3_CMD1_CRYPTO_UPDATE_REQ_OFF_SID)
        else w.se3_security_info.sessions.store
          (SE3_GET32 w.req SE3_CMD1_CRYPTO_UPDATE_REQ_OFF_SID)
          (crypto_update_call handler w ctx).ctx) := by
  obtain ⟨hp1, hp2⟩ := hpass
  have hsz : ¬ req_size < SE3_CMD1_CRYPTO_UPDATE_REQ_OFF_DATA := by omega
  have hgo : ¬ (SE3_CMD1_CRYPTO_UPDATE_REQ_OFF_DATA
      + datain1_len_padded (SE3_GET16 w.req SE3_CMD1_CRYPTO_UPDATE_REQ_OFF_DATAIN1_LEN)
      + SE3_GET16 w.req SE3_CMD1_CRYPTO_UPDATE_REQ_OFF_DATAIN2_LEN > cfg.SE3_REQ1_MAX_DATA) := by
    omega
  have hs : ¬ (SE3_GET32 w.req SE3_CMD1_CRYPTO_UPDATE_REQ_OFF_SID ≥ cfg.SE3_SESSIONS_MAX) := by
    omega
  have ha : ¬ (w.se3_security_info.sessions_algo
      (SE3_GET32 w.req SE3_CMD1_CRYPTO_UPDATE_REQ_OFF_SID) ≥ SE3_ALGO_MAX) := by omega
  unfold crypto_update_call at hok
  simp only [crypto_update, hsz, if_false, hgo, hs, ha, hupd, hctx, hok, ne_eq,
    not_true_eq_false, crypto_update_call]
  refine ⟨trivial, ?_, ?_⟩
  · split <;> rfl
  · split <;> rfl

/-- `crypto_update` never allocates: a free slot stays free, and the capacity
of the arena is unchanged. -/
theorem crypto_update_keeps_free (cfg : Config) (h : Handlers) (w : World) (req_size i : Nat)
    (hfree : w.se3_security_info.sessions.slots i = none) :
    (crypto_update cfg h req_size w).2.se3_security_info.sessions.slots i = none ∧
    (crypto_update cfg h req_size w).2.se3_security_info.sessions.max_count =
      w.se3_security_info.sessions.max_count := by
  have hstore : ∀ (sid : Nat) (c : List Nat),
      (w.se3_security_info.sessions.store sid c).slots i = none := by
    intro sid c
    simp only [se3_mem.store]
    by_cases hi : i = sid
    · subst hi; simp [hfree]
    · rw [Function.update_noteq hi]; exact hfree
  simp only [crypto_update]
  split
  · exact ⟨hfree, rfl⟩
  · split
    · exact ⟨hfree, rfl⟩
    · split
      · exact ⟨hfree, rfl⟩
      · split
        · exact ⟨hfree, rfl⟩
        · split
          · exact ⟨hfree, rfl⟩
          · split
            · exact ⟨hfree, rfl⟩
            · split
              · exact ⟨hstore _ _, rfl⟩
              · split
                · refine ⟨?_, rfl⟩
                  simp only [World.emit, se3_mem_free]
                  by_cases hi : i = SE3_GET32 w.req SE3_CMD1_CRYPTO_UPDATE_REQ_OFF_SID
                  · rw [hi]; simp
                  · rw [Function.update_noteq hi]; exact hstore _ _
                · exact ⟨hstore _ _, rfl⟩

/-- `crypto_update` on a free slot, or on a sid that is not below
`SE3_SESSIONS_MAX`: `SE3_ERR_RESOURCE`, no handler call, and the state is as
before up to the logged `se3_mem_ptr` lookup. -/
theorem crypto_update_no_session (cfg : Config) (h : Handlers) (w : World) (req_size : Nat)
    (hpass : crypto_update_passes cfg req_size w.req)
    (hno : cfg.SE3_SESSIONS_MAX ≤ SE3_GET32 w.req SE3_CMD1_CRYPTO_UPDATE_REQ_OFF_SID ∨
      w.se3_security_info.sessions.slots
        (SE3_GET32 w.req SE3_CMD1_CRYPTO_UPDATE_REQ_OFF_SID) = none) :
    (crypto_update cfg h req_size w).1 = Status.SE3_ERR_RESOURCE ∧
    ((crypto_update cfg h req_size w).2 = w ∨
      (crypto_update cfg h req_size w).2 =
        w.emit (Event.se3_mem_ptr (SE3_GET32 w.req SE3_CMD1_CRYPTO_UPDATE_REQ_OFF_SID))) := by
  obtain ⟨hp1, hp2⟩ := hpass
  have hsz : ¬ req_size < SE3_CMD1_CRYPTO_UPDATE_REQ_OFF_DATA := by omega
  have hgo : ¬ (SE3_CMD1_CRYPTO_UPDATE_REQ_OFF_DATA
      + datain1_len_padded (SE3_GET16 w.req SE3_CMD1_CRYPTO_UPDATE_REQ_OFF_DATAIN1_LEN)
      + SE3_GET16 w.req SE3_CMD1_CRYPTO_UPDATE_REQ_OFF_DATAIN2_LEN > cfg.SE3_REQ1_MAX_DATA) := by
    omega
  simp only [crypto_update, hsz, if_false, hgo]
  split
  · exact ⟨rfl, Or.inl rfl⟩
  · rename_i hs
    have hfree : w.se3_security_info.sessions.slots
        (SE3_GET32 w.req SE3_CMD1_CRYPTO_UPDATE_REQ_OFF_SID) = none := by
      rcases hno with hno | hno
      · exact absurd hno hs
      · exact hno
    have hptr : se3_mem_ptr w.se3_security_info.sessions
        (SE3_GET32 w.req SE3_CMD1_CRYPTO_UPDATE_REQ_OFF_SID) = none := by
      simp [se3_mem_ptr, hfree]
    split
    · exact ⟨rfl, Or.inl rfl⟩
    · split
      · exact ⟨rfl, Or.inl rfl⟩
      · rw [hptr]
        exact ⟨rfl, Or.inr rfl⟩

/-- A `crypto_update` that returns `SE3_OK` passed every check and its update
handler returned `SE3_OK`. -/
theorem crypto_update_ok_inv (cfg : Config) (h : Handlers) (w : World) (req_size : Nat)
    (hok : (crypto_update cfg h req_size w).1 = Status.SE3_OK) :
    crypto_update_passes cfg req_size w.req ∧
    SE3_GET32 w.req SE3_CMD1_CRYPTO_UPDATE_REQ_OFF_SID < cfg.SE3_SESSIONS_MAX ∧
    w.se3_security_info.sessions_algo
      (SE3_GET32 w.req SE3_CMD1_CRYPTO_UPDATE_REQ_OFF_SID) < SE3_ALGO_MAX ∧
    ∃ handler ctx,
      (algo_table_at cfg h (w.se3_security_info.sessions_algo
        (SE3_GET32 w.req SE3_CMD1_CRYPTO_UPDATE_REQ_OFF_SID))).update = some handler ∧
      se3_mem_ptr w.se3_security_info.sessions
        (SE3_GET32 w.req SE3_CMD1_CRYPTO_UPDATE_REQ_OFF_SID) = some ctx ∧
      (crypto_update_call handler w ctx).status = Status.SE3_OK := by
  revert hok
  simp only [crypto_update]
  split
  · intro hok; exact absurd hok (by simp)
  · split
    · intro hok; exact absurd hok (by simp)
    · split
      · intro hok; exact absurd hok (by simp)
      · split
        · intro hok; exact absurd hok (by simp)
        · split
          · intro hok; exact absurd hok (by simp)
          · split
            · intro hok; exact absurd hok (by simp)
            · split
              · rename_i hst
                intro hok; exact absurd hok hst
              · rename_i h1 h2 h3 h4 _ handler hupd _ ctx hctx hst
                intro _
                refine ⟨⟨by omega, by omega⟩, by omega, by omega, handler, ctx, hupd, hctx, ?_⟩
                exact not_not.mp hst

/-- A successful `crypto_update` with the flag `FINIT` leaves the slot of its
sid free. -/
theorem crypto_update_finit_frees (cfg : Config) (h : Handlers) (w : World) (req_size : Nat)
    (hfin : SE3_GET16 w.req SE3_CMD1_CRYPTO_UPDATE_REQ_OFF_FLAGS
      &&& cfg.SE3_CRYPTO_FLAG_FINIT ≠ 0)
    (hok : (crypto_update cfg h req_size w).1 = Status.SE3_OK) :
    (crypto_update cfg h req_size w).2.se3_security_info.sessions.slots
      (SE3_GET32 w.req SE3_CMD1_CRYPTO_UPDATE_REQ_OFF_SID) = none := by
  obtain ⟨hpass, hsid, halgo, handler, ctx, hupd, hctx, hst⟩ :=
    crypto_update_ok_inv cfg h w req_size hok
  rw [(crypto_update_handler_ok cfg h w req_size handler ctx hpass hsid halgo hupd hctx hst).2.2,
    if_pos hfin]
  simp [se3_mem_free]

/-- One command keeps a free slot free unless it is a `crypto_init` that
returns that sid; the capacity of the arena is unchanged. -/
theorem run_command_keeps_free (cfg : Config) (h : Handlers) (c : Command) (w : World)
    (sid : Nat) (hcfg : cfg.wf) (hw : w.wf cfg)
    (hfree : w.se3_security_info.sessions.slots sid = none)
    (hnever : never_returns_sid cfg h sid [c] w) :
    (c.run cfg h w).2.wf cfg ∧
    (c.run cfg h w).2.se3_security_info.sessions.slots sid = none := by
  cases c with
  | crypto_init n req =>
    have hn := hnever.1
    simp only [Command.run] at hn ⊢
    have hw1 : World.wf cfg { w with req := req } := hw
    rcases crypto_init_result cfg h { w with req := req } n hcfg hw1 with
      ⟨_, h2, _, _⟩ | ⟨h1, sid1, handler, key, _, _, h4, h5, h6, h7, _⟩
    · unfold World.wf
      rw [h2]
      exact ⟨hw, hfree⟩
    · have hsid1 : SE3_GET32 (crypto_init cfg h n { w with req := req }).2.resp
          SE3_CMD1_CRYPTO_INIT_RESP_OFF_SID = sid1 := by
        rw [h7, SE3_GET32_SET32]
        unfold Config.wf at hcfg
        unfold World.wf at hw
        exact Nat.mod_eq_of_lt (by simp only at h4; omega)
      have hne : sid ≠ sid1 := by
        intro he
        exact hn ⟨h1, by rw [hsid1, he]⟩
      unfold World.wf
      rw [h6]
      exact ⟨hw, by simp only; rw [Function.update_noteq hne]; exact hfree⟩
  | crypto_update n req =>
    simp only [Command.run]
    have := crypto_update_keeps_free cfg h { w with req := req } n sid hfree
    unfold World.wf
    rw [this.2]
    exact ⟨hw, this.1⟩
  | crypto_set_time n req =>
    simp only [Command.run, crypto_set_time, se3_time_set]
    split <;> exact ⟨hw, hfree⟩
  | crypto_list n req =>
    simp only [Command.run, crypto_list]
    split <;> exact ⟨hw, hfree⟩

/-- A sequence of commands keeps a free slot free as long as no `crypto_init`
returns that sid. -/
theorem run_commands_keeps_free (cfg : Config) (h : Handlers) (sid : Nat) (hcfg : cfg.wf)
    (cmds : List Command) :
    ∀ w : World, w.wf cfg → w.se3_security_info.sessions.slots sid = none →
      never_returns_sid cfg h sid cmds w →
      (run_commands cfg h cmds w).wf cfg ∧
      (run_commands cfg h cmds w).se3_security_info.sessions.slots sid = none := by
  induction cmds with
  | nil => intro w hw hfree _; exact ⟨hw, hfree⟩
  | cons c cs ih =>
    intro w hw hfree hnever
    have h1 := run_command_keeps_free cfg h c w sid hcfg hw hfree ⟨hnever.1, trivial⟩
    exact ih _ h1.1 h1.2 hnever.2

/-- `crypto_update` leaves the capacity of the arena as it is. -/
theorem crypto_update_max_count (cfg : Config) (h : Handlers) (w : World) (req_size : Nat) :
    (crypto_update cfg h req_size w).2.se3_security_info.sessions.max_count =
      w.se3_security_info.sessions.max_count := by
  simp only [crypto_update]
  split
  · rfl
  · split
    · rfl
    · split
      · rfl
      · split
        · rfl
        · split
          · rfl
          · split
            · rfl
            · split
              · rfl
              · split <;> rfl

/-- In a state where the slot of `sid` is free, `crypto_update` on `sid` is
rejected. -/
theorem update_rejected_of_free (cfg : Config) (h : Handlers) (w : World) (sid : Nat)
    (hfree : w.se3_security_info.sessions.slots sid = none) :
    update_rejected cfg h w sid := by
  intro req_size req hpass hsid
  have := crypto_update_no_session cfg h { w with req := req } req_size hpass
    (Or.inr (by rw [hsid]; exact hfree))
  rw [hsid] at this
  exact this

/-- The sid field of an encoded `crypto_update` request. -/
theorem req_crypto_update_sid (sid flags d1 d2 : Nat) :
    SE3_GET32 (req_crypto_update sid flags d1 d2) SE3_CMD1_CRYPTO_UPDATE_REQ_OFF_SID =
      sid % 2 ^ 32 := by
  simp [req_crypto_update, SE3_GET32, SE3_SET32, SE3_SET16, SE3_CMD1_CRYPTO_UPDATE_REQ_OFF_SID,
    SE3_CMD1_CRYPTO_UPDATE_REQ_OFF_FLAGS, SE3_CMD1_CRYPTO_UPDATE_REQ_OFF_DATAIN1_LEN,
    SE3_CMD1_CRYPTO_UPDATE_REQ_OFF_DATAIN2_LEN]
  omega

/-- The flags field of an encoded `crypto_update` request. -/
theorem req_crypto_update_flags (sid flags d1 d2 : Nat) :
    SE3_GET16 (req_crypto_update sid flags d1 d2) SE3_CMD1_CRYPTO_UPDATE_REQ_OFF_FLAGS =
      flags % 2 ^ 16 := by
  simp [req_crypto_update, SE3_GET16, SE3_SET32, SE3_SET16, SE3_CMD1_CRYPTO_UPDATE_REQ_OFF_SID,
    SE3_CMD1_CRYPTO_UPDATE_REQ_OFF_FLAGS, SE3_CMD1_CRYPTO_UPDATE_REQ_OFF_DATAIN1_LEN,
    SE3_CMD1_CRYPTO_UPDATE_REQ_OFF_DATAIN2_LEN]
  omega

/-! ### Size check of `crypto_update` (C1) -/

/-- Where no wrap-around occurs (`datain1_len ≤ 65520`) the padded length of
the code is the specification's `round_up(datain1_len, 16)`. -/
theorem datain1_len_padded_eq_round_up (d : Nat) (hd : d ≤ 65520) :
    datain1_len_padded d = spec_round_up d 16 := by
  unfold datain1_len_padded spec_round_up
  split <;> omega

/-- For the fifteen lengths above 65520 the sum is 65536 and the 16-bit
variable receives zero. -/
theorem datain1_len_padded_wraps (d : Nat) (hlo : 65520 < d) (hhi : d < 65536) :
    datain1_len_padded d = 0 := by
  unfold datain1_len_padded
  split <;> omega

/-- A 16-bit field is below `2 ^ 16`. -/
theorem SE3_GET16_lt (buf : Mem) (off : Nat) : SE3_GET16 buf off < 2 ^ 16 := by
  unfold SE3_GET16
  omega

/-- C1 (code defect): for `datain1_len` in 65521..65535 the specification's
bound `16 + round_up(datain1_len, 16) + datain2_len` is at least 65552 and
exceeds `REQ1_MAX_DATA`, yet `crypto_update` does not return at the size check
when `16 + datain2_len <= REQ1_MAX_DATA`: the padded length has wrapped to 0
in its 16-bit variable. On an open session the update handler is called with
that `datain1_len` (its `datain2` pointing at `req + 16`) and `crypto_update`
returns the handler's status. -/
theorem crypto_update_padded_length_wraps (cfg : Config) (h : Handlers) (w : World)
    (req_size : Nat) (handler : se3_crypto_update_handler) (ctx : List Nat)
    (hsize : SE3_CMD1_CRYPTO_UPDATE_REQ_OFF_DATA ≤ req_size)
    (hd1 : 65520 < SE3_GET16 w.req SE3_CMD1_CRYPTO_UPDATE_REQ_OFF_DATAIN1_LEN)
    (hmax : 16 + SE3_GET16 w.req SE3_CMD1_CRYPTO_UPDATE_REQ_OFF_DATAIN2_LEN
        ≤ cfg.SE3_REQ1_MAX_DATA ∧ cfg.SE3_REQ1_MAX_DATA < 65552)
    (hsid : SE3_GET32 w.req SE3_CMD1_CRYPTO_UPDATE_REQ_OFF_SID < cfg.SE3_SESSIONS_MAX)
    (halgo : w.se3_security_info.sessions_algo
      (SE3_GET32 w.req SE3_CMD1_CRYPTO_UPDATE_REQ_OFF_SID) < SE3_ALGO_MAX)
    (hupd : (algo_table_at cfg h (w.se3_security_info.sessions_algo
      (SE3_GET32 w.req SE3_CMD1_CRYPTO_UPDATE_REQ_OFF_SID))).update = some handler)
    (hctx : se3_mem_ptr w.se3_security_info.sessions
      (SE3_GET32 w.req SE3_CMD1_CRYPTO_UPDATE_REQ_OFF_SID) = some ctx) :
    16 + spec_round_up (SE3_GET16 w.req SE3_CMD1_CRYPTO_UPDATE_REQ_OFF_DATAIN1_LEN) 16
        + SE3_GET16 w.req SE3_CMD1_CRYPTO_UPDATE_REQ_OFF_DATAIN2_LEN
      > cfg.SE3_REQ1_MAX_DATA ∧
    (crypto_update cfg h req_size w).1 =
      (handler ctx (SE3_GET16 w.req SE3_CMD1_CRYPTO_UPDATE_REQ_OFF_FLAGS)
        (SE3_GET16 w.req SE3_CMD1_CRYPTO_UPDATE_REQ_OFF_DATAIN1_LEN) (Mem.shift w.req 16)
        (SE3_GET16 w.req SE3_CMD1_CRYPTO_UPDATE_REQ_OFF_DATAIN2_LEN) (Mem.shift w.req 16)
        (Mem.shift w.resp 16)).status ∧
    ∃ rest, (crypto_update cfg h req_size w).2.log =
      w.log ++ Event.se3_mem_ptr (SE3_GET32 w.req SE3_CMD1_CRYPTO_UPDATE_REQ_OFF_SID)
        :: Event.update_handler
            (w.se3_security_info.sessions_algo
              (SE3_GET32 w.req SE3_CMD1_CRYPTO_UPDATE_REQ_OFF_SID))
            (SE3_GET16 w.req SE3_CMD1_CRYPTO_UPDATE_REQ_OFF_FLAGS)
            (SE3_GET16 w.req SE3_CMD1_CRYPTO_UPDATE_REQ_OFF_DATAIN1_LEN)
            (SE3_GET16 w.req SE3_CMD1_CRYPTO_UPDATE_REQ_OFF_DATAIN2_LEN)
        :: rest := by
  have hlt := SE3_GET16_lt w.req SE3_CMD1_CRYPTO_UPDATE_REQ_OFF_DATAIN1_LEN
  have hpad : datain1_len_padded
      (SE3_GET16 w.req SE3_CMD1_CRYPTO_UPDATE_REQ_OFF_DATAIN1_LEN) = 0 :=
    datain1_len_padded_wraps _ hd1 hlt
  have hsz : ¬ req_size < SE3_CMD1_CRYPTO_UPDATE_REQ_OFF_DATA := by omega
  have hgo : ¬ (SE3_CMD1_CRYPTO_UPDATE_REQ_OFF_DATA + 0
      + SE3_GET16 w.req SE3_CMD1_CRYPTO_UPDATE_REQ_OFF_DATAIN2_LEN
        > cfg.SE3_REQ1_MAX_DATA) := by
    simp only [SE3_CMD1_CRYPTO_UPDATE_REQ_OFF_DATA]; omega
  have hs : ¬ (SE3_GET32 w.req SE3_CMD1_CRYPTO_UPDATE_REQ_OFF_SID ≥ cfg.SE3_SESSIONS_MAX) := by
    omega
  have ha : ¬ (w.se3_security_info.sessions_algo
      (SE3_GET32 w.req SE3_CMD1_CRYPTO_UPDATE_REQ_OFF_SID) ≥ SE3_ALGO_MAX) := by omega
  refine ⟨by unfold spec_round_up; omega, ?_, ?_⟩
  · simp only [crypto_update, hsz, if_false, hpad, hgo, hs, ha, hupd, hctx]
    split
    · rfl
    · rename_i hst
      exact (not_not.mp hst).symm
  · simp only [crypto_update, hsz, if_false, hpad, hgo, hs, ha, hupd, hctx]
    split
    · exact ⟨[], by simp [World.emit]⟩
    · split
      · exact ⟨[Event.se3_mem_free (SE3_GET32 w.req SE3_CMD1_CRYPTO_UPDATE_REQ_OFF_SID)],
          by simp [World.emit]⟩
      · exact ⟨[], by simp [World.emit]⟩

/-- Instance of `crypto_update_padded_length_wraps`: the sample state with
session 0 open and the request `(sid 0, flags 0, datain1_len 65535,
datain2_len 0)`: the specification's bound is 65552, above the limit 7536, and
`crypto_update` returns `SE3_OK` after calling the update handler with
`datain1_len = 65535`. -/
theorem crypto_update_padded_length_wraps_witness :
    (16 + spec_round_up 65535 16 + 0 > sample_cfg.SE3_REQ1_MAX_DATA) ∧
    (crypto_update sample_cfg sample_handlers 16
      { sample_world_open with req := req_crypto_update 0 0 65535 0 }).1
      = Status.SE3_OK ∧
    Event.update_handler 0 0 65535 0 ∈
      (crypto_update sample_cfg sample_handlers 16
        { sample_world_open with req := req_crypto_update 0 0 65535 0 }).2.log := by
  have key := crypto_update_padded_length_wraps sample_cfg sample_handlers
    { sample_world_open with req := req_crypto_update 0 0 65535 0 } 16 sample_update
    [0, 0, 0, 0, 0, 0, 0, 0]
    (by decide) (by decide) (by decide) (by decide) (by decide) rfl (by decide)
  obtain ⟨h1, h2, rest, h3⟩ := key
  refine ⟨by decide, ?_, ?_⟩
  · rw [h2]; rfl
  · rw [h3]
    have e1 : SE3_GET16 (req_crypto_update 0 0 65535 0)
        SE3_CMD1_CRYPTO_UPDATE_REQ_OFF_FLAGS = 0 := by decide
    have e2 : SE3_GET16 (req_crypto_update 0 0 65535 0)
        SE3_CMD1_CRYPTO_UPDATE_REQ_OFF_DATAIN1_LEN = 65535 := by decide
    have e3 : SE3_GET16 (req_crypto_update 0 0 65535 0)
        SE3_CMD1_CRYPTO_UPDATE_REQ_OFF_DATAIN2_LEN = 0 := by decide
    have e4 : sample_world_open.se3_security_info.sessions_algo
        (SE3_GET32 (req_crypto_update 0 0 65535 0) SE3_CMD1_CRYPTO_UPDATE_REQ_OFF_SID) = 0 := rfl
    simp [e1, e2, e3, e4]

/-! ### Key scratch of `crypto_init` (C2) -/

/-- C2 (counterexample): on the sample state, `crypto_init(AES, mode 0, key 1)`
finds and reads key 1. With the device time at 1000 it returns
`SE3_ERR_EXPIRED`, with the device time at 100 it returns `SE3_OK`; in both
cases the scratch is not all zero on return (its first byte is the first key
byte). -/
theorem crypto_init_scratch_not_zeroized :
    (se3_key_find sample_world_1000.flash 1).isSome = true ∧
    (crypto_init sample_cfg sample_handlers 8
      { sample_world_1000 with req := req_crypto_init 0 0 1 }).1 = Status.SE3_ERR_EXPIRED ∧
    ¬ scratch_zero sample_cfg (crypto_init sample_cfg sample_handlers 8
      { sample_world_1000 with req := req_crypto_init 0 0 1 }).2 ∧
    (crypto_init sample_cfg sample_handlers 8
      { sample_world_100 with req := req_crypto_init 0 0 1 }).1 = Status.SE3_OK ∧
    ¬ scratch_zero sample_cfg (crypto_init sample_cfg sample_handlers 8
      { sample_world_100 with req := req_crypto_init 0 0 1 }).2 := by
  refine ⟨by decide, by decide, ?_, by decide, ?_⟩
  · intro hz
    exact absurd (hz 0 (by decide)) (by decide)
  · intro hz
    exact absurd (hz 0 (by decide)) (by decide)

/-- C2 (amended): `crypto_init` zero-fills the scratch only for
`key_id == SE3_KEY_INVALID`. When a key was found and read, the request
buffer on return is, on every exit path (whatever the status), the buffer as
`se3_key_read` left it: the first `data_size` scratch bytes are the key bytes
and the bytes after them are as before the call. -/
theorem crypto_init_scratch_after_return (cfg : Config) (h : Handlers) (w : World)
    (req_size : Nat) (handler : se3_crypto_init_handler)
    (hsize : req_size = SE3_CMD1_CRYPTO_INIT_REQ_SIZE)
    (hreg : crypto_init_handler_of cfg h
      (SE3_GET16 w.req SE3_CMD1_CRYPTO_INIT_REQ_OFF_ALGO) = some handler) :
    (SE3_GET32 w.req SE3_CMD1_CRYPTO_INIT_REQ_OFF_KEY_ID = cfg.SE3_KEY_INVALID →
      scratch_zero cfg (crypto_init cfg h req_size w).2) ∧
    (SE3_GET32 w.req SE3_CMD1_CRYPTO_INIT_REQ_OFF_KEY_ID ≠ cfg.SE3_KEY_INVALID →
      ∀ fk, se3_key_find w.flash
          (SE3_GET32 w.req SE3_CMD1_CRYPTO_INIT_REQ_OFF_KEY_ID) = some fk →
        (crypto_init cfg h req_size w).2.req = memcpy w.req 16 fk.data fk.data_size ∧
        (∀ i, i < fk.data_size → (crypto_init cfg h req_size w).2.req (16 + i) = fk.data i) ∧
        (∀ i, fk.data_size ≤ i → (crypto_init cfg h req_size w).2.req (16 + i) = w.req (16 + i))) := by
  subst hsize
  constructor
  · intro hkey i hi
    rw [crypto_init_no_key cfg h w handler hreg hkey, (crypto_init_session_frame _ _ _ _ _ _ _).1]
    simp [memset, hi]
  · intro hkey fk hfind
    have hreq : (crypto_init cfg h SE3_CMD1_CRYPTO_INIT_REQ_SIZE w).2.req =
        memcpy w.req 16 fk.data fk.data_size := by
      by_cases hlt : fk.validity < w.now
      · rw [crypto_init_key_expired cfg h w handler fk hreg hkey hfind hlt]; rfl
      · cases hinit : w.now_initialized with
        | false => rw [crypto_init_time_unset cfg h w handler fk hreg hkey hfind hlt hinit]; rfl
        | true =>
          rw [crypto_init_key_valid cfg h w handler fk hreg hkey hfind hlt hinit,
            (crypto_init_session_frame _ _ _ _ _ _ _).1]
          rfl
    refine ⟨hreq, ?_, ?_⟩
    · intro i hi
      rw [hreq]; simp [memcpy, hi]
    · intro i hi
      rw [hreq]
      have : ¬ (16 + i < 16 + fk.data_size) := by omega
      simp [memcpy, this]

/-- Instance of `crypto_init_scratch_after_return`: after a successful
`crypto_init` with the sample key, the second scratch byte is the second key
byte. -/
theorem crypto_init_scratch_after_return_witness :
    (crypto_init sample_cfg sample_handlers 8
      { sample_world_100 with req := req_crypto_init 0 0 1 }).2.req (16 + 1) = 0xBB :=
  ((crypto_init_scratch_after_return sample_cfg sample_handlers
      { sample_world_100 with req := req_crypto_init 0 0 1 } 8 sample_init rfl rfl).2
    (by decide) sample_key rfl).2.1 1 (by decide)

/-! ### Key lookup and validity (C3) -/

/-- C3: for a well-sized `crypto_init` request with a registered algorithm.
With a real key id: a key that is not found gives `SE3_ERR_RESOURCE` after the
lookup alone; a key that is found gives `SE3_ERR_EXPIRED` when its validity is
below the device time or the device time is not set, and then only the key
store and the time were consulted (no allocation, no init handler) and
`se3_security_info` is as before. Conversely `crypto_init` returns
`SE3_ERR_EXPIRED` without calling the init handler exactly in that case, and
when the init handler never returns `SE3_ERR_EXPIRED` itself the status is
`SE3_ERR_EXPIRED` exactly in that case (validity equal to the device time is
not expired). With `key_id == SE3_KEY_INVALID` no call consults the key store
or the device time. -/
theorem crypto_init_key_lookup (cfg : Config) (h : Handlers) (w : World)
    (req_size : Nat) (handler : se3_crypto_init_handler)
    (hsize : req_size = SE3_CMD1_CRYPTO_INIT_REQ_SIZE)
    (hreg : crypto_init_handler_of cfg h
      (SE3_GET16 w.req SE3_CMD1_CRYPTO_INIT_REQ_OFF_ALGO) = some handler) :
    (SE3_GET32 w.req SE3_CMD1_CRYPTO_INIT_REQ_OFF_KEY_ID ≠ cfg.SE3_KEY_INVALID →
      (se3_key_find w.flash (SE3_GET32 w.req SE3_CMD1_CRYPTO_INIT_REQ_OFF_KEY_ID) = none →
        (crypto_init cfg h req_size w).1 = Status.SE3_ERR_RESOURCE ∧
        (crypto_init cfg h req_size w).2.se3_security_info = w.se3_security_info ∧
        (crypto_init cfg h req_size w).2.log =
          w.log ++ [Event.se3_key_find (SE3_GET32 w.req SE3_CMD1_CRYPTO_INIT_REQ_OFF_KEY_ID)]) ∧
      (∀ fk, se3_key_find w.flash
          (SE3_GET32 w.req SE3_CMD1_CRYPTO_INIT_REQ_OFF_KEY_ID) = some fk →
        ((fk.validity < w.now ∨ w.now_initialized = false) →
          (crypto_init cfg h req_size w).1 = Status.SE3_ERR_EXPIRED ∧
          (crypto_init cfg h req_size w).2.se3_security_info = w.se3_security_info ∧
          ∃ evs, (crypto_init cfg h req_size w).2.log = w.log ++ evs ∧
            ∀ e ∈ evs, e.is_key_or_time = true) ∧
        (((crypto_init cfg h req_size w).1 = Status.SE3_ERR_EXPIRED ∧
            ∀ e ∈ (crypto_init cfg h req_size w).2.log.drop w.log.length,
              e.is_init_handler = false) ↔
          (fk.validity < w.now ∨ w.now_initialized = false)) ∧
        ((∀ key mode ctx, (handler key mode ctx).status ≠ Status.SE3_ERR_EXPIRED) →
          ((crypto_init cfg h req_size w).1 = Status.SE3_ERR_EXPIRED ↔
            (fk.validity < w.now ∨ w.now_initialized = false))))) ∧
    (SE3_GET32 w.req SE3_CMD1_CRYPTO_INIT_REQ_OFF_KEY_ID = cfg.SE3_KEY_INVALID →
      ∃ evs, (crypto_init cfg h req_size w).2.log = w.log ++ evs ∧
        ∀ e ∈ evs, e.is_key_or_time = false) := by
  subst hsize
  refine ⟨fun hkey => ⟨?_, ?_⟩, ?_⟩
  · intro hfind
    rw [crypto_init_key_not_found cfg h w handler hreg hkey hfind]
    exact ⟨rfl, rfl, rfl⟩
  · intro fk hfind
    by_cases hlt : fk.validity < w.now
    · rw [crypto_init_key_expired cfg h w handler fk hreg hkey hfind hlt]
      refine ⟨fun _ => ⟨rfl, rfl, _, rfl, ?_⟩, ?_, ?_⟩
      · simp [Event.is_key_or_time]
      · simp [hlt, World.after_key_read, Event.is_init_handler]
      · simp [hlt]
    · cases hinit : w.now_initialized with
      | false =>
        rw [crypto_init_time_unset cfg h w handler fk hreg hkey hfind hlt hinit]
        refine ⟨fun _ => ⟨rfl, rfl, _, rfl, ?_⟩, ?_, ?_⟩
        · simp [Event.is_key_or_time]
        · simp [World.after_key_read, Event.is_init_handler]
        · simp
      | true =>
        rw [crypto_init_key_valid cfg h w handler fk hreg hkey hfind hlt hinit]
        obtain ⟨evs, hl, -, hexp⟩ := crypto_init_session_log cfg h handler
          (SE3_GET16 w.req SE3_CMD1_CRYPTO_INIT_REQ_OFF_ALGO)
          (SE3_GET16 w.req SE3_CMD1_CRYPTO_INIT_REQ_OFF_MODE)
          (se3_key_read fk w.req).1
          (w.after_key_read (SE3_GET32 w.req SE3_CMD1_CRYPTO_INIT_REQ_OFF_KEY_ID) fk
            [Event.se3_time_get, Event.get_now_initialized])
        have hnot : ¬ (fk.validity < w.now ∨ true = false) := by simp [hlt]
        refine ⟨fun hc => absurd hc hnot, ?_, ?_⟩
        · constructor
          · rintro ⟨hst, hno⟩
            exfalso
            have hmem := hexp hst
            have := hno (Event.init_handler
              (SE3_GET16 w.req SE3_CMD1_CRYPTO_INIT_REQ_OFF_ALGO)
              (SE3_GET16 w.req SE3_CMD1_CRYPTO_INIT_REQ_OFF_MODE)) (by
                rw [hl]
                simp [World.after_key_read, List.drop_append]
                simp [hmem])
            simp [Event.is_init_handler] at this
          · intro hc; exact absurd hc hnot
        · intro hh
          constructor
          · intro hst
            exfalso
            rcases crypto_init_session_status cfg h handler
              (SE3_GET16 w.req SE3_CMD1_CRYPTO_INIT_REQ_OFF_ALGO)
              (SE3_GET16 w.req SE3_CMD1_CRYPTO_INIT_REQ_OFF_MODE)
              (se3_key_read fk w.req).1
              (w.after_key_read (SE3_GET32 w.req SE3_CMD1_CRYPTO_INIT_REQ_OFF_KEY_ID) fk
                [Event.se3_time_get, Event.get_now_initialized]) with h1 | h1 | ⟨ctx, h1⟩
            · rw [h1] at hst; exact absurd hst (by decide)
            · rw [h1] at hst; exact absurd hst (by decide)
            · rw [h1] at hst; exact hh _ _ _ hst
          · intro hc; exact absurd hc hnot
  · intro hkey
    rw [crypto_init_no_key cfg h w handler hreg hkey]
    obtain ⟨evs, hl, hev, -⟩ := crypto_init_session_log cfg h handler
      (SE3_GET16 w.req SE3_CMD1_CRYPTO_INIT_REQ_OFF_ALGO)
      (SE3_GET16 w.req SE3_CMD1_CRYPTO_INIT_REQ_OFF_MODE)
      { id := cfg.SE3_KEY_INVALID
        validity := w.stack_key.validity
        data_size := w.stack_key.data_size
        name_size := w.stack_key.name_size
        data := Mem.shift (memset w.req 16 0 cfg.SE3_KEY_DATA_MAX) 16 }
      { w with req := memset w.req 16 0 cfg.SE3_KEY_DATA_MAX }
    refine ⟨_, hl, ?_⟩
    intro e he
    rcases List.mem_cons.mp he with rfl | he
    · rfl
    · exact hev e he

/-- Instance of `crypto_init_key_lookup`: on the sample state at device time
1000 the sample key (validity 500) is expired. -/
theorem crypto_init_key_lookup_witness :
    (crypto_init sample_cfg sample_handlers 8
      { sample_world_1000 with req := req_crypto_init 0 0 1 }).1 = Status.SE3_ERR_EXPIRED :=
  ((((crypto_init_key_lookup sample_cfg sample_handlers
      { sample_world_1000 with req := req_crypto_init 0 0 1 } 8 sample_init rfl rfl).1
    (by decide)).2 sample_key rfl).1 (Or.inl (by decide))).1

/-! ### Algorithm check of `crypto_init` (C4) -/

/-- The init handler is absent exactly for the indices from 5 on. -/
theorem crypto_init_handler_of_eq_none_iff (cfg : Config) (h : Handlers) (algo : Nat) :
    crypto_init_handler_of cfg h algo = none ↔ 5 ≤ algo := by
  unfold crypto_init_handler_of
  by_cases h8 : algo < SE3_ALGO_MAX
  · rw [if_pos h8]
    unfold SE3_ALGO_MAX at h8
    interval_cases algo <;> simp [algo_table_at, algo_table, algo_empty]
  · rw [if_neg h8]
    unfold SE3_ALGO_MAX at h8
    simp; omega

/-- Past the algorithm check `crypto_init` makes at least one external call. -/
theorem crypto_init_registered_log (cfg : Config) (h : Handlers) (w : World)
    (handler : se3_crypto_init_handler)
    (hreg : crypto_init_handler_of cfg h
      (SE3_GET16 w.req SE3_CMD1_CRYPTO_INIT_REQ_OFF_ALGO) = some handler) :
    w.log.length < (crypto_init cfg h SE3_CMD1_CRYPTO_INIT_REQ_SIZE w).2.log.length := by
  by_cases hkey : SE3_GET32 w.req SE3_CMD1_CRYPTO_INIT_REQ_OFF_KEY_ID = cfg.SE3_KEY_INVALID
  · rw [crypto_init_no_key cfg h w handler hreg hkey]
    obtain ⟨evs, hl, -, -⟩ := crypto_init_session_log cfg h handler
      (SE3_GET16 w.req SE3_CMD1_CRYPTO_INIT_REQ_OFF_ALGO)
      (SE3_GET16 w.req SE3_CMD1_CRYPTO_INIT_REQ_OFF_MODE)
      { id := cfg.SE3_KEY_INVALID
        validity := w.stack_key.validity
        data_size := w.stack_key.data_size
        name_size := w.stack_key.name_size
        data := Mem.shift (memset w.req 16 0 cfg.SE3_KEY_DATA_MAX) 16 }
      { w with req := memset w.req 16 0 cfg.SE3_KEY_DATA_MAX }
    rw [hl]; simp
  · cases hfind : se3_key_find w.flash (SE3_GET32 w.req SE3_CMD1_CRYPTO_INIT_REQ_OFF_KEY_ID) with
    | none =>
      rw [crypto_init_key_not_found cfg h w handler hreg hkey hfind]
      simp [World.emit]
    | some fk =>
      by_cases hlt : fk.validity < w.now
      · rw [crypto_init_key_expired cfg h w handler fk hreg hkey hfind hlt]
        simp [World.after_key_read]
      · cases hinit : w.now_initialized with
        | false =>
          rw [crypto_init_time_unset cfg h w handler fk hreg hkey hfind hlt hinit]
          simp [World.after_key_read]
        | true =>
          rw [crypto_init_key_valid cfg h w handler fk hreg hkey hfind hlt hinit]
          obtain ⟨evs, hl, -, -⟩ := crypto_init_session_log cfg h handler
            (SE3_GET16 w.req SE3_CMD1_CRYPTO_INIT_REQ_OFF_ALGO)
            (SE3_GET16 w.req SE3_CMD1_CRYPTO_INIT_REQ_OFF_MODE)
            (se3_key_read fk w.req).1
            (w.after_key_read (SE3_GET32 w.req SE3_CMD1_CRYPTO_INIT_REQ_OFF_KEY_ID) fk
              [Event.se3_time_get, Event.get_now_initialized])
          rw [hl]; simp [World.after_key_read]

/-- C4: a well-sized `crypto_init` request whose `algo` is `SE3_ALGO_MAX` (8)
or more, or names one of the empty slots 5, 6, 7 of `algo_table`, returns
`SE3_ERR_PARAMS` with the whole state as it was (no call to the key store, no
write to the request buffer, the arena or `sessions_algo`); for `algo` in
0..4 the init handler is present and the call goes past the check: it makes
an external call. -/
theorem crypto_init_algo_check (cfg : Config) (h : Handlers) (w : World) (req_size : Nat)
    (hsize : req_size = SE3_CMD1_CRYPTO_INIT_REQ_SIZE) :
    ((SE3_ALGO_MAX ≤ SE3_GET16 w.req SE3_CMD1_CRYPTO_INIT_REQ_OFF_ALGO ∨
        SE3_GET16 w.req SE3_CMD1_CRYPTO_INIT_REQ_OFF_ALGO = 5 ∨
        SE3_GET16 w.req SE3_CMD1_CRYPTO_INIT_REQ_OFF_ALGO = 6 ∨
        SE3_GET16 w.req SE3_CMD1_CRYPTO_INIT_REQ_OFF_ALGO = 7) →
      crypto_init cfg h req_size w = (Status.SE3_ERR_PARAMS, w)) ∧
    (∀ i, 5 ≤ i → i < SE3_ALGO_MAX → (algo_table_at cfg h i).init.isNone = true) ∧
    (SE3_GET16 w.req SE3_CMD1_CRYPTO_INIT_REQ_OFF_ALGO ≤ 4 →
      (crypto_init_handler_of cfg h
        (SE3_GET16 w.req SE3_CMD1_CRYPTO_INIT_REQ_OFF_ALGO)).isSome = true ∧
      w.log.length < (crypto_init cfg h req_size w).2.log.length) := by
  subst hsize
  refine ⟨?_, ?_, ?_⟩
  · intro halgo
    apply crypto_init_unregistered
    rw [crypto_init_handler_of_eq_none_iff]
    unfold SE3_ALGO_MAX at halgo
    omega
  · intro i h5 h8
    unfold SE3_ALGO_MAX at h8
    interval_cases i <;> rfl
  · intro halgo
    cases hreg : crypto_init_handler_of cfg h
        (SE3_GET16 w.req SE3_CMD1_CRYPTO_INIT_REQ_OFF_ALGO) with
    | none =>
      rw [crypto_init_handler_of_eq_none_iff] at hreg
      omega
    | some handler =>
      exact ⟨rfl, crypto_init_registered_log cfg h w handler hreg⟩

/-- Instance of `crypto_init_algo_check`: on the sample state the request
`(algo 8, mode 0, key 1)` is rejected and `(algo 0, mode 0, no key)` passes
the check. -/
theorem crypto_init_algo_check_witness :
    crypto_init sample_cfg sample_handlers 8
        { sample_world with req := req_crypto_init 8 0 1 } =
      (Status.SE3_ERR_PARAMS, { sample_world with req := req_crypto_init 8 0 1 }) ∧
    (0 : Nat) < (crypto_init sample_cfg sample_handlers 8
        { sample_world with req := req_crypto_init 0 0 0xFFFFFFFF }).2.log.length :=
  ⟨(crypto_init_algo_check sample_cfg sample_handlers
      { sample_world with req := req_crypto_init 8 0 1 } 8 rfl).1 (Or.inl (by decide)),
   ((crypto_init_algo_check sample_cfg sample_handlers
      { sample_world with req := req_crypto_init 0 0 0xFFFFFFFF } 8 rfl).2.2 (by decide)).2⟩

/-! ### The response of `crypto_list` (C5) -/

/-- A 16-bit field read back from the two bytes `SE3_SET16` stores. -/
theorem SE3_GET16_of_bytes (buf : Mem) (off v : Nat)
    (h0 : buf off = v % 256) (h1 : buf (off + 1) = v / 256 % 256) :
    SE3_GET16 buf off = v % 2 ^ 16 := by
  unfold SE3_GET16
  rw [h0, h1]
  omega

/-- One iteration of the loop of `crypto_list` writes nothing at or after
`p + SE3_CMD1_CRYPTO_ALGOINFO_SIZE`. -/
theorem crypto_list_body_resp_above (cfg : Config) (h : Handlers) (v : crypto_list_vars)
    (k i : Nat) (hi : v.p + SE3_CMD1_CRYPTO_ALGOINFO_SIZE ≤ i) :
    (crypto_list_body cfg h v k).resp i = v.resp i := by
  unfold SE3_CMD1_CRYPTO_ALGOINFO_SIZE at hi
  unfold crypto_list_body
  simp only
  split
  · simp only [SE3_SET16, memcpy, SE3_CMD1_CRYPTO_ALGOINFO_OFF_NAME,
      SE3_CMD1_CRYPTO_ALGOINFO_NAME_SIZE, SE3_CMD1_CRYPTO_ALGOINFO_OFF_TYPE,
      SE3_CMD1_CRYPTO_ALGOINFO_OFF_BLOCK_SIZE, SE3_CMD1_CRYPTO_ALGOINFO_OFF_KEY_SIZE]
    split_ifs <;> first | rfl | omega
  · rfl

/-- The response of `crypto_list` is untouched after the fifth entry. -/
theorem crypto_list_resp_above (cfg : Config) (h : Handlers) (w : World) (i : Nat)
    (hi : SE3_CMD1_CRYPTO_LIST_RESP_OFF_ALGOINFO + 5 * SE3_CMD1_CRYPTO_ALGOINFO_SIZE ≤ i) :
    (crypto_list cfg h SE3_CMD1_CRYPTO_LIST_REQ_SIZE w).2.resp i = w.resp i := by
  have hi2 : 112 ≤ i := hi
  have e : (crypto_list cfg h SE3_CMD1_CRYPTO_LIST_REQ_SIZE w).2.resp =
      SE3_SET16
        (crypto_list_body cfg h (crypto_list_body cfg h (crypto_list_body cfg h
          (crypto_list_body cfg h (crypto_list_body cfg h
            { count := 0, size := 2, p := 2, resp := w.resp } 0) 1) 2) 3) 4).resp 0 5 := rfl
  rw [e]
  have e0 : ∀ m : Mem, SE3_SET16 m 0 5 i = m i := by
    intro m
    simp only [SE3_SET16]
    split_ifs <;> first | rfl | omega
  rw [e0, crypto_list_body_resp_above _ _ _ _ _ (show (90 : Nat) + 22 ≤ i by omega),
    crypto_list_body_resp_above _ _ _ _ _ (show (68 : Nat) + 22 ≤ i by omega),
    crypto_list_body_resp_above _ _ _ _ _ (show (46 : Nat) + 22 ≤ i by omega),
    crypto_list_body_resp_above _ _ _ _ _ (show (24 : Nat) + 22 ≤ i by omega),
    crypto_list_body_resp_above _ _ _ _ _ (show (2 : Nat) + 22 ≤ i by omega)]

set_option maxHeartbeats 1000000 in
/-- Entry `k` of the response of `crypto_list`, for `k` in 0..4, carries the
display fields of `algo_table[k]`. -/
theorem crypto_list_entry (cfg : Config) (h : Handlers) (w : World) (k : Nat) (hk : k < 5) :
    algoinfo_at (crypto_list cfg h SE3_CMD1_CRYPTO_LIST_REQ_SIZE w).2.resp k =
      algoinfo_of (algo_table_at cfg h k) := by
  interval_cases k
  · exact Prod.ext rfl (Prod.ext (SE3_GET16_of_bytes _ _ cfg.SE3_CRYPTO_TYPE_BLOCKCIPHER rfl rfl)
      (Prod.ext (SE3_GET16_of_bytes _ _ 16 rfl rfl) (SE3_GET16_of_bytes _ _ 32 rfl rfl)))
  · exact Prod.ext rfl (Prod.ext (SE3_GET16_of_bytes _ _ cfg.SE3_CRYPTO_TYPE_DIGEST rfl rfl)
      (Prod.ext (SE3_GET16_of_bytes _ _ 32 rfl rfl) (SE3_GET16_of_bytes _ _ 0 rfl rfl)))
  · exact Prod.ext rfl (Prod.ext (SE3_GET16_of_bytes _ _ cfg.SE3_CRYPTO_TYPE_DIGEST rfl rfl)
      (Prod.ext (SE3_GET16_of_bytes _ _ 32 rfl rfl) (SE3_GET16_of_bytes _ _ 32 rfl rfl)))
  · exact Prod.ext rfl (Prod.ext (SE3_GET16_of_bytes _ _ cfg.SE3_CRYPTO_TYPE_BLOCKCIPHER_AUTH rfl rfl)
      (Prod.ext (SE3_GET16_of_bytes _ _ 16 rfl rfl) (SE3_GET16_of_bytes _ _ 32 rfl rfl)))
  · exact Prod.ext rfl (Prod.ext (SE3_GET16_of_bytes _ _ cfg.SE3_CRYPTO_TYPE_BLOCKCIPHER_AUTH rfl rfl)
      (Prod.ext (SE3_GET16_of_bytes _ _ 16 rfl rfl) (SE3_GET16_of_bytes _ _ 32 rfl rfl)))

/-- C5: `crypto_list` on an empty request returns `SE3_OK`. The algorithms with
both handlers present are the table indices 0..4; the response carries the
count 5 (little-endian) at its head and then, in table order, one 22-byte
entry `(name[16], type, block_size, key_size)` per such index, with the
display fields of that descriptor: the names are `Aes`, `Sha256`,
`HmacSha256`, `AesHmacSha256s`, `AES256HMACSHA256`, and the first entry has
type BlockCipher, block size 16, key size 32. `resp_size` is the offset of the
first entry plus five entry sizes, and the response is untouched from there
on (nothing is emitted for the empty slots). -/
theorem crypto_list_response (cfg : Config) (h : Handlers) (w : World) :
    (crypto_list cfg h SE3_CMD1_CRYPTO_LIST_REQ_SIZE w).1 = Status.SE3_OK ∧
    registered_algos cfg h = [0, 1, 2, 3, 4] ∧
    SE3_GET16 (crypto_list cfg h SE3_CMD1_CRYPTO_LIST_REQ_SIZE w).2.resp
      SE3_CMD1_CRYPTO_LIST_RESP_OFF_COUNT = 5 ∧
    (∀ k, k < 5 →
      algoinfo_at (crypto_list cfg h SE3_CMD1_CRYPTO_LIST_REQ_SIZE w).2.resp k =
        algoinfo_of (algo_table_at cfg h k)) ∧
    (List.range 5).map
        (fun k => (algoinfo_at (crypto_list cfg h SE3_CMD1_CRYPTO_LIST_REQ_SIZE w).2.resp k).1) =
      [display_name16 "Aes", display_name16 "Sha256", display_name16 "HmacSha256",
        display_name16 "AesHmacSha256s", display_name16 "AES256HMACSHA256"] ∧
    algoinfo_at (crypto_list cfg h SE3_CMD1_CRYPTO_LIST_REQ_SIZE w).2.resp 0 =
      (display_name16 "Aes", cfg.SE3_CRYPTO_TYPE_BLOCKCIPHER % 2 ^ 16, 16, 32) ∧
    (crypto_list cfg h SE3_CMD1_CRYPTO_LIST_REQ_SIZE w).2.resp_size =
      SE3_CMD1_CRYPTO_LIST_RESP_OFF_ALGOINFO + 5 * SE3_CMD1_CRYPTO_ALGOINFO_SIZE ∧
    (∀ i, SE3_CMD1_CRYPTO_LIST_RESP_OFF_ALGOINFO + 5 * SE3_CMD1_CRYPTO_ALGOINFO_SIZE ≤ i →
      (crypto_list cfg h SE3_CMD1_CRYPTO_LIST_REQ_SIZE w).2.resp i = w.resp i) := by
  refine ⟨rfl, rfl, SE3_GET16_of_bytes _ _ 5 rfl rfl, crypto_list_entry cfg h w, ?_, ?_, rfl,
    fun i hi => crypto_list_resp_above cfg h w i hi⟩
  · simp only [List.range, List.range.loop, List.map]
    rw [crypto_list_entry cfg h w 0 (by omega), crypto_list_entry cfg h w 1 (by omega),
      crypto_list_entry cfg h w 2 (by omega), crypto_list_entry cfg h w 3 (by omega),
      crypto_list_entry cfg h w 4 (by omega)]
    rfl
  · rw [crypto_list_entry cfg h w 0 (by omega)]
    rfl

/-! ### Session lifecycle (C6) -/

/-- C6: session lifecycle. (1) When a `crypto_update` with the flag `FINIT`
returns `SE3_OK`, the arena slot of its sid is free afterwards, and after any
further commands among which no `crypto_init` returns that sid, every
`crypto_update` on the sid whose request passes the size checks returns
`SE3_ERR_RESOURCE` without a handler call. (2) The same holds for every sid
whose slot is free (a sid never allocated). (3) A `crypto_update` with
`sid >= SE3_SESSIONS_MAX` returns `SE3_ERR_RESOURCE` and changes nothing. -/
theorem crypto_update_closed_session (cfg : Config) (h : Handlers) (w : World)
    (hcfg : cfg.wf) (hw : w.wf cfg) :
    (∀ req_size,
      SE3_GET16 w.req SE3_CMD1_CRYPTO_UPDATE_REQ_OFF_FLAGS &&& cfg.SE3_CRYPTO_FLAG_FINIT ≠ 0 →
      (crypto_update cfg h req_size w).1 = Status.SE3_OK →
      (crypto_update cfg h req_size w).2.se3_security_info.sessions.allocated
          (SE3_GET32 w.req SE3_CMD1_CRYPTO_UPDATE_REQ_OFF_SID) = false ∧
      ∀ cmds,
        never_returns_sid cfg h (SE3_GET32 w.req SE3_CMD1_CRYPTO_UPDATE_REQ_OFF_SID) cmds
          (crypto_update cfg h req_size w).2 →
        update_rejected cfg h (run_commands cfg h cmds (crypto_update cfg h req_size w).2)
          (SE3_GET32 w.req SE3_CMD1_CRYPTO_UPDATE_REQ_OFF_SID)) ∧
    (∀ sid, w.se3_security_info.sessions.allocated sid = false →
      ∀ cmds, never_returns_sid cfg h sid cmds w →
        update_rejected cfg h (run_commands cfg h cmds w) sid) ∧
    (∀ req_size, crypto_update_passes cfg req_size w.req →
      cfg.SE3_SESSIONS_MAX ≤ SE3_GET32 w.req SE3_CMD1_CRYPTO_UPDATE_REQ_OFF_SID →
      crypto_update cfg h req_size w = (Status.SE3_ERR_RESOURCE, w)) := by
  have hstale : ∀ (w0 : World) (sid : Nat), w0.wf cfg →
      w0.se3_security_info.sessions.slots sid = none →
      ∀ cmds, never_returns_sid cfg h sid cmds w0 →
        update_rejected cfg h (run_commands cfg h cmds w0) sid := by
    intro w0 sid hw0 hfree cmds hnever
    exact update_rejected_of_free cfg h _ sid
      (run_commands_keeps_free cfg h sid hcfg cmds w0 hw0 hfree hnever).2
  refine ⟨?_, ?_, ?_⟩
  · intro req_size hfin hok
    have hfree := crypto_update_finit_frees cfg h w req_size hfin hok
    refine ⟨by simp [se3_mem.allocated, hfree], ?_⟩
    intro cmds hnever
    refine hstale _ _ ?_ hfree cmds hnever
    unfold World.wf
    rw [crypto_update_max_count]
    exact hw
  · intro sid hfree cmds hnever
    refine hstale w sid hw ?_ cmds hnever
    simpa [se3_mem.allocated] using hfree
  · intro req_size hpass hsid
    obtain ⟨hp1, hp2⟩ := hpass
    have hsz : ¬ req_size < SE3_CMD1_CRYPTO_UPDATE_REQ_OFF_DATA := by omega
    have hgo : ¬ (SE3_CMD1_CRYPTO_UPDATE_REQ_OFF_DATA
        + datain1_len_padded (SE3_GET16 w.req SE3_CMD1_CRYPTO_UPDATE_REQ_OFF_DATAIN1_LEN)
        + SE3_GET16 w.req SE3_CMD1_CRYPTO_UPDATE_REQ_OFF_DATAIN2_LEN >
          cfg.SE3_REQ1_MAX_DATA) := by
      omega
    have hs : SE3_GET32 w.req SE3_CMD1_CRYPTO_UPDATE_REQ_OFF_SID ≥ cfg.SE3_SESSIONS_MAX := hsid
    simp only [crypto_update, hsz, if_false, hgo, hs, if_true]

/-- Instance of `crypto_update_closed_session`: on the sample state with
session 0 open, `crypto_update(0, FINIT)` closes it; after a `crypto_set_time`
and a `crypto_update` on sid 1, a `crypto_update` on sid 0 returns
`SE3_ERR_RESOURCE`. -/
theorem crypto_update_closed_session_witness :
    (crypto_update sample_cfg sample_handlers 16
      { run_commands sample_cfg sample_handlers
          [Command.crypto_set_time 4 (fun _ => 0),
            Command.crypto_update 16 (req_crypto_update 1 0 0 0)]
          (crypto_update sample_cfg sample_handlers 16
            { sample_world_open with req := req_crypto_update 0 0x8000 0 0 }).2
        with req := req_crypto_update 0 0 16 0 }).1 = Status.SE3_ERR_RESOURCE :=
  ((((crypto_update_closed_session sample_cfg sample_handlers
      { sample_world_open with req := req_crypto_update 0 0x8000 0 0 }
      (by decide) (by decide)).1 16 (by decide) (by decide)).2
    [Command.crypto_set_time 4 (fun _ => 0),
      Command.crypto_update 16 (req_crypto_update 1 0 0 0)]
    ⟨trivial, trivial, trivial⟩) 16 (req_crypto_update 0 0 16 0) (by decide) (by decide)).1

/-! ### Failure of the update handler (C7) -/

/-- C7: when a `crypto_update` request reaches the update handler and the
handler returns a status other than `SE3_OK`, `crypto_update` returns exactly
that status; the session stays allocated (whatever the flags, `FINIT`
included: no `se3_mem_free` is called) and the set of allocated slots is as
before; `sessions_algo` is unchanged; the sixteen header bytes of the
response, which hold the `dataout_len` field, and `resp_size` are not
written. -/
theorem crypto_update_handler_error (cfg : Config) (h : Handlers) (w : World) (req_size : Nat)
    (handler : se3_crypto_update_handler) (ctx : List Nat)
    (hpass : crypto_update_passes cfg req_size w.req)
    (hsid : SE3_GET32 w.req SE3_CMD1_CRYPTO_UPDATE_REQ_OFF_SID < cfg.SE3_SESSIONS_MAX)
    (halgo : w.se3_security_info.sessions_algo
      (SE3_GET32 w.req SE3_CMD1_CRYPTO_UPDATE_REQ_OFF_SID) < SE3_ALGO_MAX)
    (hupd : (algo_table_at cfg h (w.se3_security_info.sessions_algo
      (SE3_GET32 w.req SE3_CMD1_CRYPTO_UPDATE_REQ_OFF_SID))).update = some handler)
    (hctx : se3_mem_ptr w.se3_security_info.sessions
      (SE3_GET32 w.req SE3_CMD1_CRYPTO_UPDATE_REQ_OFF_SID) = some ctx)
    (hfail : (crypto_update_call handler w ctx).status ≠ Status.SE3_OK) :
    (crypto_update cfg h req_size w).1 = (crypto_update_call handler w ctx).status ∧
    (crypto_update cfg h req_size w).2.se3_security_info.sessions.allocated
      (SE3_GET32 w.req SE3_CMD1_CRYPTO_UPDATE_REQ_OFF_SID) = true ∧
    (∀ i, (crypto_update cfg h req_size w).2.se3_security_info.sessions.allocated i =
      w.se3_security_info.sessions.allocated i) ∧
    (crypto_update cfg h req_size w).2.se3_security_info.sessions_algo =
      w.se3_security_info.sessions_algo ∧
    (∀ i, i < SE3_CMD1_CRYPTO_UPDATE_RESP_OFF_DATA →
      (crypto_update cfg h req_size w).2.resp i = w.resp i) ∧
    (crypto_update cfg h req_size w).2.resp_size = w.resp_size ∧
    (crypto_update cfg h req_size w).2.log = w.log ++
      [Event.se3_mem_ptr (SE3_GET32 w.req SE3_CMD1_CRYPTO_UPDATE_REQ_OFF_SID),
        Event.update_handler
          (w.se3_security_info.sessions_algo
            (SE3_GET32 w.req SE3_CMD1_CRYPTO_UPDATE_REQ_OFF_SID))
          (SE3_GET16 w.req SE3_CMD1_CRYPTO_UPDATE_REQ_OFF_FLAGS)
          (SE3_GET16 w.req SE3_CMD1_CRYPTO_UPDATE_REQ_OFF_DATAIN1_LEN)
          (SE3_GET16 w.req SE3_CMD1_CRYPTO_UPDATE_REQ_OFF_DATAIN2_LEN)] := by
  rw [crypto_update_handler_fails cfg h w req_size handler ctx hpass hsid halgo hupd hctx hfail]
  have hsome : (w.se3_security_info.sessions.slots
      (SE3_GET32 w.req SE3_CMD1_CRYPTO_UPDATE_REQ_OFF_SID)).isSome = true := by
    unfold se3_mem_ptr at hctx
    split at hctx
    · cases hs : w.se3_security_info.sessions.slots
          (SE3_GET32 w.req SE3_CMD1_CRYPTO_UPDATE_REQ_OFF_SID) with
      | none => rw [hs] at hctx; exact absurd hctx (by simp)
      | some b => rfl
    · exact absurd hctx (by simp)
  have hall : ∀ i, (w.se3_security_info.sessions.store
      (SE3_GET32 w.req SE3_CMD1_CRYPTO_UPDATE_REQ_OFF_SID)
      (crypto_update_call handler w ctx).ctx).allocated i =
        w.se3_security_info.sessions.allocated i := by
    intro i
    simp only [se3_mem.allocated, se3_mem.store]
    by_cases hi : i = SE3_GET32 w.req SE3_CMD1_CRYPTO_UPDATE_REQ_OFF_SID
    · subst hi; simp
    · rw [Function.update_noteq hi]
  refine ⟨rfl, ?_, hall, rfl, ?_, rfl, rfl⟩
  · simp only
    rw [hall]
    exact hsome
  · intro i hi
    simp only [hi, if_true]

/-- Instance of `crypto_update_handler_error`: on the sample state with
session 0 open, the sample update handler fails on flags `FINIT | 1`;
`crypto_update` returns its status `SE3_ERR_HW` and session 0 stays
allocated. -/
theorem crypto_update_handler_error_witness :
    (crypto_update sample_cfg sample_handlers 16
      { sample_world_open with req := req_crypto_update 0 0x8001 0 0 }).1 = Status.SE3_ERR_HW ∧
    (crypto_update sample_cfg sample_handlers 16
      { sample_world_open with req := req_crypto_update 0 0x8001 0 0 }).2.se3_security_info.sessions.allocated
        0 = true :=
  ⟨(crypto_update_handler_error sample_cfg sample_handlers
      { sample_world_open with req := req_crypto_update 0 0x8001 0 0 } 16 sample_update
      [0, 0, 0, 0, 0, 0, 0, 0] (by decide) (by decide) (by decide) rfl (by decide)
      (by decide)).1,
   (crypto_update_handler_error sample_cfg sample_handlers
      { sample_world_open with req := req_crypto_update 0 0x8001 0 0 } 16 sample_update
      [0, 0, 0, 0, 0, 0, 0, 0] (by decide) (by decide) (by decide) rfl (by decide)
      (by decide)).2.1⟩

/-! ### No net allocation (C8) -/

/-- C8: when `crypto_init` returns `SE3_OK` with session id `sid` and the
following `crypto_update(sid, flags, no datain1, no datain2)` with the flag
`FINIT` set returns `SE3_OK`, the set of allocated arena slots after the two
calls is the set before them. -/
theorem crypto_init_then_finit (cfg : Config) (h : Handlers) (w : World) (flags : Nat)
    (hcfg : cfg.wf) (hw : w.wf cfg)
    (hok1 : (crypto_init cfg h SE3_CMD1_CRYPTO_INIT_REQ_SIZE w).1 = Status.SE3_OK)
    (hflags : flags < 2 ^ 16) (hfin : flags &&& cfg.SE3_CRYPTO_FLAG_FINIT ≠ 0)
    (hok2 : (crypto_update cfg h SE3_CMD1_CRYPTO_UPDATE_REQ_OFF_DATA
      { (crypto_init cfg h SE3_CMD1_CRYPTO_INIT_REQ_SIZE w).2 with
        req := req_crypto_update
          (SE3_GET32 (crypto_init cfg h SE3_CMD1_CRYPTO_INIT_REQ_SIZE w).2.resp
            SE3_CMD1_CRYPTO_INIT_RESP_OFF_SID) flags 0 0 }).1 = Status.SE3_OK) :
    ∀ i, (crypto_update cfg h SE3_CMD1_CRYPTO_UPDATE_REQ_OFF_DATA
      { (crypto_init cfg h SE3_CMD1_CRYPTO_INIT_REQ_SIZE w).2 with
        req := req_crypto_update
          (SE3_GET32 (crypto_init cfg h SE3_CMD1_CRYPTO_INIT_REQ_SIZE w).2.resp
            SE3_CMD1_CRYPTO_INIT_RESP_OFF_SID) flags 0 0 }).2.se3_security_info.sessions.allocated i
      = w.se3_security_info.sessions.allocated i := by
  rcases crypto_init_result cfg h w SE3_CMD1_CRYPTO_INIT_REQ_SIZE hcfg hw with
    ⟨h1, _⟩ | ⟨_, sid, handler, key, _, hreg, hlt, hfree, hinfo, hresp, _⟩
  · exact absurd hok1 h1
  have hsid : SE3_GET32 (crypto_init cfg h SE3_CMD1_CRYPTO_INIT_REQ_SIZE w).2.resp
      SE3_CMD1_CRYPTO_INIT_RESP_OFF_SID = sid := by
    rw [hresp, SE3_GET32_SET32]
    unfold Config.wf at hcfg
    unfold World.wf at hw
    exact Nat.mod_eq_of_lt (by omega)
  rw [hsid] at hok2 ⊢
  have hrsid : SE3_GET32 (req_crypto_update sid flags 0 0) SE3_CMD1_CRYPTO_UPDATE_REQ_OFF_SID
      = sid := by
    rw [req_crypto_update_sid]
    unfold Config.wf at hcfg
    unfold World.wf at hw
    exact Nat.mod_eq_of_lt (by omega)
  have hrflags : SE3_GET16 (req_crypto_update sid flags 0 0)
      SE3_CMD1_CRYPTO_UPDATE_REQ_OFF_FLAGS = flags := by
    rw [req_crypto_update_flags]
    exact Nat.mod_eq_of_lt hflags
  obtain ⟨hpass, hs, halgo, uh, ctx, hupd, hctx, hst⟩ :=
    crypto_update_ok_inv cfg h _ _ hok2
  have hsess := (crypto_update_handler_ok cfg h _ _ uh ctx hpass hs halgo hupd hctx hst).2.2
  dsimp only at hsess
  rw [hrsid, hrflags, if_pos hfin] at hsess
  intro i
  rw [hsess, hinfo]
  simp only [se3_mem.allocated, se3_mem_free, se3_mem.store]
  by_cases hi : i = sid
  · subst hi; simp [hfree]
  · simp [Function.update_noteq hi]

/-- Instance of `crypto_init_then_finit`: on the sample state,
`crypto_init(AES, mode 0, no key)` followed by `crypto_update(sid, FINIT)`
leaves slot 0 free as it was. -/
theorem crypto_init_then_finit_witness :
    (crypto_update sample_cfg sample_handlers 16
      { (crypto_init sample_cfg sample_handlers 8
          { sample_world with req := req_crypto_init 0 0 0xFFFFFFFF }).2 with
        req := req_crypto_update
          (SE3_GET32 (crypto_init sample_cfg sample_handlers 8
            { sample_world with req := req_crypto_init 0 0 0xFFFFFFFF }).2.resp 0)
          0x8000 0 0 }).2.se3_security_info.sessions.allocated 0 = false :=
  crypto_init_then_finit sample_cfg sample_handlers
    { sample_world with req := req_crypto_init 0 0 0xFFFFFFFF } 0x8000
    (by decide) (by decide) (by decide) (by decide) (by decide) (by decide) 0

/-! ### The sid of a successful `crypto_init` (C9) -/

/-- C9: when `crypto_init` returns `SE3_OK`, the sid written little-endian at
the head of the response is below `SE3_SESSIONS_MAX`, its arena slot is
allocated, and `sessions_algo[sid]` is the requested `algo`, which is below
`SE3_ALGO_MAX` and whose init and update handlers are both present in
`algo_table`. -/
theorem crypto_init_ok_sid (cfg : Config) (h : Handlers) (w : World) (req_size : Nat)
    (hcfg : cfg.wf) (hw : w.wf cfg)
    (hok : (crypto_init cfg h req_size w).1 = Status.SE3_OK) :
    SE3_GET32 (crypto_init cfg h req_size w).2.resp SE3_CMD1_CRYPTO_INIT_RESP_OFF_SID
      < cfg.SE3_SESSIONS_MAX ∧
    (crypto_init cfg h req_size w).2.se3_security_info.sessions.allocated
      (SE3_GET32 (crypto_init cfg h req_size w).2.resp SE3_CMD1_CRYPTO_INIT_RESP_OFF_SID)
      = true ∧
    (crypto_init cfg h req_size w).2.se3_security_info.sessions_algo
      (SE3_GET32 (crypto_init cfg h req_size w).2.resp SE3_CMD1_CRYPTO_INIT_RESP_OFF_SID)
      = SE3_GET16 w.req SE3_CMD1_CRYPTO_INIT_REQ_OFF_ALGO ∧
    SE3_GET16 w.req SE3_CMD1_CRYPTO_INIT_REQ_OFF_ALGO < SE3_ALGO_MAX ∧
    (algo_table_at cfg h (SE3_GET16 w.req SE3_CMD1_CRYPTO_INIT_REQ_OFF_ALGO)).init.isSome
      = true ∧
    (algo_table_at cfg h (SE3_GET16 w.req SE3_CMD1_CRYPTO_INIT_REQ_OFF_ALGO)).update.isSome
      = true := by
  rcases crypto_init_result cfg h w req_size hcfg hw with
    ⟨h1, _⟩ | ⟨_, sid, handler, key, _, hreg, hlt, _, hinfo, hresp, _⟩
  · exact absurd hok h1
  · have hsid : SE3_GET32 (crypto_init cfg h req_size w).2.resp
        SE3_CMD1_CRYPTO_INIT_RESP_OFF_SID = sid := by
      rw [hresp, SE3_GET32_SET32]
      unfold Config.wf at hcfg
      unfold World.wf at hw
      exact Nat.mod_eq_of_lt (by omega)
    have h5 : SE3_GET16 w.req SE3_CMD1_CRYPTO_INIT_REQ_OFF_ALGO < 5 := by
      by_contra hge
      have := (crypto_init_handler_of_eq_none_iff cfg h
        (SE3_GET16 w.req SE3_CMD1_CRYPTO_INIT_REQ_OFF_ALGO)).mpr (by omega)
      rw [this] at hreg
      exact absurd hreg (by simp)
    rw [hsid, hinfo]
    refine ⟨?_, ?_, ?_, ?_, ?_, ?_⟩
    · unfold World.wf at hw; omega
    · simp [se3_mem.allocated]
    · simp
    · unfold SE3_ALGO_MAX; omega
    · generalize SE3_GET16 w.req SE3_CMD1_CRYPTO_INIT_REQ_OFF_ALGO = a at h5
      interval_cases a <;> rfl
    · generalize SE3_GET16 w.req SE3_CMD1_CRYPTO_INIT_REQ_OFF_ALGO = a at h5
      interval_cases a <;> rfl

/-- Instance of `crypto_init_ok_sid`: on the sample state with session 0 open,
`crypto_init(Sha256, mode 0, no key)` succeeds; the sid in the response is
below 4 and linked to algorithm 1. -/
theorem crypto_init_ok_sid_witness :
    SE3_GET32 (crypto_init sample_cfg sample_handlers 8
      { sample_world_open with req := req_crypto_init 1 0 0xFFFFFFFF }).2.resp 0 < 4 ∧
    (crypto_init sample_cfg sample_handlers 8
      { sample_world_open with req := req_crypto_init 1 0 0xFFFFFFFF }).2.se3_security_info.sessions_algo
        (SE3_GET32 (crypto_init sample_cfg sample_handlers 8
          { sample_world_open with req := req_crypto_init 1 0 0xFFFFFFFF }).2.resp 0) = 1 :=
  ⟨(crypto_init_ok_sid sample_cfg sample_handlers
      { sample_world_open with req := req_crypto_init 1 0 0xFFFFFFFF } 8
      (by decide) (by decide) (by decide)).1,
   (crypto_init_ok_sid sample_cfg sample_handlers
      { sample_world_open with req := req_crypto_init 1 0 0xFFFFFFFF } 8
      (by decide) (by decide) (by decide)).2.2.1⟩

/-! ### Payload round trip (C10) -/

/-- Copying sixteen bytes out of a buffer and reading them back. -/
theorem Mem.read_ofList_read (m : Mem) (n : Nat) :
    Mem.read (Mem.ofList (Mem.read m 0 n)) 0 n = Mem.read m 0 n := by
  unfold Mem.read Mem.ofList
  apply List.map_congr_left
  intro i hi
  have hi2 : i < n := List.mem_range.mp hi
  simp [List.getD, hi2]

/-- C10: payload round trip. For a context derived by `se3_payload_cryptoinit`,
any flags, any iv and a data buffer of `nblocks` 16-byte blocks, with the
algorithm `SE3_AES256`: `se3_payload_encrypt` returns true, and
`se3_payload_decrypt` on the context, tag and buffer it left, with the same
iv and flags, returns true and restores the buffer byte for byte. Assumption:
AES-256-CBC decryption with the same key and IV inverts encryption (the HMAC is
a function of key and message in the model). -/
theorem se3_payload_round_trip (cfg : Config) (b5 : B5) (ctx0 : se3_payload_cryptoctx)
    (key auth iv data : List Nat) (nblocks flags : Nat)
    (haes : aes_cbc_inverts cfg b5)
    (hdata : data.length = nblocks * B5_AES_BLK_SIZE) :
    (se3_payload_encrypt cfg b5 (se3_payload_cryptoinit cfg b5 ctx0 key) auth iv data nblocks
      flags cfg.SE3_AES256).ok = true ∧
    (payload_encrypt_decrypt cfg b5 (se3_payload_cryptoinit cfg b5 ctx0 key) auth iv data
      nblocks flags cfg.SE3_AES256).ok = true ∧
    (payload_encrypt_decrypt cfg b5 (se3_payload_cryptoinit cfg b5 ctx0 key) auth iv data
      nblocks flags cfg.SE3_AES256).data = data := by
  have hinv := haes (b5.PBKDF2HmacSha256 key B5_AES_256 [] 0 1 (2 * B5_AES_256)) iv data nblocks hdata
  by_cases hE : flags &&& cfg.SE3_CMDFLAG_ENCRYPT ≠ 0 <;>
  by_cases hS : flags &&& cfg.SE3_CMDFLAG_SIGN ≠ 0
  · simp only [payload_encrypt_decrypt, se3_payload_encrypt, se3_payload_decrypt,
      se3_payload_cryptoinit, payload_hmac, hE, hS, if_true, ne_eq, not_false_eq_true,
      Mem.read_ofList_read, not_true_eq_false, and_false, if_false, true_and]
    exact hinv
  · simp only [payload_encrypt_decrypt, se3_payload_encrypt, se3_payload_decrypt,
      se3_payload_cryptoinit, payload_hmac, hE, hS, if_true, ne_eq, not_false_eq_true,
      not_true_eq_false, and_false, if_false, true_and, false_and]
    exact hinv
  · simp only [payload_encrypt_decrypt, se3_payload_encrypt, se3_payload_decrypt,
      se3_payload_cryptoinit, payload_hmac, hE, hS, if_true, ne_eq, not_false_eq_true,
      Mem.read_ofList_read, not_true_eq_false, and_false, if_false, true_and, and_self]
  · simp only [payload_encrypt_decrypt, se3_payload_encrypt, se3_payload_decrypt,
      se3_payload_cryptoinit, payload_hmac, hE, hS, if_true, ne_eq, not_false_eq_true,
      not_true_eq_false, and_false, if_false, true_and, false_and, and_self]

/-- Instance of `se3_payload_round_trip`: with the sample primitives, flags
`ENCRYPT | SIGN`, a zero iv and the 32 bytes 0..31, encryption followed by
decryption restores the bytes. -/
theorem se3_payload_round_trip_witness :
    (payload_encrypt_decrypt sample_cfg sample_b5
      (se3_payload_cryptoinit sample_cfg sample_b5 sample_payload_ctx (List.replicate 32 1))
      (List.replicate 16 0) (List.replicate 16 0) (List.range 32) 2 0xC000 0).data
      = List.range 32 :=
  (se3_payload_round_trip sample_cfg sample_b5 sample_payload_ctx (List.replicate 32 1)
    (List.replicate 16 0) (List.replicate 16 0) (List.range 32) 2 0xC000
    (by intro keys iv data n _; simp [sample_b5]) (by decide)).2.2

/-! ### MAC verification before decryption (C11) -/

/-- C11: MAC-verify-then-decrypt. When the flag `SIGN` is set and the first 16
bytes of `HMAC(hmac_key, iv ‖ data as received)` differ from the first 16 bytes
of `auth`, `se3_payload_decrypt` returns false, the AES decryptor context is
as before (the decryptor is not called) and the data buffer is unchanged. More
generally, whenever `se3_payload_decrypt` returns false the data buffer and
the decryptor context are unchanged. -/
theorem se3_payload_decrypt_mac_first (cfg : Config) (b5 : B5) (ctx : se3_payload_cryptoctx)
    (auth iv data : List Nat) (nblocks flags crypto_algo : Nat) :
    (flags &&& cfg.SE3_CMDFLAG_SIGN ≠ 0 →
      first16 (spec_hmac b5 ctx.hmac_key iv data nblocks) ≠ first16 auth →
      (se3_payload_decrypt cfg b5 ctx auth iv data nblocks flags crypto_algo).ok = false ∧
      (se3_payload_decrypt cfg b5 ctx auth iv data nblocks flags crypto_algo).ctx.aesdec
        = ctx.aesdec ∧
      (se3_payload_decrypt cfg b5 ctx auth iv data nblocks flags crypto_algo).data = data) ∧
    ((se3_payload_decrypt cfg b5 ctx auth iv data nblocks flags crypto_algo).ok = false →
      (se3_payload_decrypt cfg b5 ctx auth iv data nblocks flags crypto_algo).data = data ∧
      (se3_payload_decrypt cfg b5 ctx auth iv data nblocks flags crypto_algo).ctx.aesdec
        = ctx.aesdec) := by
  constructor
  · intro hS hne
    have hne2 : Mem.read (Mem.ofList auth) 0 16 ≠
        Mem.read (Mem.ofList (payload_hmac b5 ctx iv data nblocks).auth) 0 16 := by
      intro he
      exact hne he.symm
    have hc : flags &&& cfg.SE3_CMDFLAG_SIGN ≠ 0 ∧ Mem.read (Mem.ofList auth) 0 16 ≠
        Mem.read (Mem.ofList (payload_hmac b5 ctx iv data nblocks).auth) 0 16 := ⟨hS, hne2⟩
    simp only [se3_payload_decrypt, if_pos hS, if_pos hc]
    exact ⟨trivial, rfl, trivial⟩
  · have hdec : (payload_hmac b5 ctx iv data nblocks).aesdec = ctx.aesdec := rfl
    by_cases hS : flags &&& cfg.SE3_CMDFLAG_SIGN ≠ 0 <;>
    by_cases hA : crypto_algo = cfg.SE3_AES256 <;>
    by_cases hE : flags &&& cfg.SE3_CMDFLAG_ENCRYPT ≠ 0 <;>
    by_cases hM : Mem.read (Mem.ofList auth) 0 16 ≠
        Mem.read (Mem.ofList (payload_hmac b5 ctx iv data nblocks).auth) 0 16 <;>
    simp [se3_payload_decrypt, hS, hA, hE, hM] <;> rfl

/-- Instance of `se3_payload_decrypt_mac_first`: with the sample primitives
and flags `ENCRYPT | SIGN`, a tag of sixteen bytes 9 does not match; the call
returns false and the 32 data bytes stay as they were. -/
theorem se3_payload_decrypt_mac_first_witness :
    (se3_payload_decrypt sample_cfg sample_b5
      (se3_payload_cryptoinit sample_cfg sample_b5 sample_payload_ctx (List.replicate 32 1))
      (List.replicate 16 9) (List.replicate 16 0) (List.range 32) 2 0xC000 0).ok = false ∧
    (se3_payload_decrypt sample_cfg sample_b5
      (se3_payload_cryptoinit sample_cfg sample_b5 sample_payload_ctx (List.replicate 32 1))
      (List.replicate 16 9) (List.replicate 16 0) (List.range 32) 2 0xC000 0).data
        = List.range 32 :=
  ⟨((se3_payload_decrypt_mac_first sample_cfg sample_b5
      (se3_payload_cryptoinit sample_cfg sample_b5 sample_payload_ctx (List.replicate 32 1))
      (List.replicate 16 9) (List.replicate 16 0) (List.range 32) 2 0xC000 0).1
      (by decide) (by decide)).1,
   ((se3_payload_decrypt_mac_first sample_cfg sample_b5
      (se3_payload_cryptoinit sample_cfg sample_b5 sample_payload_ctx (List.replicate 32 1))
      (List.replicate 16 9) (List.replicate 16 0) (List.range 32) 2 0xC000 0).1
      (by decide) (by decide)).2.2⟩

/-! ### Algorithms other than AES256 (C12) -/

/-- C12: for every algorithm code other than `SE3_AES256` (the reserved codes
`SE3_CRC16`, `SE3_PBKDF2`, `SE3_SHA256` fall through to `default`) and every
flags value, `se3_payload_encrypt` returns false and leaves the context, `auth`
and `data` as they were (`iv` is only read); `se3_payload_decrypt` returns
false and leaves `data`, `auth` and the decryptor context as they were. -/
theorem se3_payload_unknown_algo (cfg : Config) (b5 : B5) (ctx : se3_payload_cryptoctx)
    (auth iv data : List Nat) (nblocks flags crypto_algo : Nat)
    (halgo : crypto_algo ≠ cfg.SE3_AES256) :
    se3_payload_encrypt cfg b5 ctx auth iv data nblocks flags crypto_algo =
      { ok := false, ctx := ctx, auth := auth, data := data } ∧
    (se3_payload_decrypt cfg b5 ctx auth iv data nblocks flags crypto_algo).ok = false ∧
    (se3_payload_decrypt cfg b5 ctx auth iv data nblocks flags crypto_algo).data = data ∧
    (se3_payload_decrypt cfg b5 ctx auth iv data nblocks flags crypto_algo).auth = auth ∧
    (se3_payload_decrypt cfg b5 ctx auth iv data nblocks flags crypto_algo).ctx.aesdec
      = ctx.aesdec := by
  refine ⟨by simp [se3_payload_encrypt, halgo], ?_⟩
  by_cases hS : flags &&& cfg.SE3_CMDFLAG_SIGN ≠ 0 <;>
  by_cases hM : Mem.read (Mem.ofList auth) 0 16 ≠
      Mem.read (Mem.ofList (payload_hmac b5 ctx iv data nblocks).auth) 0 16 <;>
  simp [se3_payload_decrypt, hS, halgo, hM] <;> rfl

/-- Instance of `se3_payload_unknown_algo`: with the sample configuration the
code `SE3_CRC16` is rejected by `se3_payload_encrypt` and the data stay as they
were. -/
theorem se3_payload_unknown_algo_witness :
    (se3_payload_encrypt sample_cfg sample_b5
      (se3_payload_cryptoinit sample_cfg sample_b5 sample_payload_ctx (List.replicate 32 1))
      (List.replicate 16 9) (List.replicate 16 0) (List.range 32) 2 0xC000
      sample_cfg.SE3_CRC16).data = List.range 32 :=
  congrArg PayloadResult.data
    (se3_payload_unknown_algo sample_cfg sample_b5
      (se3_payload_cryptoinit sample_cfg sample_b5 sample_payload_ctx (List.replicate 32 1))
      (List.replicate 16 9) (List.replicate 16 0) (List.range 32) 2 0xC000
      sample_cfg.SE3_CRC16 (by decide)).1

/-! ### Encrypt-then-MAC (C13) -/

/-- C13: encrypt-then-MAC. With the algorithm `SE3_AES256`,
`se3_payload_encrypt` returns true; the data buffer holds the AES output when
`ENCRYPT` is set and is unchanged when it is not; `auth` is, when `SIGN` is
set, the first 16 bytes of `HMAC(hmac_key, iv ‖ data)` over the buffer as the
encryption step left it, and 16 zero bytes when `SIGN` is not set. -/
theorem se3_payload_encrypt_then_mac (cfg : Config) (b5 : B5) (ctx : se3_payload_cryptoctx)
    (auth iv data : List Nat) (nblocks flags : Nat) :
    (se3_payload_encrypt cfg b5 ctx auth iv data nblocks flags cfg.SE3_AES256).ok = true ∧
    (flags &&& cfg.SE3_CMDFLAG_ENCRYPT ≠ 0 →
      (se3_payload_encrypt cfg b5 ctx auth iv data nblocks flags cfg.SE3_AES256).data =
        (b5.B5_Aes256_Update (b5.B5_Aes256_SetIV ctx.aesenc iv) data nblocks).2) ∧
    (flags &&& cfg.SE3_CMDFLAG_ENCRYPT = 0 →
      (se3_payload_encrypt cfg b5 ctx auth iv data nblocks flags cfg.SE3_AES256).data = data) ∧
    (flags &&& cfg.SE3_CMDFLAG_SIGN ≠ 0 →
      (se3_payload_encrypt cfg b5 ctx auth iv data nblocks flags cfg.SE3_AES256).auth =
        first16 (spec_hmac b5 ctx.hmac_key iv
          (se3_payload_encrypt cfg b5 ctx auth iv data nblocks flags cfg.SE3_AES256).data
          nblocks)) ∧
    (flags &&& cfg.SE3_CMDFLAG_SIGN = 0 →
      (se3_payload_encrypt cfg b5 ctx auth iv data nblocks flags cfg.SE3_AES256).auth =
        List.replicate 16 0) := by
  have hz : Mem.read (memset (Mem.ofList auth) 0 0 16) 0 16 = List.replicate 16 0 := by
    simp only [Mem.read]
    have : ∀ i ∈ List.range 16, memset (Mem.ofList auth) 0 0 16 (0 + i) = 0 := by
      intro i hi
      have hi2 : i < 16 := List.mem_range.mp hi
      simp [memset, hi2]
    rw [List.map_congr_left this]
    rfl
  by_cases hE : flags &&& cfg.SE3_CMDFLAG_ENCRYPT ≠ 0 <;>
  by_cases hS : flags &&& cfg.SE3_CMDFLAG_SIGN ≠ 0 <;>
  simp [se3_payload_encrypt, hE, hS, hz, first16, spec_hmac, payload_hmac]

/-- Instance of `se3_payload_encrypt_then_mac`: with the sample primitives and
flags `ENCRYPT` alone, `auth` is sixteen zero bytes. -/
theorem se3_payload_encrypt_then_mac_witness :
    (se3_payload_encrypt sample_cfg sample_b5
      (se3_payload_cryptoinit sample_cfg sample_b5 sample_payload_ctx (List.replicate 32 1))
      (List.replicate 16 9) (List.replicate 16 0) (List.range 32) 2 0x8000 0).auth
        = List.replicate 16 0 :=
  (se3_payload_encrypt_then_mac sample_cfg sample_b5
    (se3_payload_cryptoinit sample_cfg sample_b5 sample_payload_ctx (List.replicate 32 1))
    (List.replicate 16 9) (List.replicate 16 0) (List.range 32) 2 0x8000).2.2.2.2 (by decide)

/-! ### Requests of unexpected size (C17) -/

/-- C17: `crypto_init`, `crypto_set_time` and `crypto_list` return
`SE3_ERR_PARAMS` for every `req_size` other than their fixed request size, and
`crypto_update` for every `req_size` below the 16-byte header; in each case
the result is the same whatever the request buffer holds (no byte is parsed)
and the whole state - arena, `sessions_algo`, device time, response buffer and
size, call log - is as before. -/
theorem unexpected_size_rejected (cfg : Config) (h : Handlers) (w : World) (req_size : Nat) :
    (req_size ≠ SE3_CMD1_CRYPTO_INIT_REQ_SIZE →
      ∀ req, crypto_init cfg h req_size { w with req := req } =
        (Status.SE3_ERR_PARAMS, { w with req := req })) ∧
    (req_size ≠ SE3_CMD1_CRYPTO_SET_TIME_REQ_SIZE →
      ∀ req, crypto_set_time req_size { w with req := req } =
        (Status.SE3_ERR_PARAMS, { w with req := req })) ∧
    (req_size ≠ SE3_CMD1_CRYPTO_LIST_REQ_SIZE →
      ∀ req, crypto_list cfg h req_size { w with req := req } =
        (Status.SE3_ERR_PARAMS, { w with req := req })) ∧
    (req_size < SE3_CMD1_CRYPTO_UPDATE_REQ_OFF_DATA →
      ∀ req, crypto_update cfg h req_size { w with req := req } =
        (Status.SE3_ERR_PARAMS, { w with req := req })) := by
  refine ⟨?_, ?_, ?_, ?_⟩
  · intro hs req
    exact crypto_init_size_mismatch cfg h _ req_size hs
  · intro hs req
    simp [crypto_set_time, hs]
  · intro hs req
    simp [crypto_list, hs]
  · intro hs req
    simp [crypto_update, hs]

/-- Instance of `unexpected_size_rejected`: a 9-byte `crypto_init` request and
a 15-byte `crypto_update` request on the sample states. -/
theorem unexpected_size_rejected_witness :
    crypto_init sample_cfg sample_handlers 9
        { sample_world with req := req_crypto_init 0 0 1 } =
      (Status.SE3_ERR_PARAMS, { sample_world with req := req_crypto_init 0 0 1 }) ∧
    crypto_update sample_cfg sample_handlers 15
        { sample_world_open with req := req_crypto_update 0 0 0 0 } =
      (Status.SE3_ERR_PARAMS, { sample_world_open with req := req_crypto_update 0 0 0 0 }) :=
  ⟨(unexpected_size_rejected sample_cfg sample_handlers sample_world 9).1 (by decide)
      (req_crypto_init 0 0 1),
   (unexpected_size_rejected sample_cfg sample_handlers sample_world_open 15).2.2.2 (by decide)
      (req_crypto_update 0 0 0 0)⟩

/-! ### A failed `crypto_init` changes nothing (C18) -/

/-- C18: when `crypto_init` returns a status other than `SE3_OK`, the arena
(hence the set of allocated slots) and `sessions_algo` after the call are
those before it, and the response buffer and `resp_size` are untouched (no sid
is written). The branch `SE3_ERR_HW`, which returns without freeing, is not
reached: `se3_mem_ptr` finds the block `se3_mem_alloc` just returned. -/
theorem crypto_init_failure_atomic (cfg : Config) (h : Handlers) (w : World) (req_size : Nat)
    (hcfg : cfg.wf) (hw : w.wf cfg)
    (hfail : (crypto_init cfg h req_size w).1 ≠ Status.SE3_OK) :
    (∀ i, (crypto_init cfg h req_size w).2.se3_security_info.sessions.allocated i =
      w.se3_security_info.sessions.allocated i) ∧
    (crypto_init cfg h req_size w).2.se3_security_info.sessions =
      w.se3_security_info.sessions ∧
    (crypto_init cfg h req_size w).2.se3_security_info.sessions_algo =
      w.se3_security_info.sessions_algo ∧
    (crypto_init cfg h req_size w).2.resp = w.resp ∧
    (crypto_init cfg h req_size w).2.resp_size = w.resp_size := by
  rcases crypto_init_result cfg h w req_size hcfg hw with
    ⟨_, h2, h3, h4⟩ | ⟨h1, _⟩
  · rw [h2]
    exact ⟨fun _ => rfl, rfl, rfl, h3, h4⟩
  · exact absurd h1 hfail

/-- Instance of `crypto_init_failure_atomic`: the `crypto_init` that fails
with `SE3_ERR_EXPIRED` on the sample state leaves `sessions_algo` as it was. -/
theorem crypto_init_failure_atomic_witness :
    (crypto_init sample_cfg sample_handlers 8
      { sample_world_1000 with req := req_crypto_init 0 0 1 }).2.se3_security_info.sessions_algo
      = sample_world_1000.se3_security_info.sessions_algo :=
  (crypto_init_failure_atomic sample_cfg sample_handlers
    { sample_world_1000 with req := req_crypto_init 0 0 1 } 8 (by decide) (by decide)
    (by decide)).2.2.1

/-! ### Context-size invariant (C19) -/

/-- `crypto_update` leaves `sessions_algo` as it is, and every block of the
arena after it is a block that was there before, of the same size. -/
theorem crypto_update_arena (cfg : Config) (h : Handlers) (w : World) (req_size : Nat) :
    (crypto_update cfg h req_size w).2.se3_security_info.sessions_algo =
      w.se3_security_info.sessions_algo ∧
    ∀ i b1, (crypto_update cfg h req_size w).2.se3_security_info.sessions.slots i = some b1 →
      ∃ b, w.se3_security_info.sessions.slots i = some b ∧ b1.size = b.size := by
  have hstore : ∀ (sid : Nat) (c : List Nat) (i : Nat) (b1 : se3_mem_block),
      (w.se3_security_info.sessions.store sid c).slots i = some b1 →
      ∃ b, w.se3_security_info.sessions.slots i = some b ∧ b1.size = b.size := by
    intro sid c i b1
    simp only [se3_mem.store]
    by_cases hi : i = sid
    · subst hi
      rw [Function.update_same]
      cases hs : w.se3_security_info.sessions.slots i with
      | none => simp
      | some b =>
        intro hb
        simp only [Option.map_some', Option.some.injEq] at hb
        exact ⟨b, rfl, by rw [← hb]⟩
    · rw [Function.update_noteq hi]
      intro hb
      exact ⟨b1, hb, rfl⟩
  have hid : ∀ i b1, w.se3_security_info.sessions.slots i = some b1 →
      ∃ b, w.se3_security_info.sessions.slots i = some b ∧ b1.size = b.size :=
    fun i b1 hb => ⟨b1, hb, rfl⟩
  simp only [crypto_update]
  split
  · exact ⟨rfl, hid⟩
  · split
    · exact ⟨rfl, hid⟩
    · split
      · exact ⟨rfl, hid⟩
      · split
        · exact ⟨rfl, hid⟩
        · split
          · exact ⟨rfl, hid⟩
          · split
            · exact ⟨rfl, hid⟩
            · split
              · exact ⟨rfl, hstore _ _⟩
              · split
                · refine ⟨rfl, ?_⟩
                  intro i b1
                  simp only [World.emit, se3_mem_free]
                  by_cases hi : i = SE3_GET32 w.req SE3_CMD1_CRYPTO_UPDATE_REQ_OFF_SID
                  · rw [hi]; simp
                  · rw [Function.update_noteq hi]; exact hstore _ _ i b1
                · exact ⟨rfl, hstore _ _⟩

/-- One command keeps the context-size invariant and the capacity bound. -/
theorem run_command_session_inv (cfg : Config) (h : Handlers) (c : Command) (w : World)
    (hcfg : cfg.wf) (hw : w.wf cfg) (hinv : session_inv cfg h w) :
    (c.run cfg h w).2.wf cfg ∧ session_inv cfg h (c.run cfg h w).2 := by
  cases c with
  | crypto_init n req =>
    simp only [Command.run]
    have hw1 : World.wf cfg { w with req := req } := hw
    rcases crypto_init_result cfg h { w with req := req } n hcfg hw1 with
      ⟨_, h2, _, _⟩ | ⟨_, sid1, handler, key, _, hreg, _, _, h6, _, _⟩
    · unfold World.wf session_inv
      rw [h2]
      exact ⟨hw, hinv⟩
    · have h5 : SE3_GET16 req SE3_CMD1_CRYPTO_INIT_REQ_OFF_ALGO < 5 := by
        by_contra hge
        have := (crypto_init_handler_of_eq_none_iff cfg h
          (SE3_GET16 req SE3_CMD1_CRYPTO_INIT_REQ_OFF_ALGO)).mpr (by omega)
        simp only at hreg
        rw [this] at hreg
        exact absurd hreg (by simp)
      unfold World.wf session_inv
      rw [h6]
      refine ⟨hw, ?_⟩
      intro sid b
      simp only
      by_cases hs : sid = sid1
      · subst hs
        rw [Function.update_same, Function.update_same]
        intro hb
        simp only [Option.some.injEq] at hb
        exact ⟨by omega, by rw [← hb]⟩
      · rw [Function.update_noteq hs, Function.update_noteq hs]
        exact hinv sid b
  | crypto_update n req =>
    simp only [Command.run]
    have ha := crypto_update_arena cfg h { w with req := req } n
    refine ⟨?_, ?_⟩
    · unfold World.wf
      rw [crypto_update_max_count]
      exact hw
    · intro sid b1 hb1
      obtain ⟨b, hb, hsz⟩ := ha.2 sid b1 hb1
      rw [ha.1, hsz]
      exact hinv sid b hb
  | crypto_set_time n req =>
    simp only [Command.run, crypto_set_time, se3_time_set]
    split <;> exact ⟨hw, hinv⟩
  | crypto_list n req =>
    simp only [Command.run, crypto_list]
    split <;> exact ⟨hw, hinv⟩

/-- A sequence of commands keeps the context-size invariant. -/
theorem run_commands_session_inv (cfg : Config) (h : Handlers) (hcfg : cfg.wf)
    (cmds : List Command) :
    ∀ w : World, w.wf cfg → session_inv cfg h w →
      (run_commands cfg h cmds w).wf cfg ∧ session_inv cfg h (run_commands cfg h cmds w) := by
  induction cmds with
  | nil => intro w hw hinv; exact ⟨hw, hinv⟩
  | cons c cs ih =>
    intro w hw hinv
    have h1 := run_command_session_inv cfg h c w hcfg hw hinv
    exact ih _ h1.1 h1.2

/-- C19: context-size invariant. In every state reached from
`se3_security_core_init` by any sequence of commands (`crypto_init`,
`crypto_update`, and also `crypto_set_time`, `crypto_list`), each allocated
session sid has `sessions_algo[sid]` in 0..4 and its arena block was allocated
with exactly `algo_table[sessions_algo[sid]].size` bytes. This holds for the
zero-filled arena the function leaves (capacity 0) and for that state with an
empty arena of any capacity up to `SE3_SESSIONS_MAX`. Hence the context
`se3_mem_ptr` returns for a sid, which `crypto_update` hands to the update
handler of `sessions_algo[sid]`, is a block of that algorithm's context size,
also after a freed sid was taken again by another algorithm. -/
theorem context_size_invariant (cfg : Config) (h : Handlers) (w : World)
    (max_count dat_size : Nat) (cmds : List Command)
    (hcfg : cfg.wf) (hmax : max_count ≤ cfg.SE3_SESSIONS_MAX) :
    session_inv cfg h (run_commands cfg h cmds (se3_security_core_init w)) ∧
    session_inv cfg h (run_commands cfg h cmds
      ((se3_security_core_init w).with_sessions (se3_mem_empty max_count dat_size))) ∧
    (∀ sid ctx,
      se3_mem_ptr (run_commands cfg h cmds
        ((se3_security_core_init w).with_sessions
          (se3_mem_empty max_count dat_size))).se3_security_info.sessions sid = some ctx →
      ∃ b, (run_commands cfg h cmds
          ((se3_security_core_init w).with_sessions
            (se3_mem_empty max_count dat_size))).se3_security_info.sessions.slots sid = some b ∧
        b.ctx = ctx ∧
        b.size = (algo_table_at cfg h
          ((run_commands cfg h cmds
            ((se3_security_core_init w).with_sessions
              (se3_mem_empty max_count dat_size))).se3_security_info.sessions_algo sid)).size ∧
        (algo_table_at cfg h
          ((run_commands cfg h cmds
            ((se3_security_core_init w).with_sessions
              (se3_mem_empty max_count dat_size))).se3_security_info.sessions_algo
                sid)).update.isSome = true) := by
  have hempty : ∀ (m d : Nat), session_inv cfg h
      ((se3_security_core_init w).with_sessions (se3_mem_empty m d)) := by
    intro m d sid b hb
    simp [World.with_sessions, se3_mem_empty] at hb
  have h0 : (se3_security_core_init w).with_sessions (se3_mem_empty 0 0) =
      se3_security_core_init w := rfl
  have hgen : ∀ (m d : Nat), m ≤ cfg.SE3_SESSIONS_MAX → session_inv cfg h
      (run_commands cfg h cmds
        ((se3_security_core_init w).with_sessions (se3_mem_empty m d))) := by
    intro m d hm
    have hwf : World.wf cfg ((se3_security_core_init w).with_sessions (se3_mem_empty m d)) := hm
    exact (run_commands_session_inv cfg h hcfg cmds _ hwf (hempty m d)).2
  refine ⟨?_, hgen max_count dat_size hmax, ?_⟩
  · have := hgen 0 0 (Nat.zero_le _)
    rw [h0] at this
    exact this
  · intro sid ctx hptr
    unfold se3_mem_ptr at hptr
    split at hptr
    · cases hs : (run_commands cfg h cmds
          ((se3_security_core_init w).with_sessions
            (se3_mem_empty max_count dat_size))).se3_security_info.sessions.slots sid with
      | none => rw [hs] at hptr; exact absurd hptr (by simp)
      | some b =>
        rw [hs] at hptr
        simp only [Option.map_some', Option.some.injEq] at hptr
        have hi := hgen max_count dat_size hmax sid b hs
        refine ⟨b, rfl, hptr, hi.2, ?_⟩
        have h4 := hi.1
        generalize (run_commands cfg h cmds
          ((se3_security_core_init w).with_sessions
            (se3_mem_empty max_count dat_size))).se3_security_info.sessions_algo sid = a at h4
        interval_cases a <;> rfl
    · exact absurd hptr (by simp)

/-- Instance of `context_size_invariant`: from the initial state with an arena
of four sessions, `crypto_init(AES)` takes sid 0, `crypto_update(0, FINIT)`
frees it and `crypto_init(Sha256)` takes sid 0 again: its block has the size
of the SHA-256 context and is linked to algorithm 1. -/
theorem context_size_invariant_witness :
    ∃ b, (run_commands sample_cfg sample_handlers
        [Command.crypto_init 8 (req_crypto_init 0 0 0xFFFFFFFF),
          Command.crypto_update 16 (req_crypto_update 0 0x8000 0 0),
          Command.crypto_init 8 (req_crypto_init 1 0 0xFFFFFFFF)]
        ((se3_security_core_init sample_world).with_sessions
          (se3_mem_empty 4 1024))).se3_security_info.sessions.slots 0 = some b ∧
      b.ctx = [0, 0, 0, 0] ∧
      b.size = sample_cfg.sizeof_B5_tSha256Ctx ∧
      (algo_table_at sample_cfg sample_handlers 1).update.isSome = true :=
  (context_size_invariant sample_cfg sample_handlers sample_world 4 1024
    [Command.crypto_init 8 (req_crypto_init 0 0 0xFFFFFFFF),
      Command.crypto_update 16 (req_crypto_update 0 0x8000 0 0),
      Command.crypto_init 8 (req_crypto_init 1 0 0xFFFFFFFF)]
    (by decide) (by decide)).2.2 0 [0, 0, 0, 0] (by decide)

/-! ### Arena exhaustion (C16) -/

/-- Sums over `0..n-1` of two functions that agree below `n` are equal. -/
theorem sum_map_range_congr (f g : Nat → Nat) (n : Nat) (hfg : ∀ j, j < n → f j = g j) :
    ((List.range n).map f).sum = ((List.range n).map g).sum := by
  congr 1
  apply List.map_congr_left
  intro j hj
  exact hfg j (List.mem_range.mp hj)

/-- Sums over `0..n-1` of two functions that differ at most at `i`. -/
theorem sum_map_range_update (f g : Nat → Nat) (n i : Nat) (hi : i < n)
    (hfg : ∀ j, j ≠ i → f j = g j) :
    ((List.range n).map f).sum + g i = ((List.range n).map g).sum + f i := by
  induction n with
  | zero => omega
  | succ n ih =>
    rw [List.range_succ, List.map_append, List.map_append, List.sum_append, List.sum_append]
    simp only [List.map_cons, List.map_nil, List.sum_cons, List.sum_nil, Nat.add_zero]
    by_cases hin : i = n
    · subst hin
      have := sum_map_range_congr f g i (fun j hj => hfg j (by omega))
      omega
    · have h1 := ih (by omega)
      have h2 := hfg n (fun he => hin he.symm)
      omega

/-- A sum of `n` values that are 0 or 1 is at most `n`; when it is `n` every
value is 1, when it is 0 every value is 0. -/
theorem sum_indicator (f : Nat → Nat) (n : Nat) (hf : ∀ j, f j ≤ 1) :
    ((List.range n).map f).sum ≤ n ∧
    (((List.range n).map f).sum = n → ∀ j, j < n → f j = 1) ∧
    (((List.range n).map f).sum = 0 → ∀ j, j < n → f j = 0) := by
  induction n with
  | zero => exact ⟨by simp, fun _ j hj => by omega, fun _ j hj => by omega⟩
  | succ n ih =>
    rw [List.range_succ, List.map_append, List.sum_append]
    simp only [List.map_cons, List.map_nil, List.sum_cons, List.sum_nil, Nat.add_zero]
    obtain ⟨h1, h2, h3⟩ := ih
    have hn := hf n
    refine ⟨by omega, ?_, ?_⟩
    · intro hs j hj
      by_cases hjn : j = n
      · subst hjn; omega
      · exact h2 (by omega) j (by omega)
    · intro hs j hj
      by_cases hjn : j = n
      · subst hjn; omega
      · exact h3 (by omega) j (by omega)

/-- The number of allocated slots is at most the capacity. -/
theorem se3_mem.count_le (mem : se3_mem) : mem.count ≤ mem.max_count :=
  (sum_indicator _ mem.max_count (fun j => by split <;> omega)).1

/-- When as many slots are allocated as the capacity, no id is free and
`se3_mem_alloc` fails. -/
theorem se3_mem_alloc_full (mem : se3_mem) (size : Nat) (hfull : mem.count = mem.max_count) :
    se3_mem_alloc mem size = none := by
  have hall := (sum_indicator _ mem.max_count (fun j => by split <;> omega)).2.1 hfull
  have hfind : (List.range mem.max_count).find? (fun i => (mem.slots i).isNone) = none := by
    rw [List.find?_eq_none]
    intro i hi
    have := hall i (List.mem_range.mp hi)
    cases hs : mem.slots i with
    | none => simp [hs] at this
    | some b => simp
  unfold se3_mem_alloc
  rw [hfind]
  split <;> rfl

/-- When no slot is counted, every slot below the capacity is free. -/
theorem se3_mem.count_zero (mem : se3_mem) (hz : mem.count = 0) :
    ∀ i, i < mem.max_count → mem.slots i = none := by
  intro i hi
  have := (sum_indicator _ mem.max_count (fun j => by split <;> omega)).2.2 hz i hi
  cases hs : mem.slots i with
  | none => rfl
  | some b => simp [hs] at this

/-- The pool use as a sum of block sizes. -/
theorem se3_mem.used_eq (mem : se3_mem) :
    mem.used =
      ((List.range mem.max_count).map
        (fun i => ((mem.slots i).map se3_mem_block.size).getD 0)).sum := by
  simp only [se3_mem.used]
  apply sum_map_range_congr
  intro j _
  cases mem.slots j <;> rfl

/-- Filling a free slot below the capacity: one more slot is counted and the
pool use grows by the size of the block. -/
theorem se3_mem_fill (mem : se3_mem) (i : Nat) (b : se3_mem_block) (hi : i < mem.max_count)
    (hfree : mem.slots i = none) :
    se3_mem.count { mem with slots := Function.update mem.slots i (some b) } = mem.count + 1 ∧
    se3_mem.used { mem with slots := Function.update mem.slots i (some b) }
      = mem.used + b.size := by
  constructor
  · have := sum_map_range_update
      (fun j => if (Function.update mem.slots i (some b) j).isSome then 1 else 0)
      (fun j => if (mem.slots j).isSome then 1 else 0) mem.max_count i hi
      (fun j hj => by simp only [Function.update_noteq hj])
    simp only [Function.update_same, hfree, Option.isSome_some, Option.isSome_none, if_true] at this
    simp only [se3_mem.count]
    simp at this
    omega
  · have := sum_map_range_update
      (fun j => ((Function.update mem.slots i (some b) j).map se3_mem_block.size).getD 0)
      (fun j => ((mem.slots j).map se3_mem_block.size).getD 0) mem.max_count i hi
      (fun j hj => by simp only [Function.update_noteq hj])
    simp only [Function.update_same, hfree, Option.map_some', Option.map_none',
      Option.getD_some, Option.getD_none] at this
    rw [se3_mem.used_eq, se3_mem.used_eq]
    simp only
    omega

/-- Writing the context of a block changes neither the count nor the pool
use. -/
theorem se3_mem_store_used (mem : se3_mem) (sid : Nat) (c : List Nat) :
    (mem.store sid c).count = mem.count ∧ (mem.store sid c).used = mem.used ∧
    (mem.store sid c).max_count = mem.max_count ∧ (mem.store sid c).dat_size = mem.dat_size := by
  have hsl : ∀ j, ((mem.store sid c).slots j).isSome = (mem.slots j).isSome ∧
      (((mem.store sid c).slots j).map se3_mem_block.size).getD 0 =
        ((mem.slots j).map se3_mem_block.size).getD 0 := by
    intro j
    simp only [se3_mem.store]
    by_cases hj : j = sid
    · subst hj
      rw [Function.update_same]
      cases mem.slots j <;> simp
    · rw [Function.update_noteq hj]
      exact ⟨rfl, rfl⟩
  refine ⟨?_, ?_, rfl, rfl⟩
  · simp only [se3_mem.count]
    apply sum_map_range_congr
    intro j _
    rw [(hsl j).1]
  · rw [se3_mem.used_eq, se3_mem.used_eq]
    apply sum_map_range_congr
    intro j _
    exact (hsl j).2

/-- Freeing an allocated slot below the capacity gives its bytes back to the
pool. -/
theorem se3_mem_free_used (mem : se3_mem) (i : Nat) (b : se3_mem_block) (hi : i < mem.max_count)
    (hb : mem.slots i = some b) :
    (se3_mem_free mem i).used + b.size = mem.used := by
  have := sum_map_range_update
    (fun j => ((Function.update mem.slots i none j).map se3_mem_block.size).getD 0)
    (fun j => ((mem.slots j).map se3_mem_block.size).getD 0) mem.max_count i hi
    (fun j hj => by simp only [Function.update_noteq hj])
  simp only [Function.update_same, hb, Option.map_some', Option.map_none',
    Option.getD_some, Option.getD_none] at this
  rw [se3_mem.used_eq, se3_mem.used_eq]
  simp only [se3_mem_free]
  omega

/-- A request that passes the checks of `crypto_init` reaches the session
stage; up to there only the key store and the device time were called, and
`se3_security_info` and the response are untouched. -/
theorem crypto_init_of_passes (cfg : Config) (h : Handlers) (w : World) (req_size : Nat)
    (hpass : crypto_init_passes cfg h req_size w) :
    ∃ handler key w1,
      crypto_init_handler_of cfg h
        (SE3_GET16 w.req SE3_CMD1_CRYPTO_INIT_REQ_OFF_ALGO) = some handler ∧
      crypto_init cfg h req_size w =
        crypto_init_session cfg h handler
          (SE3_GET16 w.req SE3_CMD1_CRYPTO_INIT_REQ_OFF_ALGO)
          (SE3_GET16 w.req SE3_CMD1_CRYPTO_INIT_REQ_OFF_MODE) key w1 ∧
      w1.se3_security_info = w.se3_security_info ∧ w1.resp = w.resp ∧
      w1.resp_size = w.resp_size ∧
      ∃ evs, w1.log = w.log ++ evs ∧ ∀ e ∈ evs, e.is_init_handler = false := by
  obtain ⟨hsize, hreg, hkeyok⟩ := hpass
  subst hsize
  cases hr : crypto_init_handler_of cfg h
      (SE3_GET16 w.req SE3_CMD1_CRYPTO_INIT_REQ_OFF_ALGO) with
  | none => rw [hr] at hreg; exact absurd hreg (by simp)
  | some handler =>
    by_cases hkey : SE3_GET32 w.req SE3_CMD1_CRYPTO_INIT_REQ_OFF_KEY_ID = cfg.SE3_KEY_INVALID
    · exact ⟨handler, _, _, rfl, crypto_init_no_key cfg h w handler hr hkey, rfl, rfl, rfl,
        [], by simp, by simp⟩
    · rcases hkeyok with hk | hk
      · exact absurd hk hkey
      · cases hfind : se3_key_find w.flash
            (SE3_GET32 w.req SE3_CMD1_CRYPTO_INIT_REQ_OFF_KEY_ID) with
        | none => rw [hfind] at hk; exact absurd hk (by simp)
        | some fk =>
          rw [hfind] at hk
          simp only at hk
          refine ⟨handler, _, _, rfl,
            crypto_init_key_valid cfg h w handler fk hr hkey hfind hk.1 hk.2, rfl, rfl, rfl,
            _, rfl, ?_⟩
          simp [Event.is_init_handler]

/-- The session stage when the arena cannot allocate: `SE3_ERR_MEMORY`, and
only the call of `se3_mem_alloc` is added to the state. -/
theorem crypto_init_session_alloc_none (cfg : Config) (h : Handlers)
    (handler : se3_crypto_init_handler) (algo mode : Nat) (key : se3_flash_key) (w : World)
    (hnone : se3_mem_alloc w.se3_security_info.sessions (algo_table_at cfg h algo).size = none) :
    crypto_init_session cfg h handler algo mode key w =
      (Status.SE3_ERR_MEMORY, w.emit (Event.se3_mem_alloc (algo_table_at cfg h algo).size)) := by
  simp only [crypto_init_session, hnone]

/-- The session stage when the arena allocates: the status is the one of the
init handler, called on the fresh block. -/
theorem crypto_init_session_alloc_some (cfg : Config) (h : Handlers)
    (handler : se3_crypto_init_handler) (algo mode : Nat) (key : se3_flash_key) (w : World)
    (hcfg : cfg.wf) (hw : w.wf cfg) (sid : Nat) (mem1 : se3_mem)
    (ha : se3_mem_alloc w.se3_security_info.sessions (algo_table_at cfg h algo).size
      = some (sid, mem1)) :
    (crypto_init_session cfg h handler algo mode key w).1 =
      (handler key mode (List.replicate (algo_table_at cfg h algo).size 0)).status := by
  obtain ⟨hlt, _, _⟩ := se3_mem_alloc_some ha
  have hptr := se3_mem_ptr_alloc ha
  have hne : ¬ (sid % 2 ^ 32 = cfg.SE3_SESSION_INVALID) := by
    unfold Config.wf at hcfg
    unfold World.wf at hw
    omega
  simp only [crypto_init_session, ha, if_neg hne, hptr]
  split
  · rfl
  · rename_i hst
    exact (not_not.mp hst).symm

/-- A successful allocation fits in the pool. -/
theorem se3_mem_alloc_fits {mem mem1 : se3_mem} {size sid : Nat}
    (ha : se3_mem_alloc mem size = some (sid, mem1)) : mem.used + size ≤ mem.dat_size := by
  unfold se3_mem_alloc at ha
  split at ha
  · assumption
  · exact absurd ha (by simp)

/-- The allocation succeeds when the pool has room and a slot below the
capacity is free. -/
theorem se3_mem_alloc_of_free (mem : se3_mem) (size i : Nat)
    (hfit : mem.used + size ≤ mem.dat_size) (hi : i < mem.max_count)
    (hfree : mem.slots i = none) :
    ∃ sid mem1, se3_mem_alloc mem size = some (sid, mem1) := by
  unfold se3_mem_alloc
  rw [if_pos hfit]
  cases hf : (List.range mem.max_count).find? (fun i => (mem.slots i).isNone) with
  | none =>
    rw [List.find?_eq_none] at hf
    have := hf i (List.mem_range.mpr hi)
    simp [hfree] at this
  | some sid => exact ⟨sid, _, rfl⟩

/-- A `crypto_init` that returns `SE3_OK` found room in the pool, took one
more slot and used the bytes of one context of its algorithm; the capacity and
the pool size are unchanged, and a block of the arena after the call is a
block that was there before or has the context size of the algorithm. -/
theorem crypto_init_ok_step (cfg : Config) (h : Handlers) (w : World) (req_size : Nat)
    (hcfg : cfg.wf) (hw : w.wf cfg)
    (hok : (crypto_init cfg h req_size w).1 = Status.SE3_OK) :
    (crypto_init cfg h req_size w).2.se3_security_info.sessions.max_count =
      w.se3_security_info.sessions.max_count ∧
    (crypto_init cfg h req_size w).2.se3_security_info.sessions.dat_size =
      w.se3_security_info.sessions.dat_size ∧
    (crypto_init cfg h req_size w).2.se3_security_info.sessions.count =
      w.se3_security_info.sessions.count + 1 ∧
    (crypto_init cfg h req_size w).2.se3_security_info.sessions.used =
      w.se3_security_info.sessions.used
        + (algo_table_at cfg h (SE3_GET16 w.req SE3_CMD1_CRYPTO_INIT_REQ_OFF_ALGO)).size ∧
    (crypto_init cfg h req_size w).2.se3_security_info.sessions.used ≤
      w.se3_security_info.sessions.dat_size ∧
    (∀ i b, (crypto_init cfg h req_size w).2.se3_security_info.sessions.slots i = some b →
      w.se3_security_info.sessions.slots i = some b ∨
      b.size = (algo_table_at cfg h
        (SE3_GET16 w.req SE3_CMD1_CRYPTO_INIT_REQ_OFF_ALGO)).size) := by
  have hfit : w.se3_security_info.sessions.used
      + (algo_table_at cfg h (SE3_GET16 w.req SE3_CMD1_CRYPTO_INIT_REQ_OFF_ALGO)).size
      ≤ w.se3_security_info.sessions.dat_size := by
    rcases crypto_init_stage cfg h w req_size with
      ⟨st, w1, hst, heq, _⟩ | ⟨handler, key, w1, _, _, heq, hinfo, _⟩
    · rw [heq] at hok; exact absurd hok hst
    · rw [heq] at hok
      cases ha : se3_mem_alloc w1.se3_security_info.sessions
          (algo_table_at cfg h (SE3_GET16 w.req SE3_CMD1_CRYPTO_INIT_REQ_OFF_ALGO)).size with
      | none =>
        rw [crypto_init_session_alloc_none _ _ _ _ _ _ _ ha] at hok
        exact absurd hok (by simp)
      | some p =>
        obtain ⟨sid, mem1⟩ := p
        have := se3_mem_alloc_fits ha
        rw [hinfo] at this
        exact this
  rcases crypto_init_result cfg h w req_size hcfg hw with
    ⟨h1, _⟩ | ⟨_, sid, handler, key, _, _, hlt, hfree, hinfo, _, _⟩
  · exact absurd hok h1
  · rw [hinfo]
    have hfill := se3_mem_fill w.se3_security_info.sessions sid
      { size := (algo_table_at cfg h (SE3_GET16 w.req SE3_CMD1_CRYPTO_INIT_REQ_OFF_ALGO)).size
        ctx := (handler key (SE3_GET16 w.req SE3_CMD1_CRYPTO_INIT_REQ_OFF_MODE)
          (List.replicate (algo_table_at cfg h
            (SE3_GET16 w.req SE3_CMD1_CRYPTO_INIT_REQ_OFF_ALGO)).size 0)).ctx } hlt hfree
    refine ⟨rfl, rfl, hfill.1, hfill.2, ?_, ?_⟩
    · rw [hfill.2]; exact hfit
    · intro i b
      simp only
      by_cases hi : i = sid
      · subst hi
        rw [Function.update_same]
        intro hb
        simp only [Option.some.injEq] at hb
        exact Or.inr (by rw [← hb])
      · rw [Function.update_noteq hi]
        exact Or.inl

/-- A run of successful AES `crypto_init` calls: the capacity and the pool size
stay, one slot is taken per call, every block of the arena afterwards is an
old block or has the size of the AES context, and after at least one call the
pool use is within the pool size. -/
theorem aes_inits_run (cfg : Config) (h : Handlers) (hcfg : cfg.wf) (cmds : List Command) :
    ∀ w : World, w.wf cfg → aes_inits_ok cfg h cmds w →
      (run_commands cfg h cmds w).wf cfg ∧
      (run_commands cfg h cmds w).se3_security_info.sessions.max_count =
        w.se3_security_info.sessions.max_count ∧
      (run_commands cfg h cmds w).se3_security_info.sessions.dat_size =
        w.se3_security_info.sessions.dat_size ∧
      (run_commands cfg h cmds w).se3_security_info.sessions.count =
        w.se3_security_info.sessions.count + cmds.length ∧
      (∀ i b, (run_commands cfg h cmds w).se3_security_info.sessions.slots i = some b →
        (∃ b0, w.se3_security_info.sessions.slots i = some b0 ∧ b.size = b0.size) ∨
        b.size = (algo_table_at cfg h 0).size) ∧
      (cmds ≠ [] →
        (run_commands cfg h cmds w).se3_security_info.sessions.used ≤
          w.se3_security_info.sessions.dat_size) := by
  induction cmds with
  | nil =>
    intro w hw _
    exact ⟨hw, rfl, rfl, rfl, fun i b hb => Or.inl ⟨b, hb, rfl⟩, fun hne => absurd rfl hne⟩
  | cons c cs ih =>
    intro w hw hall
    obtain ⟨hc, hok, hrest⟩ := hall
    cases c with
    | crypto_init n req =>
      simp only at hc
      simp only [Command.run] at hok hrest
      have hw1 : World.wf cfg { w with req := req } := hw
      obtain ⟨s1, s2, s3, s4, s5, s6⟩ :=
        crypto_init_ok_step cfg h { w with req := req } n hcfg hw1 hok
      simp only at s1 s2 s3 s4 s5 s6
      rw [hc] at s4 s6
      have hw2 : (crypto_init cfg h n { w with req := req }).2.wf cfg := by
        unfold World.wf
        rw [s1]
        exact hw
      obtain ⟨i1, i2, i3, i4, i5, i6⟩ := ih _ hw2 hrest
      simp only [run_commands, Command.run]
      refine ⟨i1, by rw [i2, s1], by rw [i3, s2], ?_, ?_, ?_⟩
      · rw [i4, s3, List.length_cons]; omega
      · intro i b hb
        rcases i5 i b hb with ⟨b1, hb1, hsz⟩ | hsz
        · rcases s6 i b1 hb1 with h0 | h0
          · exact Or.inl ⟨b1, h0, hsz⟩
          · exact Or.inr (by rw [hsz, h0])
        · exact Or.inr hsz
      · intro _
        cases cs with
        | nil => simpa [run_commands] using s5
        | cons c2 cs2 =>
          have := i6 (by simp)
          rw [s2] at this
          exact this
    | crypto_update n req => exact absurd hc (by simp)
    | crypto_set_time n req => exact absurd hc (by simp)
    | crypto_list n req => exact absurd hc (by simp)

/-- After `SE3_SESSIONS_MAX` successful AES `crypto_init` calls every slot
below the capacity is taken by a block of the size of the AES context, the
capacity is `SE3_SESSIONS_MAX` and the pool use is within the pool size. -/
theorem aes_inits_fill (cfg : Config) (h : Handlers) (hcfg : cfg.wf) (w : World)
    (hw : w.wf cfg) (cmds : List Command) (hlen : cmds.length = cfg.SE3_SESSIONS_MAX)
    (hall : aes_inits_ok cfg h cmds w) :
    (run_commands cfg h cmds w).wf cfg ∧
    (run_commands cfg h cmds w).se3_security_info.sessions.count =
      (run_commands cfg h cmds w).se3_security_info.sessions.max_count ∧
    (∀ i b, i < (run_commands cfg h cmds w).se3_security_info.sessions.max_count →
      (run_commands cfg h cmds w).se3_security_info.sessions.slots i = some b →
      b.size = (algo_table_at cfg h 0).size) ∧
    (cmds ≠ [] →
      (run_commands cfg h cmds w).se3_security_info.sessions.used ≤
        (run_commands cfg h cmds w).se3_security_info.sessions.dat_size) := by
  obtain ⟨i1, i2, i3, i4, i5, i6⟩ := aes_inits_run cfg h hcfg cmds w hw hall
  have hle := se3_mem.count_le (run_commands cfg h cmds w).se3_security_info.sessions
  have hw' := hw
  unfold World.wf at hw'
  have hz : w.se3_security_info.sessions.count = 0 := by omega
  have hnone := se3_mem.count_zero _ hz
  refine ⟨i1, by omega, ?_, ?_⟩
  · intro i b hi hb
    rcases i5 i b hb with ⟨b0, hb0, _⟩ | hsz
    · rw [hnone i (by omega)] at hb0
      exact absurd hb0 (by simp)
    · exact hsz
  · intro hne
    rw [i3]
    exact i6 hne

/-- A registered AES entry: the init handler of algorithm 0 is
`se3_algo_Aes_init`. -/
theorem crypto_init_handler_of_aes (cfg : Config) (h : Handlers) :
    crypto_init_handler_of cfg h 0 = some h.se3_algo_Aes_init := rfl

/-- C16: arena exhaustion. When the arena cannot allocate a block of
`algo_table[algo].size` bytes, a `crypto_init` that passes the size, algorithm
and key checks returns `SE3_ERR_MEMORY`, leaves `se3_security_info` (arena and
`sessions_algo`) unchanged and calls no init handler. After `SE3_SESSIONS_MAX`
successful AES `crypto_init` calls every `crypto_init` that passes the checks
returns `SE3_ERR_MEMORY`; and after a `crypto_update` with `FINIT` then
returned `SE3_OK`, an AES `crypto_init` that passes the checks and whose init
handler succeeds returns `SE3_OK`. -/
theorem crypto_init_arena_exhaustion (cfg : Config) (h : Handlers) (w : World)
    (hcfg : cfg.wf) (hw : w.wf cfg) :
    (∀ req_size, crypto_init_passes cfg h req_size w →
      se3_mem_alloc w.se3_security_info.sessions
        (algo_table_at cfg h (SE3_GET16 w.req SE3_CMD1_CRYPTO_INIT_REQ_OFF_ALGO)).size = none →
      (crypto_init cfg h req_size w).1 = Status.SE3_ERR_MEMORY ∧
      (crypto_init cfg h req_size w).2.se3_security_info = w.se3_security_info ∧
      ∃ evs, (crypto_init cfg h req_size w).2.log = w.log ++ evs ∧
        ∀ e ∈ evs, e.is_init_handler = false) ∧
    (∀ cmds : List Command, cmds.length = cfg.SE3_SESSIONS_MAX → aes_inits_ok cfg h cmds w →
      (∀ n req,
        crypto_init_passes cfg h n { run_commands cfg h cmds w with req := req } →
        (crypto_init cfg h n { run_commands cfg h cmds w with req := req }).1
          = Status.SE3_ERR_MEMORY) ∧
      (∀ nu requ,
        SE3_GET16 requ SE3_CMD1_CRYPTO_UPDATE_REQ_OFF_FLAGS &&& cfg.SE3_CRYPTO_FLAG_FINIT ≠ 0 →
        (crypto_update cfg h nu { run_commands cfg h cmds w with req := requ }).1
          = Status.SE3_OK →
        ∀ n req, SE3_GET16 req SE3_CMD1_CRYPTO_INIT_REQ_OFF_ALGO = 0 →
          crypto_init_passes cfg h n
            { (crypto_update cfg h nu { run_commands cfg h cmds w with req := requ }).2
              with req := req } →
          (∀ key mode ctx, (h.se3_algo_Aes_init key mode ctx).status = Status.SE3_OK) →
          (crypto_init cfg h n
            { (crypto_update cfg h nu { run_commands cfg h cmds w with req := requ }).2
              with req := req }).1 = Status.SE3_OK)) := by
  have hA : ∀ (w : World) (req_size : Nat), crypto_init_passes cfg h req_size w →
      se3_mem_alloc w.se3_security_info.sessions
        (algo_table_at cfg h (SE3_GET16 w.req SE3_CMD1_CRYPTO_INIT_REQ_OFF_ALGO)).size = none →
      (crypto_init cfg h req_size w).1 = Status.SE3_ERR_MEMORY ∧
      (crypto_init cfg h req_size w).2.se3_security_info = w.se3_security_info ∧
      ∃ evs, (crypto_init cfg h req_size w).2.log = w.log ++ evs ∧
        ∀ e ∈ evs, e.is_init_handler = false := by
    intro w req_size hpass hnone
    obtain ⟨handler, key, w1, _, hrun, hinfo, _, _, evs, hlog, hevs⟩ :=
      crypto_init_of_passes cfg h w req_size hpass
    rw [← hinfo] at hnone
    rw [hrun, crypto_init_session_alloc_none cfg h handler _ _ key w1 hnone]
    refine ⟨rfl, hinfo, evs ++ [Event.se3_mem_alloc
      (algo_table_at cfg h (SE3_GET16 w.req SE3_CMD1_CRYPTO_INIT_REQ_OFF_ALGO)).size], ?_, ?_⟩
    · simp only [World.emit, hlog, List.append_assoc]
    · intro e he
      rcases List.mem_append.mp he with he | he
      · exact hevs e he
      · rw [List.mem_singleton.mp he]; rfl
  refine ⟨hA w, ?_⟩
  intro cmds hlen hall
  obtain ⟨f1, f2, f3, f4⟩ := aes_inits_fill cfg h hcfg w hw cmds hlen hall
  refine ⟨?_, ?_⟩
  · intro n req hpass
    exact (hA { run_commands cfg h cmds w with req := req } n hpass
      (se3_mem_alloc_full _ _ f2)).1
  · intro nu requ hfin hok n req halgo hpass hinit
    obtain ⟨hp, hsid, hal, uh, ctx, hupd, hctx, hst⟩ :=
      crypto_update_ok_inv cfg h { run_commands cfg h cmds w with req := requ } nu hok
    have hs := (crypto_update_handler_ok cfg h { run_commands cfg h cmds w with req := requ }
      nu uh ctx hp hsid hal hupd hctx hst).2.2
    rw [if_pos hfin] at hs
    simp only at hs hctx hsid
    -- the closed slot was taken, below the capacity
    have hlt : SE3_GET32 requ SE3_CMD1_CRYPTO_UPDATE_REQ_OFF_SID <
        (run_commands cfg h cmds w).se3_security_info.sessions.max_count := by
      by_contra hge
      simp [se3_mem_ptr, hge] at hctx
    obtain ⟨b, hb⟩ : ∃ b, (run_commands cfg h cmds w).se3_security_info.sessions.slots
        (SE3_GET32 requ SE3_CMD1_CRYPTO_UPDATE_REQ_OFF_SID) = some b := by
      cases hsl : (run_commands cfg h cmds w).se3_security_info.sessions.slots
          (SE3_GET32 requ SE3_CMD1_CRYPTO_UPDATE_REQ_OFF_SID) with
      | none => simp [se3_mem_ptr, hlt, hsl] at hctx
      | some b => exact ⟨b, rfl⟩
    have hsz := f3 _ b hlt hb
    have hne : cmds ≠ [] := by
      intro hnil
      rw [hnil] at hlen
      simp at hlen
      omega
    have hused := f4 hne
    obtain ⟨t1, t2, t3, t4⟩ := se3_mem_store_used
      (run_commands cfg h cmds w).se3_security_info.sessions
      (SE3_GET32 requ SE3_CMD1_CRYPTO_UPDATE_REQ_OFF_SID)
      (crypto_update_call uh { run_commands cfg h cmds w with req := requ } ctx).ctx
    have hb2 : ((run_commands cfg h cmds w).se3_security_info.sessions.store
        (SE3_GET32 requ SE3_CMD1_CRYPTO_UPDATE_REQ_OFF_SID)
        (crypto_update_call uh { run_commands cfg h cmds w with req := requ } ctx).ctx).slots
        (SE3_GET32 requ SE3_CMD1_CRYPTO_UPDATE_REQ_OFF_SID) =
        some { b with ctx :=
          (crypto_update_call uh { run_commands cfg h cmds w with req := requ } ctx).ctx } := by
      simp [se3_mem.store, hb]
    have hfree := se3_mem_free_used _ _ _ (by rw [t3]; exact hlt) hb2
    simp only at hfree
    -- the next allocation of an AES context fits
    obtain ⟨sid, mem1, ha⟩ := se3_mem_alloc_of_free
      (crypto_update cfg h nu
        { run_commands cfg h cmds w with req := requ }).2.se3_security_info.sessions
      (algo_table_at cfg h 0).size (SE3_GET32 requ SE3_CMD1_CRYPTO_UPDATE_REQ_OFF_SID)
      (by
        rw [hs]
        have e1 : (se3_mem_free ((run_commands cfg h cmds w).se3_security_info.sessions.store
            (SE3_GET32 requ SE3_CMD1_CRYPTO_UPDATE_REQ_OFF_SID)
            (crypto_update_call uh { run_commands cfg h cmds w with req := requ } ctx).ctx)
            (SE3_GET32 requ SE3_CMD1_CRYPTO_UPDATE_REQ_OFF_SID)).dat_size =
            (run_commands cfg h cmds w).se3_security_info.sessions.dat_size := t4
        rw [e1, ← hsz]
        rw [t2] at hfree
        omega)
      (by rw [hs]; exact t3 ▸ hlt)
      (by rw [hs]; simp [se3_mem_free])
    obtain ⟨handler, key, w1, hh, hrun, hinfo, _, _, _⟩ :=
      crypto_init_of_passes cfg h _ n hpass
    simp only at hh hrun hinfo
    rw [halgo] at hh hrun
    rw [crypto_init_handler_of_aes] at hh
    have hw1 : w1.wf cfg := by
      unfold World.wf
      rw [hinfo, hs]
      simp only [se3_mem_free]
      rw [t3]
      exact f1
    rw [← hinfo] at ha
    rw [hrun, crypto_init_session_alloc_some cfg h handler 0 _ key w1 hcfg hw1 sid mem1 ha,
      ← Option.some.inj hh]
    exact hinit _ _ _

/-- On the sample state, four AES sessions fill the arena: the fifth
`crypto_init` returns `SE3_ERR_MEMORY`, and after session 2 is closed with
`FINIT` it returns `SE3_OK`. -/
theorem crypto_init_arena_exhaustion_witness :
    (crypto_init sample_cfg sample_handlers 8
      { run_commands sample_cfg sample_handlers
          [Command.crypto_init 8 (req_crypto_init 0 0 0xFFFFFFFF),
            Command.crypto_init 8 (req_crypto_init 0 0 0xFFFFFFFF),
            Command.crypto_init 8 (req_crypto_init 0 0 0xFFFFFFFF),
            Command.crypto_init 8 (req_crypto_init 0 0 0xFFFFFFFF)] sample_world
        with req := req_crypto_init 0 0 0xFFFFFFFF }).1 = Status.SE3_ERR_MEMORY ∧
    (crypto_init sample_cfg sample_handlers 8
      { (crypto_update sample_cfg sample_handlers 16
          { run_commands sample_cfg sample_handlers
              [Command.crypto_init 8 (req_crypto_init 0 0 0xFFFFFFFF),
                Command.crypto_init 8 (req_crypto_init 0 0 0xFFFFFFFF),
                Command.crypto_init 8 (req_crypto_init 0 0 0xFFFFFFFF),
                Command.crypto_init 8 (req_crypto_init 0 0 0xFFFFFFFF)] sample_world
            with req := req_crypto_update 2 0x8000 0 0 }).2
        with req := req_crypto_init 0 0 0xFFFFFFFF }).1 = Status.SE3_OK :=
  have hx := (crypto_init_arena_exhaustion sample_cfg sample_handlers sample_world
    (by decide) (by decide)).2
    [Command.crypto_init 8 (req_crypto_init 0 0 0xFFFFFFFF),
      Command.crypto_init 8 (req_crypto_init 0 0 0xFFFFFFFF),
      Command.crypto_init 8 (req_crypto_init 0 0 0xFFFFFFFF),
      Command.crypto_init 8 (req_crypto_init 0 0 0xFFFFFFFF)]
    rfl ⟨rfl, rfl, rfl, rfl, rfl, rfl, rfl, rfl, trivial⟩
  ⟨hx.1 8 (req_crypto_init 0 0 0xFFFFFFFF) ⟨rfl, rfl, Or.inl rfl⟩,
    hx.2 16 (req_crypto_update 2 0x8000 0 0) (by decide) (by decide) 8
      (req_crypto_init 0 0 0xFFFFFFFF) rfl ⟨rfl, rfl, Or.inl rfl⟩ (fun _ _ _ => rfl)⟩

/-! ### The record store (C14, C15) -/

/-- What `find?` over `List.range n` returns: the least index that satisfies
the test, or `none` when no index below `n` does. -/
theorem find_range_spec (p : Nat → Bool) (n : Nat) :
    match (List.range n).find? p with
    | some i => i < n ∧ p i = true ∧ ∀ j, j < i → p j = false
    | none => ∀ j, j < n → p j = false := by
  induction n with
  | zero => simp
  | succ n ih =>
    rw [List.range_succ, List.find?_append]
    cases hf : (List.range n).find? p with
    | some i =>
      rw [hf] at ih
      show i < n + 1 ∧ p i = true ∧ ∀ j, j < i → p j = false
      exact ⟨by omega, ih.2.1, ih.2.2⟩
    | none =>
      rw [hf] at ih
      by_cases hp : p n = true
      · have he : (none : Option Nat).or (List.find? p [n]) = some n := by
          simp [List.find?_cons, hp]
        rw [he]
        exact ⟨by omega, hp, fun j hj => ih j hj⟩
      · have hp2 : p n = false := by simpa using hp
        have he : (none : Option Nat).or (List.find? p [n]) = none := by
          simp [List.find?_cons, hp2]
        rw [he]
        intro j hj
        rcases Nat.lt_succ_iff_lt_or_eq.mp hj with h1 | h1
        · exact ih j h1
        · rw [h1]; exact hp2

/-- The least index that satisfies the test is what `find?` returns. -/
theorem find_range_first (p : Nat → Bool) (n i : Nat) (hi : i < n) (hp : p i = true)
    (hfirst : ∀ j, j < i → p j = false) : (List.range n).find? p = some i := by
  have hs := find_range_spec p n
  cases hf : (List.range n).find? p with
  | some k =>
    rw [hf] at hs
    simp only at hs
    rcases Nat.lt_trichotomy k i with h1 | h1 | h1
    · have := hfirst k h1; rw [hs.2.1] at this; exact absurd this (by simp)
    · rw [h1]
    · have := hs.2.2 i h1; rw [hp] at this; exact absurd this (by simp)
  | none =>
    rw [hf] at hs
    have := hs i hi
    rw [hp] at this
    exact absurd this (by simp)

/-- No index below `n` satisfies the test: `find?` returns `none`. -/
theorem find_range_none (p : Nat → Bool) (n : Nat) (hnone : ∀ j, j < n → p j = false) :
    (List.range n).find? p = none := by
  have hs := find_range_spec p n
  cases hf : (List.range n).find? p with
  | some k =>
    rw [hf] at hs
    have := hnone k hs.1
    rw [hs.2.1] at this
    exact absurd this (by simp)
  | none => rfl

/-- The loop of `record_find` with enough iterations: it changes the flash
only by `se3_flash_it_next` events, and it finds the first live record of
the type at or after the position of the iterator. -/
theorem record_find_loop_enough (rc : RecordConfig) (t : Nat) :
    ∀ (fuel : Nat) (f : se3_flash) (it : se3_flash_it), f.count < it.pos + fuel →
      ∃ k it1,
        record_find_loop rc t fuel f it =
          (((List.range f.count).find?
              (fun i => decide (it.pos ≤ i) && live_record rc t f i)).isSome,
            { f with log := f.log ++ List.replicate k FlashEvent.se3_flash_it_next }, it1) ∧
        ∀ i, (List.range f.count).find?
          (fun i => decide (it.pos ≤ i) && live_record rc t f i) = some i → it1.addr = i := by
  intro fuel
  induction fuel with
  | zero =>
    intro f it hfuel
    refine ⟨0, it, ?_, ?_⟩
    · rw [find_range_none _ _ (fun j hj => by
        have : ¬ it.pos ≤ j := by omega
        simp [this])]
      simp [record_find_loop]
    · intro i hi
      rw [find_range_none _ _ (fun j hj => by
        have : ¬ it.pos ≤ j := by omega
        simp [this])] at hi
      exact absurd hi (by simp)
  | succ fuel ih =>
    intro f it hfuel
    have hv := find_range_spec (fun i => decide (it.pos ≤ i) && (f.nodes i).valid) f.count
    cases hn : (List.range f.count).find?
        (fun i => decide (it.pos ≤ i) && (f.nodes i).valid) with
    | none =>
      rw [hn] at hv
      simp only at hv
      have hnone : (List.range f.count).find?
          (fun i => decide (it.pos ≤ i) && live_record rc t f i) = none := by
        apply find_range_none
        intro j hj
        have := hv j hj
        simp only [live_record]
        simp only [Bool.and_eq_false_iff, decide_eq_false_iff_not] at this ⊢
        rcases this with h1 | h1
        · exact Or.inl h1
        · exact Or.inr (Or.inl (Or.inl h1))
      refine ⟨1, it, ?_, ?_⟩
      · rw [hnone]
        simp [record_find_loop, se3_flash_it_next, hn]
      · intro i hi
        rw [hnone] at hi
        exact absurd hi (by simp)
    | some i0 =>
      rw [hn] at hv
      simp only [Bool.and_eq_true, decide_eq_true_eq, Bool.and_eq_false_iff,
        decide_eq_false_iff_not] at hv
      obtain ⟨hi0, ⟨hpos, hval⟩, hbefore⟩ := hv
      by_cases hrec : (f.nodes i0).type = rc.SE3_FLASH_TYPE_RECORD ∧
          SE3_GET16 (f.nodes i0).data SE3_RECORD_OFFSET_TYPE = t
      · have hfirst : (List.range f.count).find?
            (fun i => decide (it.pos ≤ i) && live_record rc t f i) = some i0 := by
          apply find_range_first _ _ _ hi0
          · simp [live_record, hpos, hval, hrec.1, hrec.2]
          · intro j hj
            simp only [live_record, Bool.and_eq_false_iff, decide_eq_false_iff_not]
            rcases hbefore j hj with h1 | h1
            · exact Or.inl h1
            · exact Or.inr (Or.inl (Or.inl (by simpa using h1)))
        refine ⟨1, se3_flash_it.mk i0 (f.nodes i0).type (f.nodes i0).size (i0 + 1), ?_, ?_⟩
        · rw [hfirst]
          simp [record_find_loop, se3_flash_it_next, hn, hrec.1, hrec.2]
        · intro i hi
          rw [hfirst] at hi
          exact Option.some.inj hi
      · obtain ⟨k, it1, hk, hit1⟩ := ih
          { f with log := f.log ++ [FlashEvent.se3_flash_it_next] }
          { addr := i0, type := (f.nodes i0).type, size := (f.nodes i0).size, pos := i0 + 1 }
          (by simp only; omega)
        have hsame : (List.range f.count).find?
            (fun i => decide (it.pos ≤ i) && live_record rc t f i) =
            (List.range f.count).find?
              (fun i => decide (i0 + 1 ≤ i) && live_record rc t f i) := by
          congr 1
          funext j
          by_cases h1 : i0 + 1 ≤ j
          · have : it.pos ≤ j := by omega
            simp [h1, this]
          · by_cases h5 : it.pos ≤ j
            · have h2 : live_record rc t f j = false := by
                simp only [live_record, Bool.and_eq_false_iff, decide_eq_false_iff_not]
                rcases Nat.lt_or_ge j i0 with h3 | h3
                · rcases hbefore j h3 with h4 | h4
                  · exact absurd h5 h4
                  · exact Or.inl (Or.inl h4)
                · have : j = i0 := by omega
                  subst this
                  by_cases h7 : (f.nodes j).type = rc.SE3_FLASH_TYPE_RECORD
                  · exact Or.inr (fun h8 => hrec ⟨h7, h8⟩)
                  · exact Or.inl (Or.inr h7)
              simp [h1, h2]
            · simp [h1, h5]
        rw [hsame]
        refine ⟨k + 1, it1, ?_, hit1⟩
        have hstep : record_find_loop rc t (fuel + 1) f it =
            record_find_loop rc t fuel { f with log := f.log ++ [FlashEvent.se3_flash_it_next] }
              (se3_flash_it.mk i0 (f.nodes i0).type (f.nodes i0).size (i0 + 1)) := by
          simp only [record_find_loop, se3_flash_it_next, hn]
          by_cases h7 : (f.nodes i0).type = rc.SE3_FLASH_TYPE_RECORD
          · have h8 : ¬ SE3_GET16 (f.nodes i0).data SE3_RECORD_OFFSET_TYPE = t :=
              fun h8 => hrec ⟨h7, h8⟩
            simp [h7, h8]
          · simp [h7]
        rw [hstep, hk]
        simp [List.replicate_succ, live_record]

/-- The scan of `record_find` from a fresh iterator: it returns whether a
live record of the type exists, leaves the iterator on the first one, and
changes only the log of the flash. -/
theorem record_find_init (rc : RecordConfig) (t : Nat) (f : se3_flash) :
    ∃ k it1,
      record_find rc t (se3_flash_it_init f).1 (se3_flash_it_init f).2 =
        ((record_first rc t f).isSome, f.scanned k, it1) ∧
      ∀ i, record_first rc t f = some i → it1.addr = i := by
  obtain ⟨k, it1, hk, hit1⟩ := record_find_loop_enough rc t
    ((se3_flash_it_init f).1.count + 1 - (se3_flash_it_init f).2.pos)
    (se3_flash_it_init f).1 (se3_flash_it_init f).2
    (by simp only [se3_flash_it_init]; omega)
  have hp : (fun i => decide ((se3_flash_it_init f).2.pos ≤ i) &&
      live_record rc t (se3_flash_it_init f).1 i) = live_record rc t f := by
    funext i
    simp [se3_flash_it_init, live_record]
  rw [hp] at hk hit1
  refine ⟨k, it1, ?_, hit1⟩
  unfold record_find
  rw [hk]
  simp [se3_flash_it_init, se3_flash.scanned, record_first]

/-- The function `record_get` on a type below `SE3_RECORD_MAX`: it copies the
payload of the first live record of the type, and changes only the log of
the flash. -/
theorem record_get_eq (rc : RecordConfig) (t : Nat) (out : Mem) (f : se3_flash)
    (ht : t < rc.SE3_RECORD_MAX) :
    ∃ k, record_get rc t out f =
      match record_first rc t f with
      | some i =>
        (true, memcpy out 0 (Mem.shift (f.nodes i).data SE3_RECORD_OFFSET_DATA)
          rc.SE3_RECORD_SIZE, f.scanned k)
      | none => (false, out, f.scanned k) := by
  obtain ⟨k, it1, hk, hit1⟩ := record_find_init rc t f
  refine ⟨k, ?_⟩
  have hge : ¬ t ≥ rc.SE3_RECORD_MAX := by omega
  simp only [record_get, if_neg hge]
  simp only [se3_flash_it_init] at hk
  simp only [se3_flash_it_init]
  rw [hk]
  cases hf : record_first rc t f with
  | none => rfl
  | some i =>
    have := hit1 i hf
    simp only [Option.isSome_some]
    rw [this]
    rfl

/-- The function `record_set` on a type below `SE3_RECORD_MAX`: after the
scan, the write stage runs with the iterator on the first live record of the
type, if there is one. -/
theorem record_set_eq (rc : RecordConfig) (t : Nat) (d : Mem) (f : se3_flash)
    (ht : t < rc.SE3_RECORD_MAX) :
    ∃ k it, (∀ i, record_first rc t f = some i → it.addr = i) ∧
      record_set rc t d f =
        record_set_write rc t d (record_first rc t f).isSome (f.scanned k) it := by
  obtain ⟨k, it1, hk, hit1⟩ := record_find_init rc t f
  refine ⟨k, it1, hit1, ?_⟩
  have hge : ¬ t ≥ rc.SE3_RECORD_MAX := by omega
  simp only [record_set, if_neg hge]
  simp only [se3_flash_it_init] at hk
  simp only [se3_flash_it_init]
  rw [hk]

/-- The write stage of `record_set` when it returns true: one block more, the
new block is a live record block with the type and the payload written, the
block found before is invalidated and the other blocks are untouched. -/
theorem record_set_write_ok (rc : RecordConfig) (t : Nat) (d : Mem) (found : Bool)
    (g : se3_flash) (it : se3_flash_it) (hit : found = true → it.addr < g.count)
    (hok : (record_set_write rc t d found g it).1 = true) :
    (record_set_write rc t d found g it).2.count = g.count + 1 ∧
    (record_set_write rc t d found g it).2.nodes g.count =
      { type := rc.SE3_FLASH_TYPE_RECORD, valid := true
        size := SE3_RECORD_SIZE_TYPE + rc.SE3_RECORD_SIZE
        data := memcpy (memcpy (g.erased g.count) SE3_RECORD_OFFSET_DATA d rc.SE3_RECORD_SIZE)
          SE3_RECORD_OFFSET_TYPE (SE3_SET16 (fun _ => 0) 0 t) SE3_RECORD_SIZE_TYPE } ∧
    (∀ i, i ≠ g.count → (record_set_write rc t d found g it).2.nodes i =
      if found = true ∧ i = it.addr then { g.nodes i with valid := false } else g.nodes i) := by
  revert hok
  by_cases h0 : g.fails g.ops = true
  · simp [record_set_write, se3_flash_it_new, h0]
  · by_cases h1 : g.fails (g.ops + 1) = true
    · simp [record_set_write, se3_flash_it_new, se3_flash_it_write, h0, h1]
    · by_cases h2 : g.fails (g.ops + 1 + 1) = true
      · simp [record_set_write, se3_flash_it_new, se3_flash_it_write, h0, h1, h2]
      · cases found with
        | false =>
          intro _
          refine ⟨?_, ?_, ?_⟩
          · simp [record_set_write, se3_flash_it_new, se3_flash_it_write, h0, h1, h2]
          · simp [record_set_write, se3_flash_it_new, se3_flash_it_write, h0, h1, h2]
          · intro i hi
            simp [record_set_write, se3_flash_it_new, se3_flash_it_write, h0, h1, h2,
              Function.update_noteq hi]
        | true =>
          have hlt := hit rfl
          by_cases h3 : g.fails (g.ops + 1 + 1 + 1) = true
          · simp [record_set_write, se3_flash_it_new, se3_flash_it_write, se3_flash_it_delete,
              h0, h1, h2, h3]
          · intro _
            have hne : g.count ≠ it.addr := by omega
            refine ⟨?_, ?_, ?_⟩
            · simp [record_set_write, se3_flash_it_new, se3_flash_it_write,
                se3_flash_it_delete, h0, h1, h2, h3]
            · simp [record_set_write, se3_flash_it_new, se3_flash_it_write,
                se3_flash_it_delete, h0, h1, h2, h3, Function.update_noteq hne]
            · intro i hi
              by_cases hia : i = it.addr
              · subst hia
                simp [record_set_write, se3_flash_it_new, se3_flash_it_write,
                  se3_flash_it_delete, h0, h1, h2, h3, Function.update_noteq hi]
              · simp [record_set_write, se3_flash_it_new, se3_flash_it_write,
                  se3_flash_it_delete, h0, h1, h2, h3, Function.update_noteq hi,
                  Function.update_noteq hia, hia]

/-- Appending an index where the test fails, and changing the test only where
the result stays the same, does not change what `find?` returns. -/
theorem find_range_congr (p q : Nat → Bool) (n m : Nat) (hnm : n ≤ m)
    (hpq : ∀ j, j < n → q j = p j) (hq : ∀ j, n ≤ j → j < m → q j = false) :
    (List.range m).find? q = (List.range n).find? p := by
  have hs := find_range_spec p n
  cases hf : (List.range n).find? p with
  | some i =>
    rw [hf] at hs
    simp only at hs
    apply find_range_first q m i (by omega)
    · rw [hpq i hs.1]; exact hs.2.1
    · intro j hj
      rw [hpq j (by omega)]
      exact hs.2.2 j hj
  | none =>
    rw [hf] at hs
    simp only at hs
    apply find_range_none
    intro j hj
    by_cases h1 : j < n
    · rw [hpq j h1]; exact hs j h1
    · exact hq j (by omega) hj

/-- The type field of the block written by `record_set` reads back as the
type. -/
theorem record_type_field (er d : Mem) (size t : Nat) (h16 : t < 2 ^ 16) :
    SE3_GET16 (memcpy (memcpy er SE3_RECORD_OFFSET_DATA d size)
      SE3_RECORD_OFFSET_TYPE (SE3_SET16 (fun _ => 0) 0 t) SE3_RECORD_SIZE_TYPE)
      SE3_RECORD_OFFSET_TYPE = t := by
  simp [SE3_GET16, memcpy, SE3_SET16, SE3_RECORD_OFFSET_TYPE, SE3_RECORD_SIZE_TYPE]
  omega

/-- The payload of the block written by `record_set` reads back as the
bytes given. -/
theorem record_payload_field (out er d tmp : Mem) (size : Nat) :
    Mem.read (memcpy out 0 (Mem.shift (memcpy (memcpy er SE3_RECORD_OFFSET_DATA d size)
      SE3_RECORD_OFFSET_TYPE tmp SE3_RECORD_SIZE_TYPE) SE3_RECORD_OFFSET_DATA) size) 0 size
      = Mem.read d 0 size := by
  unfold Mem.read
  apply List.map_congr_left
  intro i hi
  have hi2 : i < size := List.mem_range.mp hi
  simp [memcpy, Mem.shift, SE3_RECORD_OFFSET_TYPE, SE3_RECORD_SIZE_TYPE,
    SE3_RECORD_OFFSET_DATA, hi2]

/-- The flash after a successful write stage that ran on the first live
record of type `t`: the facts about live records used below. -/
theorem record_store_after (rc : RecordConfig) (t : Nat) (f g : se3_flash) (found : Bool)
    (a : Nat) (node : se3_flash_node)
    (huniq : at_most_one_record rc t f)
    (hfound : found = (record_first rc t f).isSome)
    (ha : ∀ i, record_first rc t f = some i → a = i)
    (hcount : g.count = f.count + 1)
    (hnode : g.nodes f.count = node)
    (hvalid : node.valid = true) (htype : node.type = rc.SE3_FLASH_TYPE_RECORD)
    (hfield : SE3_GET16 node.data SE3_RECORD_OFFSET_TYPE = t)
    (hold : ∀ i, i ≠ f.count → g.nodes i =
      if found = true ∧ i = a then { f.nodes i with valid := false } else f.nodes i) :
    record_first rc t g = some f.count ∧
    live_record rc t g f.count = true ∧
    (∀ j, j < g.count → live_record rc t g j = true → j = f.count) ∧
    (∀ i, i < f.count → live_record rc t f i = true → (g.nodes i).valid = false) ∧
    (∀ t1, t1 ≠ t →
      (∀ i, i < g.count →
        (live_record rc t1 g i = true ↔ i < f.count ∧ live_record rc t1 f i = true)) ∧
      (∀ i, i < f.count → live_record rc t1 f i = true → g.nodes i = f.nodes i) ∧
      record_first rc t1 g = record_first rc t1 f) := by
  have hs := find_range_spec (live_record rc t f) f.count
  -- every live record of type `t` of the old flash is the one found
  have hlive : ∀ j, j < f.count → live_record rc t f j = true → found = true ∧ j = a := by
    intro j hj hl
    cases hf : record_first rc t f with
    | none =>
      unfold record_first at hf
      rw [hf] at hs
      have := hs j hj
      rw [hl] at this
      exact absurd this (by simp)
    | some i =>
      have hai := ha i hf
      unfold record_first at hf
      rw [hf] at hs
      simp only at hs
      refine ⟨by rw [hfound]; unfold record_first; rw [hf]; rfl, ?_⟩
      rw [hai]
      exact huniq j hj i hs.1 hl hs.2.1
  have hfa : found = true → a < f.count ∧ live_record rc t f a = true := by
    intro hft
    cases hf : record_first rc t f with
    | none => rw [hfound, hf] at hft; exact absurd hft (by simp)
    | some i =>
      have hai := ha i hf
      unfold record_first at hf
      rw [hf] at hs
      simp only at hs
      rw [hai]
      exact ⟨hs.1, hs.2.1⟩
  have hnew : live_record rc t g f.count = true := by
    simp [live_record, hnode, hvalid, htype, hfield]
  have hnew1 : ∀ t1, t1 ≠ t → live_record rc t1 g f.count = false := by
    intro t1 ht1
    have : ¬ t = t1 := fun h => ht1 h.symm
    simp [live_record, hnode, hvalid, htype, hfield, this]
  -- below the old count, a live block of the new flash is an unchanged block
  have hbelow : ∀ t1 j, j < f.count → live_record rc t1 g j = true →
      g.nodes j = f.nodes j ∧ live_record rc t1 f j = true := by
    intro t1 j hj hl
    have hg := hold j (by omega)
    by_cases hc : found = true ∧ j = a
    · rw [if_pos hc] at hg
      simp [live_record, hg] at hl
    · rw [if_neg hc] at hg
      refine ⟨hg, ?_⟩
      simpa [live_record, hg] using hl
  have hold1 : ∀ t1, t1 ≠ t → ∀ j, j < f.count → live_record rc t1 f j = true →
      g.nodes j = f.nodes j := by
    intro t1 ht1 j hj hl
    have hg := hold j (by omega)
    by_cases hc : found = true ∧ j = a
    · have hla := (hfa hc.1).2
      rw [← hc.2] at hla
      simp only [live_record, Bool.and_eq_true, decide_eq_true_eq] at hl hla
      exact absurd (hl.2.symm.trans hla.2) ht1
    · rw [if_neg hc] at hg
      exact hg
  have hnot : ∀ j, j < f.count → live_record rc t g j = false := by
    intro j hj
    by_cases hl : live_record rc t g j = true
    · have h2 := hbelow t j hj hl
      have h3 := hlive j hj h2.2
      have hg := hold j (by omega)
      rw [if_pos h3] at hg
      simp [live_record, hg] at hl
    · simpa using hl
  refine ⟨?_, hnew, ?_, ?_, ?_⟩
  · unfold record_first
    rw [hcount]
    exact find_range_first _ _ _ (by omega) hnew hnot
  · intro j hj hl
    rw [hcount] at hj
    by_cases h1 : j < f.count
    · have := hnot j h1
      rw [hl] at this
      exact absurd this (by simp)
    · omega
  · intro i hi hl
    have h3 := hlive i hi hl
    have hg := hold i (by omega)
    rw [if_pos h3] at hg
    rw [hg]
  · intro t1 ht1
    refine ⟨?_, hold1 t1 ht1, ?_⟩
    · intro i hi
      rw [hcount] at hi
      constructor
      · intro hl
        by_cases h1 : i < f.count
        · exact ⟨h1, (hbelow t1 i h1 hl).2⟩
        · have : i = f.count := by omega
          subst this
          rw [hnew1 t1 ht1] at hl
          exact absurd hl (by simp)
      · intro ⟨h1, hl⟩
        have hg := hold1 t1 ht1 i h1 hl
        simpa [live_record, hg] using hl
    · unfold record_first
      apply find_range_congr _ _ _ _ (by omega)
      · intro j hj
        by_cases hl : live_record rc t1 f j = true
        · have hg := hold1 t1 ht1 j hj hl
          rw [hl]
          simpa [live_record, hg] using hl
        · have hl2 : live_record rc t1 f j = false := by simpa using hl
          rw [hl2]
          by_cases hl3 : live_record rc t1 g j = true
          · exact absurd (hbelow t1 j hj hl3).2 hl
          · simpa using hl3
      · intro j h1 h2
        have : j = f.count := by omega
        subst this
        exact hnew1 t1 ht1

/-- C14: record round trip and uniqueness. A type `t >= SE3_RECORD_MAX` makes
`record_set` and `record_get` return false with the flash, log included,
untouched. For `t < SE3_RECORD_MAX` and a flash with at most one live record
of type `t`, if `record_set(t, d)` returns true then `record_get(t)` returns
true with the `SE3_RECORD_SIZE` bytes of `d`, the new block is the only live
record of type `t` (a previous one is invalidated), and for every other type
the live records, their blocks and the result of `record_get` are
unchanged. -/
theorem record_set_then_get (rc : RecordConfig) (t : Nat) (d : Mem) (f : se3_flash)
    (h16 : t < 2 ^ 16) :
    (rc.SE3_RECORD_MAX ≤ t →
      record_set rc t d f = (false, f) ∧ ∀ out, record_get rc t out f = (false, out, f)) ∧
    (t < rc.SE3_RECORD_MAX → at_most_one_record rc t f → (record_set rc t d f).1 = true →
      (∀ out, (record_get rc t out (record_set rc t d f).2).1 = true ∧
        Mem.read (record_get rc t out (record_set rc t d f).2).2.1 0 rc.SE3_RECORD_SIZE =
          Mem.read d 0 rc.SE3_RECORD_SIZE) ∧
      (record_set rc t d f).2.count = f.count + 1 ∧
      live_record rc t (record_set rc t d f).2 f.count = true ∧
      (∀ j, j < (record_set rc t d f).2.count →
        live_record rc t (record_set rc t d f).2 j = true → j = f.count) ∧
      (∀ i, i < f.count → live_record rc t f i = true →
        ((record_set rc t d f).2.nodes i).valid = false) ∧
      (∀ t1, t1 ≠ t →
        (∀ i, i < (record_set rc t d f).2.count →
          (live_record rc t1 (record_set rc t d f).2 i = true ↔
            i < f.count ∧ live_record rc t1 f i = true)) ∧
        (∀ i, i < f.count → live_record rc t1 f i = true →
          (record_set rc t d f).2.nodes i = f.nodes i) ∧
        ∀ out, (record_get rc t1 out (record_set rc t d f).2).1 = (record_get rc t1 out f).1 ∧
          (record_get rc t1 out (record_set rc t d f).2).2.1 =
            (record_get rc t1 out f).2.1)) := by
  refine ⟨?_, ?_⟩
  · intro hge
    refine ⟨by simp [record_set, hge], fun out => by simp [record_get, hge]⟩
  · intro ht huniq hok
    obtain ⟨k, it, hit, hset⟩ := record_set_eq rc t d f ht
    rw [hset] at hok ⊢
    have hs := find_range_spec (live_record rc t f) f.count
    have hlt : (record_first rc t f).isSome = true → it.addr < (f.scanned k).count := by
      intro hsome
      cases hf : record_first rc t f with
      | none => rw [hf] at hsome; exact absurd hsome (by simp)
      | some i =>
        have hai := hit i hf
        unfold record_first at hf
        rw [hf] at hs
        rw [hai]
        exact hs.1
    obtain ⟨c1, c2, c3⟩ := record_set_write_ok rc t d _ (f.scanned k) it hlt hok
    generalize (record_set_write rc t d (record_first rc t f).isSome
      (f.scanned k) it).2 = g at c1 c2 c3 ⊢
    obtain ⟨r1, r2, r3, r4, r5⟩ := record_store_after rc t f g
      (record_first rc t f).isSome it.addr _ huniq rfl hit c1 c2 rfl rfl
      (record_type_field _ _ _ _ h16) c3
    refine ⟨?_, c1, r2, r3, r4, ?_⟩
    · intro out
      obtain ⟨k1, hget⟩ := record_get_eq rc t out g ht
      rw [hget, r1]
      refine ⟨rfl, ?_⟩
      have hn : g.nodes f.count = _ := c2
      simp only [hn]
      exact record_payload_field _ _ _ _ _
    · intro t1 ht1
      obtain ⟨q1, q2, q3⟩ := r5 t1 ht1
      refine ⟨q1, q2, ?_⟩
      intro out
      by_cases hmax : t1 < rc.SE3_RECORD_MAX
      · obtain ⟨k1, hget1⟩ := record_get_eq rc t1 out g hmax
        obtain ⟨k2, hget2⟩ := record_get_eq rc t1 out f hmax
        rw [hget1, hget2, q3]
        cases hf : record_first rc t1 f with
        | none => exact ⟨rfl, rfl⟩
        | some i =>
          have hs1 := find_range_spec (live_record rc t1 f) f.count
          unfold record_first at hf
          rw [hf] at hs1
          simp only at hs1
          have := q2 i hs1.1 hs1.2.1
          simp only [this]
          exact ⟨trivial, trivial⟩
      · have hge : t1 ≥ rc.SE3_RECORD_MAX := by omega
        simp [record_get, hge]

/-- On the sample flash, which holds the record `00 11 22 33` of type 7,
`record_set(7, FF FE FD FC)` replaces it: `record_get(7)` returns the new
bytes and the old block is invalidated. -/
theorem record_set_then_get_witness :
    Mem.read (record_get sample_rc 7 (fun _ => 0)
      (record_set sample_rc 7 (Mem.ofList [0xFF, 0xFE, 0xFD, 0xFC]) (sample_flash 9)).2).2.1 0 4
      = [0xFF, 0xFE, 0xFD, 0xFC] ∧
    ((record_set sample_rc 7 (Mem.ofList [0xFF, 0xFE, 0xFD, 0xFC])
      (sample_flash 9)).2.nodes 1).valid = false :=
  have h := (record_set_then_get sample_rc 7 (Mem.ofList [0xFF, 0xFE, 0xFD, 0xFC])
    (sample_flash 9) (by decide)).2 (by decide) (by decide) (by decide)
  ⟨(h.1 (fun _ => 0)).2, h.2.2.2.2.1 1 (by decide) (by decide)⟩

/-- The calls of the write stage of `record_set`: a delete comes last, after
a successful `new` and two successful writes on the new block, and only for
a block found before; when `new` or a write fails the stage returns false
without a delete, and the blocks that were there are untouched. -/
theorem record_set_write_trace (rc : RecordConfig) (t : Nat) (d : Mem) (found : Bool)
    (g : se3_flash) (it : se3_flash_it) :
    ∃ evs, (record_set_write rc t d found g it).2.log = g.log ++ evs ∧
      (∀ a ok, FlashEvent.se3_flash_it_delete a ok ∈ evs →
        found = true ∧ a = it.addr ∧
        evs = [FlashEvent.se3_flash_it_new rc.SE3_FLASH_TYPE_RECORD
            (SE3_RECORD_SIZE_TYPE + rc.SE3_RECORD_SIZE) true,
          FlashEvent.se3_flash_it_write g.count SE3_RECORD_OFFSET_DATA rc.SE3_RECORD_SIZE true,
          FlashEvent.se3_flash_it_write g.count SE3_RECORD_OFFSET_TYPE SE3_RECORD_SIZE_TYPE true,
          FlashEvent.se3_flash_it_delete a ok]) ∧
      ((∃ e ∈ evs, e.is_failed_write = true) →
        (record_set_write rc t d found g it).1 = false ∧
        (∀ e ∈ evs, e.is_delete = false) ∧
        g.count ≤ (record_set_write rc t d found g it).2.count ∧
        ∀ i, i < g.count → (record_set_write rc t d found g it).2.nodes i = g.nodes i) := by
  by_cases h0 : g.fails g.ops = true
  · refine ⟨[FlashEvent.se3_flash_it_new rc.SE3_FLASH_TYPE_RECORD
      (SE3_RECORD_SIZE_TYPE + rc.SE3_RECORD_SIZE) false], ?_, ?_, ?_⟩
    · simp [record_set_write, se3_flash_it_new, h0]
    · simp
    · simp [record_set_write, se3_flash_it_new, h0, FlashEvent.is_delete]
  · by_cases h1 : g.fails (g.ops + 1) = true
    · refine ⟨[FlashEvent.se3_flash_it_new rc.SE3_FLASH_TYPE_RECORD
          (SE3_RECORD_SIZE_TYPE + rc.SE3_RECORD_SIZE) true,
        FlashEvent.se3_flash_it_write g.count SE3_RECORD_OFFSET_DATA rc.SE3_RECORD_SIZE
          false], ?_, ?_, ?_⟩
      · simp [record_set_write, se3_flash_it_new, se3_flash_it_write, h0, h1]
      · simp
      · intro _
        refine ⟨?_, ?_, ?_, ?_⟩
        · simp [record_set_write, se3_flash_it_new, se3_flash_it_write, h0, h1]
        · simp [FlashEvent.is_delete]
        · simp [record_set_write, se3_flash_it_new, se3_flash_it_write, h0, h1]
        · intro i hi
          have hne : i ≠ g.count := by omega
          simp [record_set_write, se3_flash_it_new, se3_flash_it_write, h0, h1,
            Function.update_noteq hne]
    · by_cases h2 : g.fails (g.ops + 1 + 1) = true
      · refine ⟨[FlashEvent.se3_flash_it_new rc.SE3_FLASH_TYPE_RECORD
            (SE3_RECORD_SIZE_TYPE + rc.SE3_RECORD_SIZE) true,
          FlashEvent.se3_flash_it_write g.count SE3_RECORD_OFFSET_DATA rc.SE3_RECORD_SIZE
            true,
          FlashEvent.se3_flash_it_write g.count SE3_RECORD_OFFSET_TYPE SE3_RECORD_SIZE_TYPE
            false], ?_, ?_, ?_⟩
        · simp [record_set_write, se3_flash_it_new, se3_flash_it_write, h0, h1, h2]
        · simp
        · intro _
          refine ⟨?_, ?_, ?_, ?_⟩
          · simp [record_set_write, se3_flash_it_new, se3_flash_it_write, h0, h1, h2]
          · simp [FlashEvent.is_delete]
          · simp [record_set_write, se3_flash_it_new, se3_flash_it_write, h0, h1, h2]
          · intro i hi
            have hne : i ≠ g.count := by omega
            simp [record_set_write, se3_flash_it_new, se3_flash_it_write, h0, h1, h2,
              Function.update_noteq hne]
      · cases found with
        | false =>
          refine ⟨[FlashEvent.se3_flash_it_new rc.SE3_FLASH_TYPE_RECORD
              (SE3_RECORD_SIZE_TYPE + rc.SE3_RECORD_SIZE) true,
            FlashEvent.se3_flash_it_write g.count SE3_RECORD_OFFSET_DATA rc.SE3_RECORD_SIZE
              true,
            FlashEvent.se3_flash_it_write g.count SE3_RECORD_OFFSET_TYPE SE3_RECORD_SIZE_TYPE
              true], ?_, ?_, ?_⟩
          · simp [record_set_write, se3_flash_it_new, se3_flash_it_write, h0, h1, h2]
          · simp
          · simp [FlashEvent.is_failed_write]
        | true =>
          refine ⟨[FlashEvent.se3_flash_it_new rc.SE3_FLASH_TYPE_RECORD
              (SE3_RECORD_SIZE_TYPE + rc.SE3_RECORD_SIZE) true,
            FlashEvent.se3_flash_it_write g.count SE3_RECORD_OFFSET_DATA rc.SE3_RECORD_SIZE
              true,
            FlashEvent.se3_flash_it_write g.count SE3_RECORD_OFFSET_TYPE SE3_RECORD_SIZE_TYPE
              true,
            FlashEvent.se3_flash_it_delete it.addr (!(g.fails (g.ops + 1 + 1 + 1)))],
            ?_, ?_, ?_⟩
          · by_cases h3 : g.fails (g.ops + 1 + 1 + 1) = true
            · simp [record_set_write, se3_flash_it_new, se3_flash_it_write,
                se3_flash_it_delete, h0, h1, h2, h3]
            · simp [record_set_write, se3_flash_it_new, se3_flash_it_write,
                se3_flash_it_delete, h0, h1, h2, h3]
          · intro a ok hmem
            simp only [List.mem_cons, List.mem_singleton, List.not_mem_nil, or_false,
              reduceCtorEq, false_or, FlashEvent.se3_flash_it_delete.injEq] at hmem
            refine ⟨rfl, hmem.1, ?_⟩
            rw [hmem.1, hmem.2]
          · simp [FlashEvent.is_failed_write]

/-- C15: write-new-then-delete-old. In every run of `record_set`, a call of
`se3_flash_it_delete` is the last call, it is on the first live record of the
type, found by the scan, and it comes right after a successful
`se3_flash_it_new` and the successful writes of the payload at
`SE3_RECORD_OFFSET_DATA` and then of the two bytes of the type at
`SE3_RECORD_OFFSET_TYPE`, both on the new block. When the allocation or a
write fails, `record_set` returns false, makes no call of
`se3_flash_it_delete`, and a `record_get` of the type that succeeded before
succeeds after with the same payload. -/
theorem record_set_write_new_then_delete (rc : RecordConfig) (t : Nat) (d : Mem)
    (f : se3_flash) :
    (record_set rc t d f).2.log = f.log ++ record_set_events rc t d f ∧
    (∀ a ok, FlashEvent.se3_flash_it_delete a ok ∈ record_set_events rc t d f →
      record_first rc t f = some a ∧
      ∃ scan, (∀ e ∈ scan, e.is_scan = true) ∧
        record_set_events rc t d f = scan ++
          [FlashEvent.se3_flash_it_new rc.SE3_FLASH_TYPE_RECORD
              (SE3_RECORD_SIZE_TYPE + rc.SE3_RECORD_SIZE) true,
            FlashEvent.se3_flash_it_write f.count SE3_RECORD_OFFSET_DATA
              rc.SE3_RECORD_SIZE true,
            FlashEvent.se3_flash_it_write f.count SE3_RECORD_OFFSET_TYPE
              SE3_RECORD_SIZE_TYPE true,
            FlashEvent.se3_flash_it_delete a ok]) ∧
    ((∃ e ∈ record_set_events rc t d f, e.is_failed_write = true) →
      (record_set rc t d f).1 = false ∧
      (∀ e ∈ record_set_events rc t d f, e.is_delete = false) ∧
      ∀ out, (record_get rc t out f).1 = true →
        (record_get rc t out (record_set rc t d f).2).1 = true ∧
        (record_get rc t out (record_set rc t d f).2).2.1 = (record_get rc t out f).2.1) := by
  by_cases ht : t < rc.SE3_RECORD_MAX
  · obtain ⟨k, it, hit, hset⟩ := record_set_eq rc t d f ht
    obtain ⟨evs, hlog, hdel, hfail⟩ := record_set_write_trace rc t d
      (record_first rc t f).isSome (f.scanned k) it
    have hev : record_set_events rc t d f =
        (FlashEvent.se3_flash_it_init :: List.replicate k FlashEvent.se3_flash_it_next)
          ++ evs := by
      unfold record_set_events
      rw [hset, hlog]
      simp [se3_flash.scanned]
    have hscan : ∀ e ∈ FlashEvent.se3_flash_it_init ::
        List.replicate k FlashEvent.se3_flash_it_next, e.is_scan = true := by
      intro e he
      rcases List.mem_cons.mp he with h1 | h1
      · rw [h1]; rfl
      · rw [(List.mem_replicate.mp h1).2]; rfl
    refine ⟨?_, ?_, ?_⟩
    · rw [hev, hset, hlog]
      simp [se3_flash.scanned]
    · intro a ok hmem
      rw [hev] at hmem ⊢
      rcases List.mem_append.mp hmem with h1 | h1
      · have := hscan _ h1
        exact absurd this (by simp [FlashEvent.is_scan])
      · obtain ⟨hfound, haddr, hevs⟩ := hdel a ok h1
        refine ⟨?_, _, hscan, ?_⟩
        · cases hf : record_first rc t f with
          | none => rw [hf] at hfound; exact absurd hfound (by simp)
          | some i => rw [haddr, hit i hf]
        · rw [hevs]
          rfl
    · intro hex
      have hex2 : ∃ e ∈ evs, e.is_failed_write = true := by
        obtain ⟨e, he, hfw⟩ := hex
        rw [hev] at he
        rcases List.mem_append.mp he with h1 | h1
        · have := hscan _ h1
          cases e <;> simp [FlashEvent.is_scan, FlashEvent.is_failed_write] at this hfw
        · exact ⟨e, h1, hfw⟩
      obtain ⟨f1, f2, f3, f4⟩ := hfail hex2
      refine ⟨by rw [hset]; exact f1, ?_, ?_⟩
      · intro e he
        rw [hev] at he
        rcases List.mem_append.mp he with h1 | h1
        · have := hscan _ h1
          cases e <;> simp [FlashEvent.is_scan, FlashEvent.is_delete] at this ⊢
        · exact f2 e h1
      · intro out hget
        rw [hset]
        generalize (record_set_write rc t d (record_first rc t f).isSome
          (f.scanned k) it).2 = g at f3 f4 ⊢
        obtain ⟨k1, hg1⟩ := record_get_eq rc t out f ht
        obtain ⟨k2, hg2⟩ := record_get_eq rc t out g ht
        have hs := find_range_spec (live_record rc t f) f.count
        cases hf : record_first rc t f with
        | none => rw [hg1, hf] at hget; exact absurd hget (by simp)
        | some i =>
          have hf2 := hf
          unfold record_first at hf2
          rw [hf2] at hs
          simp only at hs
          have hcount : f.count ≤ g.count := f3
          have hnodes : ∀ j, j < f.count → g.nodes j = f.nodes j := f4
          have hfg : record_first rc t g = some i := by
            unfold record_first
            apply find_range_first _ _ _ (by omega)
            · have := hs.2.1
              simpa [live_record, hnodes i hs.1] using this
            · intro j hj
              have := hs.2.2 j hj
              simpa [live_record, hnodes j (by omega)] using this
          rw [hg1, hg2, hf, hfg]
          simp only [hnodes i hs.1]
          exact ⟨trivial, trivial⟩
  · have hge : t ≥ rc.SE3_RECORD_MAX := by omega
    have hev : record_set_events rc t d f = [] := by
      simp [record_set_events, record_set, hge]
    rw [hev]
    refine ⟨by simp [record_set, hge], by simp, by simp⟩

/-- On the sample flash, which holds the record `00 11 22 33` of type 7: when
the write of the payload fails, `record_set(7, FF FE FD FC)` returns false
and `record_get(7)` still returns `00 11 22 33`; when nothing fails, the
delete is on block 1, the record found. -/
theorem record_set_write_new_then_delete_witness :
    ((record_set sample_rc 7 (Mem.ofList [0xFF, 0xFE, 0xFD, 0xFC]) (sample_flash 1)).1 = false ∧
      Mem.read (record_get sample_rc 7 (fun _ => 0)
        (record_set sample_rc 7 (Mem.ofList [0xFF, 0xFE, 0xFD, 0xFC])
          (sample_flash 1)).2).2.1 0 4 = [0x00, 0x11, 0x22, 0x33]) ∧
    record_first sample_rc 7 (sample_flash 9) = some 1 :=
  have h := (record_set_write_new_then_delete sample_rc 7
    (Mem.ofList [0xFF, 0xFE, 0xFD, 0xFC]) (sample_flash 1)).2.2
    ⟨FlashEvent.se3_flash_it_write 2 2 4 false, by decide, rfl⟩
  ⟨⟨h.1, (congrArg (fun m => Mem.read m 0 4) (h.2.2 (fun _ => 0) (by decide)).2).trans rfl⟩,
    ((record_set_write_new_then_delete sample_rc 7
      (Mem.ofList [0xFF, 0xFE, 0xFD, 0xFC]) (sample_flash 9)).2.1 1 true (by decide)).1⟩

end SE3
